import Mathlib

/-!
# Fragment shader generator of the GLES backend

A shallow embedding of `GPU/GLES/FragmentShaderGenerator.cpp`: the three state
classifiers (`IsAlphaTestTriviallyTrue`, `IsColorTestTriviallyTrue`,
`CanDoubleSrcBlendMode`), the shader identifier (`ComputeFragmentShaderID`) and
the shader text (`GenerateFragmentShader`).

The C++ functions read two globals, `gstate` (the GE registers, through accessor
methods) and `gstate_c` (cached values).  Here both are explicit arguments: a
record holding what each accessor returns.  Text written through
`WRITE p+=sprintf` is modelled as the sequence of strings written, the buffer
being their concatenation.
-/

/-! ## Constants of `ge_constants.h` -/

/-- Modelled from the spec: `ge_constants.h` is not part of the sources; the
comparison codes are the hardware codes NEVER=0, ALWAYS=1, EQUAL=2, NOTEQUAL=3,
LESS=4, LEQUAL=5, GREATER=6, GEQUAL=7. -/
def GE_COMP_NEVER : Nat := 0
/-- Modelled from the spec: hardware comparison code ALWAYS=1 (`ge_constants.h`). -/
def GE_COMP_ALWAYS : Nat := 1
/-- Modelled from the spec: hardware comparison code EQUAL=2 (`ge_constants.h`). -/
def GE_COMP_EQUAL : Nat := 2
/-- Modelled from the spec: hardware comparison code NOTEQUAL=3 (`ge_constants.h`). -/
def GE_COMP_NOTEQUAL : Nat := 3
/-- Modelled from the spec: hardware comparison code LESS=4 (`ge_constants.h`). -/
def GE_COMP_LESS : Nat := 4
/-- Modelled from the spec: hardware comparison code LEQUAL=5 (`ge_constants.h`). -/
def GE_COMP_LEQUAL : Nat := 5
/-- Modelled from the spec: hardware comparison code GREATER=6 (`ge_constants.h`). -/
def GE_COMP_GREATER : Nat := 6
/-- Modelled from the spec: hardware comparison code GEQUAL=7 (`ge_constants.h`). -/
def GE_COMP_GEQUAL : Nat := 7

/-- Modelled from the spec: source blend factor SRC_ALPHA of `ge_constants.h`
(not part of the sources); source and destination factors share their codes,
which for the destination side are the indices of `safeDestFactors`. -/
def GE_SRCBLEND_SRCALPHA : Nat := 2
/-- Modelled from the spec: source blend factor DOUBLE_SRC_ALPHA of `ge_constants.h`. -/
def GE_SRCBLEND_DOUBLESRCALPHA : Nat := 6
/-- Modelled from the spec: destination blend factor SRC_ALPHA of `ge_constants.h`,
index 2 of `safeDestFactors`. -/
def GE_DSTBLEND_SRCALPHA : Nat := 2
/-- Modelled from the spec: destination blend factor INV_SRC_ALPHA of
`ge_constants.h`, index 3 of `safeDestFactors`. -/
def GE_DSTBLEND_INVSRCALPHA : Nat := 3
/-- Modelled from the spec: destination blend factor DOUBLE_SRC_ALPHA of
`ge_constants.h`, index 6 of `safeDestFactors`. -/
def GE_DSTBLEND_DOUBLESRCALPHA : Nat := 6
/-- Modelled from the spec: destination blend factor DOUBLE_INV_SRC_ALPHA of
`ge_constants.h`, index 7 of `safeDestFactors`. -/
def GE_DSTBLEND_DOUBLEINVSRCALPHA : Nat := 7

/-- Modelled from the spec: texture function MODULATE of `ge_constants.h` (not
part of the sources); the codes 0..4 follow the order MODULATE, DECAL, BLEND,
REPLACE, ADD of the specification and of the switches of lines 288-317. -/
def GE_TEXFUNC_MODULATE : Nat := 0
/-- Modelled from the spec: texture function DECAL of `ge_constants.h`. -/
def GE_TEXFUNC_DECAL : Nat := 1
/-- Modelled from the spec: texture function BLEND of `ge_constants.h`. -/
def GE_TEXFUNC_BLEND : Nat := 2
/-- Modelled from the spec: texture function REPLACE of `ge_constants.h`. -/
def GE_TEXFUNC_REPLACE : Nat := 3
/-- Modelled from the spec: texture function ADD of `ge_constants.h`. -/
def GE_TEXFUNC_ADD : Nat := 4

/-- Modelled from the spec: UV generation mode "texture matrix" (projection) of
`ge_constants.h`; the generator only compares the mode with this constant. -/
def GE_TEXMAP_TEXTURE_MATRIX : Nat := 1

/-! ## The state read by the generator -/

/-- Modelled from the spec: the GPU vendor identifier of `GPUState.h` (not part
of the sources).  The generator only compares it with `GPU_VENDOR_POWERVR`. -/
inductive GPUVendor where
  | GPU_VENDOR_POWERVR
  | GPU_VENDOR_OTHER
  deriving DecidableEq, Repr

/-- Modelled from the spec: the accessors of `gstate` (`GPUState.h`, not part of
the sources) that the generator calls.  A field holds what the accessor of the
same name returns.  Codes and references are natural numbers; a theorem that
needs a code within its register field (function codes 0..7 and 0..3, blend
factors 0..15, reference and mask 0..255) says so. -/
structure GPUgstate where
  isModeClear : Bool
  isModeThrough : Bool
  isTextureMapEnabled : Bool
  getTextureFunction : Nat
  isTextureAlphaUsed : Bool
  isColorDoublingEnabled : Bool
  isUsingSecondaryColor : Bool
  isLightingEnabled : Bool
  isFogEnabled : Bool
  isAlphaTestEnabled : Bool
  getAlphaTestFunction : Nat
  getAlphaTestRef : Nat
  getAlphaTestMask : Nat
  isColorTestEnabled : Bool
  getColorTestFunction : Nat
  getColorTestMask : Nat
  isDepthTestEnabled : Bool
  isStencilTestEnabled : Bool
  isAlphaBlendEnabled : Bool
  getBlendFuncA : Nat
  getBlendFuncB : Nat
  getUVGenMode : Nat
  deriving DecidableEq, Repr

/-- Modelled from the spec: the two fields of `gstate_c` (`GPUState.h`, not part
of the sources) that the generator reads. -/
structure GPUStateCache where
  textureFullAlpha : Bool
  gpuVendor : GPUVendor
  deriving DecidableEq, Repr

/-- The two draw counters of `gpuStats` that `ComputeFragmentShaderID` increments. -/
structure GPUStatistics where
  numAlphaTestedDraws : Nat
  numNonAlphaTestedDraws : Nat
  deriving DecidableEq, Repr

/-- The identifier: `d` is the array of 32-bit words `id->d`. -/
structure FragmentShaderID where
  d : List Nat
  deriving DecidableEq, Repr

/-- The preprocessor symbols tested at lines 18-28. -/
structure BuildConfig where
  USING_GLES2 : Bool
  APPLE : Bool
  deriving DecidableEq, Repr

/-- Lines 18-19: `GLSL_ES_1_0` is defined exactly when `USING_GLES2` is. -/
def BuildConfig.GLSL_ES_1_0 (cfg : BuildConfig) : Bool := cfg.USING_GLES2

/-- Lines 20-21: `GLSL_1_3` is defined otherwise. -/
def BuildConfig.GLSL_1_3 (cfg : BuildConfig) : Bool := !cfg.USING_GLES2

/-- Lines 25-27: `FORCE_OPENGL_2_0` is defined in the `GLSL_1_3` branch when
`__APPLE__` is. -/
def BuildConfig.FORCE_OPENGL_2_0 (cfg : BuildConfig) : Bool := !cfg.USING_GLES2 && cfg.APPLE

/-! ## State classifiers -/

/-- Lines 44-56: `safeDestFactors[16]`, eleven initialisers, the rest
zero-initialised. -/
def safeDestFactors : List Bool :=
  [ true,   -- GE_DSTBLEND_SRCCOLOR
    true,   -- GE_DSTBLEND_INVSRCCOLOR
    false,  -- GE_DSTBLEND_SRCALPHA
    true,   -- GE_DSTBLEND_INVSRCALPHA
    true,   -- GE_DSTBLEND_DSTALPHA
    true,   -- GE_DSTBLEND_INVDSTALPHA
    false,  -- GE_DSTBLEND_DOUBLESRCALPHA
    false,  -- GE_DSTBLEND_DOUBLEINVSRCALPHA
    true,   -- GE_DSTBLEND_DOUBLEDSTALPHA
    true,   -- GE_DSTBLEND_DOUBLEINVDSTALPHA
    true,   -- GE_DSTBLEND_FIXB
    false, false, false, false, false ]

/-- Lines 59-97.  The mask is read (line 62) and not used.  An index outside the
sixteen entries of `safeDestFactors` (which the 4-bit accessor cannot return)
reads as `false`. -/
def IsAlphaTestTriviallyTrue (gstate : GPUgstate) : Bool :=
  let alphaTestFunc := gstate.getAlphaTestFunction
  let alphaTestRef := gstate.getAlphaTestRef
  if alphaTestFunc = GE_COMP_NEVER then false
  else if alphaTestFunc = GE_COMP_ALWAYS then true
  else if alphaTestFunc = GE_COMP_GEQUAL then alphaTestRef == 0
  else if alphaTestFunc = GE_COMP_NOTEQUAL ∨ alphaTestFunc = GE_COMP_GREATER then
    let depthTest := gstate.isDepthTestEnabled
    let stencilTest := gstate.isStencilTestEnabled
    let src := gstate.getBlendFuncA
    let dst := gstate.getBlendFuncB
    if (!stencilTest && !depthTest && alphaTestRef == 0 && gstate.isAlphaBlendEnabled
        && src == GE_SRCBLEND_SRCALPHA && safeDestFactors.getD dst false) = true then true
    else false
  else if alphaTestFunc = GE_COMP_LEQUAL then alphaTestRef == 255
  else if alphaTestFunc = GE_COMP_EQUAL ∨ alphaTestFunc = GE_COMP_LESS then false
  else false

/-- Lines 99-114. -/
def IsColorTestTriviallyTrue (gstate : GPUgstate) : Bool :=
  let colorTestFunc := gstate.getColorTestFunction
  if colorTestFunc = GE_COMP_NEVER then false
  else if colorTestFunc = GE_COMP_ALWAYS then true
  else if colorTestFunc = GE_COMP_EQUAL ∨ colorTestFunc = GE_COMP_NOTEQUAL then false
  else false

/-- Lines 116-141. -/
def CanDoubleSrcBlendMode (gstate : GPUgstate) : Bool :=
  if !gstate.isAlphaBlendEnabled then false
  else
    let funcA := gstate.getBlendFuncA
    let funcB := gstate.getBlendFuncB
    -- lines 123-126: swap so that the doubled factor, if any, is `funcA`
    let (funcA, funcB) :=
      if funcA ≠ GE_SRCBLEND_DOUBLESRCALPHA then (gstate.getBlendFuncB, funcA) else (funcA, funcB)
    if funcA ≠ GE_SRCBLEND_DOUBLESRCALPHA then false
    else if funcB = GE_DSTBLEND_SRCALPHA ∨ funcB = GE_DSTBLEND_INVSRCALPHA then false
    else true

/-! ## The identifier -/

/-- The statement `id->d[0] |= v` on a 32-bit word. -/
def or32 (w v : Nat) : Nat := (w ||| v) % 2 ^ 32

/-- The expression `(b & 1)` on a `bool`. -/
def and1 (b : Bool) : Nat := b.toNat &&& 1

/-- Lines 146-190.  `id` is the identifier pointed to on entry; the result is
the identifier on exit together with the updated draw counters.  Word 0 is
zero after the `memset` of line 147, so the `|=` chain starts from 0. -/
def ComputeFragmentShaderID (id : FragmentShaderID) (gstate : GPUgstate)
    (gstate_c : GPUStateCache) (gpuStats : GPUStatistics) : FragmentShaderID × GPUStatistics :=
  let d := id.d.map (fun _ => 0)
  if gstate.isModeClear then
    ({ d := d.set 0 1 }, gpuStats)
  else
    let lmode := gstate.isUsingSecondaryColor && gstate.isLightingEnabled
    let enableFog := gstate.isFogEnabled && !gstate.isModeThrough
    let enableAlphaTest := gstate.isAlphaTestEnabled && !IsAlphaTestTriviallyTrue gstate
    let enableColorTest := gstate.isColorTestEnabled && !IsColorTestTriviallyTrue gstate
    let enableColorDoubling := gstate.isColorDoublingEnabled
    let enableAlphaDoubling := CanDoubleSrcBlendMode gstate
    let doTextureProjection := gstate.getUVGenMode == GE_TEXMAP_TEXTURE_MATRIX
    let doTextureAlpha := gstate.isTextureAlphaUsed
    let doTextureAlpha :=
      if gstate_c.textureFullAlpha && gstate.getTextureFunction != GE_TEXFUNC_REPLACE then false
      else doTextureAlpha
    let w : Nat := 0
    let w :=
      if gstate.isTextureMapEnabled then
        or32 (or32 (or32 w (1 <<< 1)) (gstate.getTextureFunction <<< 2)) (and1 doTextureAlpha <<< 5)
      else w
    let w := or32 w (and1 lmode <<< 7)
    let w := or32 w (gstate.isAlphaTestEnabled.toNat <<< 8)
    let w := if enableAlphaTest then or32 w (gstate.getAlphaTestFunction <<< 9) else w
    let w := or32 w (gstate.isColorTestEnabled.toNat <<< 12)
    let w := if enableColorTest then or32 w (gstate.getColorTestFunction <<< 13) else w
    let w := or32 w (and1 enableFog <<< 15)
    let w := or32 w (and1 doTextureProjection <<< 16)
    let w := or32 w (and1 enableColorDoubling <<< 17)
    let w := or32 w (and1 enableAlphaDoubling <<< 18)
    let gpuStats :=
      if enableAlphaTest then
        { gpuStats with numAlphaTestedDraws := gpuStats.numAlphaTestedDraws + 1 }
      else
        { gpuStats with numNonAlphaTestedDraws := gpuStats.numNonAlphaTestedDraws + 1 }
    ({ d := d.set 0 w }, gpuStats)

/-! ## The shader text -/

namespace GenerateFragmentShader

/-- Line 204. -/
def lmode (gstate : GPUgstate) : Bool :=
  gstate.isUsingSecondaryColor && gstate.isLightingEnabled

/-- Line 205. -/
def doTexture (gstate : GPUgstate) : Bool :=
  gstate.isTextureMapEnabled && !gstate.isModeClear

/-- Line 206. -/
def enableFog (gstate : GPUgstate) : Bool :=
  gstate.isFogEnabled && !gstate.isModeThrough && !gstate.isModeClear

/-- Line 207. -/
def enableAlphaTest (gstate : GPUgstate) : Bool :=
  gstate.isAlphaTestEnabled && !IsAlphaTestTriviallyTrue gstate && !gstate.isModeClear

/-- Line 208. -/
def enableColorTest (gstate : GPUgstate) : Bool :=
  gstate.isColorTestEnabled && !IsColorTestTriviallyTrue gstate && !gstate.isModeClear

/-- Line 209. -/
def enableColorDoubling (gstate : GPUgstate) : Bool :=
  gstate.isColorDoublingEnabled

/-- Line 211. -/
def enableAlphaDoubling (gstate : GPUgstate) : Bool :=
  CanDoubleSrcBlendMode gstate

/-- Line 212. -/
def doTextureProjection (gstate : GPUgstate) : Bool :=
  gstate.getUVGenMode == GE_TEXMAP_TEXTURE_MATRIX

/-- Lines 213-216. -/
def doTextureAlpha (gstate : GPUgstate) (gstate_c : GPUStateCache) : Bool :=
  if gstate_c.textureFullAlpha && gstate.getTextureFunction != GE_TEXFUNC_REPLACE then false
  else gstate.isTextureAlphaUsed

/-- Lines 197-202: the strings written before the declarations. -/
def preamble (cfg : BuildConfig) : List String :=
  if cfg.GLSL_ES_1_0 then ["#version 100\n", "precision lowp float;\n"]
  else if !cfg.FORCE_OPENGL_2_0 then ["#version 110\n"]
  else []

/-- Lines 218-249: the uniform and varying declarations. -/
def declarations (cfg : BuildConfig) (gstate : GPUgstate) : List String :=
  (if doTexture gstate then ["uniform sampler2D tex;\n"] else [])
  ++ (if enableAlphaTest gstate || enableColorTest gstate then
        [ if cfg.GLSL_ES_1_0 then "uniform mediump vec4 u_alphacolorref;\n"
          else "uniform vec4 u_alphacolorref;\n",
          "uniform vec4 u_colormask;\n" ]
      else [])
  ++ (if gstate.isTextureMapEnabled then ["uniform vec3 u_texenv;\n"] else [])
  ++ ["varying vec4 v_color0;\n"]
  ++ (if lmode gstate then ["varying vec3 v_color1;\n"] else [])
  ++ (if enableFog gstate then
        [ "uniform vec3 u_fogcolor;\n",
          if cfg.GLSL_ES_1_0 then "varying mediump float v_fogdepth;\n"
          else "varying float v_fogdepth;\n" ]
      else [])
  ++ (if doTexture gstate then
        [ if doTextureProjection gstate then "varying vec3 v_texcoord;\n"
          else "varying vec2 v_texcoord;\n" ]
      else [])

/-- Lines 251-262: the quantization helper functions. -/
def helpers (gstate : GPUgstate) (gstate_c : GPUStateCache) : List String :=
  (if enableAlphaTest gstate then
        [ if gstate_c.gpuVendor = GPUVendor.GPU_VENDOR_POWERVR then
            "float roundTo255th(in mediump float x) \x7b mediump float y = x + (0.5/255.0); return y - fract(y * 255.0) * (1.0 / 255.0); \x7d\n"
          else
            "float roundAndScaleTo255f(in float x) \x7b return floor(x * 255.0 + 0.5); \x7d\n" ]
      else [])
  ++ (if enableColorTest gstate then
        [ if gstate_c.gpuVendor = GPUVendor.GPU_VENDOR_POWERVR then
            "vec3 roundTo255thv(in vec3 x) \x7b vec3 y = x + (0.5/255.0); return y - fract(y * 255.0) * (1.0 / 255.0); \x7d\n"
          else
            "vec3 roundAndScaleTo255v(in vec3 x) \x7b return floor(x * 255.0 + 0.5); \x7d\n" ]
      else [])

/-- Line 326: never/always have the placeholder `#`. -/
def alphaTestFuncs : List String :=
  ["#", "#", " != ", " == ", " >= ", " > ", " <= ", " < "]

/-- Line 349. -/
def colorTestFuncs : List String :=
  ["#", "#", " != ", " == "]

/-- Lines 287-301: the combine statement when the texture alpha is used. -/
def combineRGBA (texFunc : Nat) (secondary : String) : String :=
  if texFunc = GE_TEXFUNC_MODULATE then "  vec4 v = p * t" ++ secondary ++ ";\n"
  else if texFunc = GE_TEXFUNC_DECAL then
    "  vec4 v = vec4(mix(p.rgb, t.rgb, t.a), p.a)" ++ secondary ++ ";\n"
  else if texFunc = GE_TEXFUNC_BLEND then
    "  vec4 v = vec4(mix(p.rgb, u_texenv.rgb, t.rgb), p.a * t.a)" ++ secondary ++ ";\n"
  else if texFunc = GE_TEXFUNC_REPLACE then "  vec4 v = t" ++ secondary ++ ";\n"
  else if texFunc = GE_TEXFUNC_ADD then
    "  vec4 v = vec4(p.rgb + t.rgb, p.a * t.a)" ++ secondary ++ ";\n"
  else "  vec4 v = p;\n"

/-- Lines 303-317: the combine statement when the texture alpha is not used. -/
def combineRGB (texFunc : Nat) (secondary : String) : String :=
  if texFunc = GE_TEXFUNC_MODULATE then
    "  vec4 v = vec4(t.rgb * p.rgb, p.a)" ++ secondary ++ ";\n"
  else if texFunc = GE_TEXFUNC_DECAL then "  vec4 v = vec4(t.rgb, p.a)" ++ secondary ++ ";\n"
  else if texFunc = GE_TEXFUNC_BLEND then
    "  vec4 v = vec4(mix(p.rgb, u_texenv.rgb, t.rgb), p.a)" ++ secondary ++ ";\n"
  else if texFunc = GE_TEXFUNC_REPLACE then "  vec4 v = vec4(t.rgb, p.a)" ++ secondary ++ ";\n"
  else if texFunc = GE_TEXFUNC_ADD then
    "  vec4 v = vec4(p.rgb + t.rgb, p.a)" ++ secondary ++ ";\n"
  else "  vec4 v = p;\n"

/-- Lines 266-366: the statements written between `void main() {` and the
closing brace.  A function code outside a table (which the 3-bit and 2-bit
accessors cannot return) reads the placeholder `#`. -/
def body (gstate : GPUgstate) (gstate_c : GPUStateCache) : List String :=
  if gstate.isModeClear then
    ["  gl_FragColor = v_color0;\n"]
  else
    let secondary := if lmode gstate then " + s" else ""
    (if lmode gstate then ["  vec4 s = vec4(v_color1, 0.0);\n"] else [])
    ++ (if gstate.isTextureMapEnabled then
          [ if doTextureProjection gstate then "  vec4 t = texture2DProj(tex, v_texcoord);\n"
            else "  vec4 t = texture2D(tex, v_texcoord);\n",
            "  vec4 p = v_color0;\n",
            if doTextureAlpha gstate gstate_c then
              combineRGBA gstate.getTextureFunction secondary
            else
              combineRGB gstate.getTextureFunction secondary ]
        else
          ["  vec4 v = v_color0 " ++ secondary ++ ";\n"])
    ++ (if enableAlphaTest gstate then
          let alphaTestFunc := gstate.getAlphaTestFunction
          if (alphaTestFuncs.getD alphaTestFunc "#").get 0 != '#' then
            if gstate_c.gpuVendor = GPUVendor.GPU_VENDOR_POWERVR then
              if alphaTestFunc ≠ 3 then
                ["  if (roundTo255th(v.a) " ++ alphaTestFuncs.getD alphaTestFunc "#"
                  ++ " u_alphacolorref.a) discard;\n"]
              else []
            else
              ["  if (roundAndScaleTo255f(v.a) " ++ alphaTestFuncs.getD alphaTestFunc "#"
                ++ " u_alphacolorref.a) discard;\n"]
          else []
        else [])
    ++ (if enableColorDoubling gstate && enableAlphaDoubling gstate then ["  v = v * 2.0;\n"]
        else if enableColorDoubling gstate then ["  v.rgb = v.rgb * 2.0;\n"]
        else if enableAlphaDoubling gstate then ["  v.a = v.a * 2.0;\n"]
        else [])
    ++ (if enableColorTest gstate then
          let colorTestFunc := gstate.getColorTestFunction
          if (colorTestFuncs.getD colorTestFunc "#").get 0 != '#' then
            if gstate_c.gpuVendor = GPUVendor.GPU_VENDOR_POWERVR then
              ["if (roundTo255thv(v.rgb) " ++ colorTestFuncs.getD colorTestFunc "#"
                ++ " u_alphacolorref.rgb) discard;\n"]
            else
              ["if (roundAndScaleTo255v(v.rgb) " ++ colorTestFuncs.getD colorTestFunc "#"
                ++ " u_alphacolorref.rgb) discard;\n"]
          else []
        else [])
    ++ (if enableFog gstate then
          [ "  float fogCoef = clamp(v_fogdepth, 0.0, 1.0);\n",
            "  gl_FragColor = mix(vec4(u_fogcolor, v.a), v, fogCoef);\n" ]
        else
          ["  gl_FragColor = v;\n"])

/-- The strings written by the successive `WRITE` calls of lines 194-377, in
order.  `DEBUG_SHADER` is not defined (line 38), so lines 368-375 are absent. -/
def writes (cfg : BuildConfig) (gstate : GPUgstate) (gstate_c : GPUStateCache) : List String :=
  preamble cfg ++ declarations cfg gstate ++ helpers gstate gstate_c
    ++ ["void main() \x7b\n"] ++ body gstate gstate_c ++ ["\x7d\n"]

end GenerateFragmentShader

/-- Lines 194-377: the text left in `buffer`, the concatenation of everything
written through `WRITE`. -/
def GenerateFragmentShader (cfg : BuildConfig) (gstate : GPUgstate)
    (gstate_c : GPUStateCache) : String :=
  String.join (GenerateFragmentShader.writes cfg gstate gstate_c)

/-! ## The reference layout of the identifier -/

/-- One field of the identifier layout: its lowest bit, its width in bits and
the value stored in it. -/
structure IDField where
  low : Nat
  width : Nat
  value : Nat

/-- The reference layout of word 0 for a non-clear state: the layout of
`statedFields` except for three fields, which are stated as lines 152-164
compute them.  Bit 5 is the texture alpha used and not (the full-alpha hint
with a texture function other than REPLACE), lines 160-164; bit 7 is the
secondary colour used and lighting enabled, line 152; bit 15 is fog enabled and
not through mode, line 153. -/
def referenceFields (gstate : GPUgstate) (gstate_c : GPUStateCache) : List IDField :=
  let textureEnabled := gstate.isTextureMapEnabled
  let textureAlphaUsed :=
    gstate.isTextureAlphaUsed
      && !(gstate_c.textureFullAlpha && gstate.getTextureFunction != GE_TEXFUNC_REPLACE)
  let secondaryColourUsed := gstate.isUsingSecondaryColor && gstate.isLightingEnabled
  let alphaTestLive := gstate.isAlphaTestEnabled && !IsAlphaTestTriviallyTrue gstate
  let colourTestLive := gstate.isColorTestEnabled && !IsColorTestTriviallyTrue gstate
  let fog := gstate.isFogEnabled && !gstate.isModeThrough
  let textureProjection := gstate.getUVGenMode == GE_TEXMAP_TEXTURE_MATRIX
  [ { low := 1, width := 1, value := textureEnabled.toNat },
    { low := 2, width := 3, value := if textureEnabled then gstate.getTextureFunction else 0 },
    { low := 5, width := 1, value := if textureEnabled then textureAlphaUsed.toNat else 0 },
    { low := 7, width := 1, value := secondaryColourUsed.toNat },
    { low := 8, width := 1, value := gstate.isAlphaTestEnabled.toNat },
    { low := 9, width := 3, value := if alphaTestLive then gstate.getAlphaTestFunction else 0 },
    { low := 12, width := 1, value := gstate.isColorTestEnabled.toNat },
    { low := 13, width := 2, value := if colourTestLive then gstate.getColorTestFunction else 0 },
    { low := 15, width := 1, value := fog.toNat },
    { low := 16, width := 1, value := textureProjection.toNat },
    { low := 17, width := 1, value := gstate.isColorDoublingEnabled.toNat },
    { low := 18, width := 1, value := (CanDoubleSrcBlendMode gstate).toNat } ]

/-- The layout of word 0 for a non-clear state in the words of the
specification, every field read as the flag or code of the pipeline state that
it names: texture enabled, texture function and texture-alpha-used (both 0 when
texturing is disabled), secondary colour used, alpha test enabled, alpha test
function if the alpha test is enabled and not trivially true, colour test
enabled, colour test function if the colour test is enabled and not trivially
true, fog enabled, texture projection, colour doubling, alpha doubling. -/
def statedFields (gstate : GPUgstate) : List IDField :=
  let textureEnabled := gstate.isTextureMapEnabled
  let alphaTestLive := gstate.isAlphaTestEnabled && !IsAlphaTestTriviallyTrue gstate
  let colourTestLive := gstate.isColorTestEnabled && !IsColorTestTriviallyTrue gstate
  let textureProjection := gstate.getUVGenMode == GE_TEXMAP_TEXTURE_MATRIX
  [ { low := 1, width := 1, value := textureEnabled.toNat },
    { low := 2, width := 3, value := if textureEnabled then gstate.getTextureFunction else 0 },
    { low := 5, width := 1,
      value := if textureEnabled then gstate.isTextureAlphaUsed.toNat else 0 },
    { low := 7, width := 1, value := gstate.isUsingSecondaryColor.toNat },
    { low := 8, width := 1, value := gstate.isAlphaTestEnabled.toNat },
    { low := 9, width := 3, value := if alphaTestLive then gstate.getAlphaTestFunction else 0 },
    { low := 12, width := 1, value := gstate.isColorTestEnabled.toNat },
    { low := 13, width := 2, value := if colourTestLive then gstate.getColorTestFunction else 0 },
    { low := 15, width := 1, value := gstate.isFogEnabled.toNat },
    { low := 16, width := 1, value := textureProjection.toNat },
    { low := 17, width := 1, value := gstate.isColorDoublingEnabled.toNat },
    { low := 18, width := 1, value := (CanDoubleSrcBlendMode gstate).toNat } ]

/-- The word in which every field of the reference layout sits at its own bits. -/
def referencePacking (gstate : GPUgstate) (gstate_c : GPUStateCache) : Nat :=
  ((referenceFields gstate gstate_c).map (fun f => f.value * 2 ^ f.low)).sum

/-- The word in which every field of the stated layout sits at its own bits. -/
def statedPacking (gstate : GPUgstate) : Nat :=
  ((statedFields gstate).map (fun f => f.value * 2 ^ f.low)).sum

/-- The `width` bits of `w` from bit `low` upwards, read as a number. -/
def bitsOf (w low width : Nat) : Nat := w / 2 ^ low % 2 ^ width

/-! ## Reference definitions for the classifiers -/

/-- The destination factors named in the reference table: one of the eleven
defined factors (codes 0..10) other than SRC_ALPHA, DOUBLE_SRC_ALPHA and
DOUBLE_INV_SRC_ALPHA. -/
def isSafeDestFactor (dst : Nat) : Bool :=
  decide (dst ≤ 10) && dst != GE_DSTBLEND_SRCALPHA && dst != GE_DSTBLEND_DOUBLESRCALPHA
    && dst != GE_DSTBLEND_DOUBLEINVSRCALPHA

/-- The reference table of the alpha-test classifier, written from the
specification. -/
def alphaTestTriviallyTrueTable (gstate : GPUgstate) : Bool :=
  match gstate.getAlphaTestFunction with
  | 0 => false        -- NEVER
  | 1 => true         -- ALWAYS
  | 7 => gstate.getAlphaTestRef == 0     -- GEQUAL
  | 5 => gstate.getAlphaTestRef == 255   -- LEQUAL
  | 2 => false        -- EQUAL
  | 4 => false        -- LESS
  | 3 | 6 =>          -- NOTEQUAL, GREATER
    !gstate.isStencilTestEnabled && !gstate.isDepthTestEnabled && gstate.getAlphaTestRef == 0
      && gstate.isAlphaBlendEnabled && gstate.getBlendFuncA == GE_SRCBLEND_SRCALPHA
      && isSafeDestFactor gstate.getBlendFuncB
  | _ => false

/-- The reference fixed-function alpha test of the specification: a fragment of
alpha `alpha` passes when `alpha AND mask` compares to `ref AND mask` under the
configured function. -/
def referenceAlphaTest (func ref mask alpha : Nat) : Bool :=
  let a := alpha &&& mask
  let r := ref &&& mask
  if func = GE_COMP_NEVER then false
  else if func = GE_COMP_ALWAYS then true
  else if func = GE_COMP_EQUAL then a == r
  else if func = GE_COMP_NOTEQUAL then a != r
  else if func = GE_COMP_LESS then decide (a < r)
  else if func = GE_COMP_LEQUAL then decide (a ≤ r)
  else if func = GE_COMP_GREATER then decide (a > r)
  else if func = GE_COMP_GEQUAL then decide (a ≥ r)
  else false

/-- The condition the specification gives for `CanDoubleSrcBlendMode`: blending
enabled and exactly one of the two factors is DOUBLE_SRC_ALPHA while the other
is neither SRC_ALPHA nor INV_SRC_ALPHA. -/
def exactlyOneDoubled (gstate : GPUgstate) : Prop :=
  gstate.isAlphaBlendEnabled = true
  ∧ ((gstate.getBlendFuncA = GE_SRCBLEND_DOUBLESRCALPHA
        ∧ gstate.getBlendFuncB ≠ GE_DSTBLEND_DOUBLESRCALPHA
        ∧ gstate.getBlendFuncB ≠ GE_DSTBLEND_SRCALPHA
        ∧ gstate.getBlendFuncB ≠ GE_DSTBLEND_INVSRCALPHA)
      ∨ (gstate.getBlendFuncB = GE_DSTBLEND_DOUBLESRCALPHA
        ∧ gstate.getBlendFuncA ≠ GE_SRCBLEND_DOUBLESRCALPHA
        ∧ gstate.getBlendFuncA ≠ GE_DSTBLEND_SRCALPHA
        ∧ gstate.getBlendFuncA ≠ GE_DSTBLEND_INVSRCALPHA))

/-- The condition the code implements: blending enabled and one of the two
factors is DOUBLE_SRC_ALPHA while the other is neither SRC_ALPHA nor
INV_SRC_ALPHA (the other may itself be DOUBLE_SRC_ALPHA). -/
def oneDoubledOtherSafe (gstate : GPUgstate) : Prop :=
  gstate.isAlphaBlendEnabled = true
  ∧ ((gstate.getBlendFuncA = GE_SRCBLEND_DOUBLESRCALPHA
        ∧ gstate.getBlendFuncB ≠ GE_DSTBLEND_SRCALPHA
        ∧ gstate.getBlendFuncB ≠ GE_DSTBLEND_INVSRCALPHA)
      ∨ (gstate.getBlendFuncB = GE_DSTBLEND_DOUBLESRCALPHA
        ∧ gstate.getBlendFuncA ≠ GE_DSTBLEND_SRCALPHA
        ∧ gstate.getBlendFuncA ≠ GE_DSTBLEND_INVSRCALPHA))

/-! ## Sample states -/

/-- A non-clear state with every test and feature off. -/
def plainState : GPUgstate :=
  { isModeClear := false, isModeThrough := false, isTextureMapEnabled := false,
    getTextureFunction := 0, isTextureAlphaUsed := false, isColorDoublingEnabled := false,
    isUsingSecondaryColor := false, isLightingEnabled := false, isFogEnabled := false,
    isAlphaTestEnabled := false, getAlphaTestFunction := 0, getAlphaTestRef := 0,
    getAlphaTestMask := 255, isColorTestEnabled := false, getColorTestFunction := 0,
    getColorTestMask := 0, isDepthTestEnabled := false, isStencilTestEnabled := false,
    isAlphaBlendEnabled := false, getBlendFuncA := 0, getBlendFuncB := 0, getUVGenMode := 0 }

/-- A clear-mode state with texturing, lighting, fog and both tests switched on. -/
def busyClearState : GPUgstate :=
  { plainState with
    isModeClear := true, isTextureMapEnabled := true, getTextureFunction := 2,
    isTextureAlphaUsed := true, isColorDoublingEnabled := true, isUsingSecondaryColor := true,
    isLightingEnabled := true, isFogEnabled := true, isAlphaTestEnabled := true,
    getAlphaTestFunction := 6, getAlphaTestRef := 17, isColorTestEnabled := true,
    getColorTestFunction := 3, isAlphaBlendEnabled := true, getBlendFuncA := 6,
    getBlendFuncB := 0 }

/-- The cached values of a GPU that is not a PowerVR, without the full-alpha hint. -/
def plainCache : GPUStateCache :=
  { textureFullAlpha := false, gpuVendor := GPUVendor.GPU_VENDOR_OTHER }

/-- The cached values of a PowerVR GPU, without the full-alpha hint. -/
def powervrCache : GPUStateCache :=
  { textureFullAlpha := false, gpuVendor := GPUVendor.GPU_VENDOR_POWERVR }

/-- The state of scenario C: alpha test enabled, GEQUAL, reference 0. -/
def gequalZeroState : GPUgstate :=
  { plainState with
    isAlphaTestEnabled := true, getAlphaTestFunction := GE_COMP_GEQUAL, getAlphaTestRef := 0 }

/-- The state of scenario D: alpha test enabled, GREATER, reference 0, blending
on with source factor SRC_ALPHA and destination factor INV_SRC_ALPHA, depth and
stencil tests off. -/
def greaterZeroSafeState : GPUgstate :=
  { plainState with
    isAlphaTestEnabled := true, getAlphaTestFunction := GE_COMP_GREATER, getAlphaTestRef := 0,
    isAlphaBlendEnabled := true, getBlendFuncA := GE_SRCBLEND_SRCALPHA,
    getBlendFuncB := GE_DSTBLEND_INVSRCALPHA }

/-- The state of scenario E: as scenario D with destination factor SRC_ALPHA. -/
def greaterZeroUnsafeState : GPUgstate :=
  { greaterZeroSafeState with getBlendFuncB := GE_DSTBLEND_SRCALPHA }

/-- Blending on with both factors DOUBLE_SRC_ALPHA. -/
def bothDoubledState : GPUgstate :=
  { plainState with
    isAlphaBlendEnabled := true, getBlendFuncA := GE_SRCBLEND_DOUBLESRCALPHA,
    getBlendFuncB := GE_DSTBLEND_DOUBLESRCALPHA }

/-- Blending on with source factor DOUBLE_SRC_ALPHA and destination factor
INV_DST_ALPHA (code 5). -/
def srcDoubledState : GPUgstate :=
  { plainState with
    isAlphaBlendEnabled := true, getBlendFuncA := GE_SRCBLEND_DOUBLESRCALPHA,
    getBlendFuncB := 5 }

/-- Alpha test enabled with function NEVER, everything else off. -/
def alphaNeverState : GPUgstate :=
  { plainState with isAlphaTestEnabled := true, getAlphaTestFunction := GE_COMP_NEVER }

/-- Alpha test enabled with function ALWAYS, everything else off. -/
def alphaAlwaysState : GPUgstate :=
  { plainState with isAlphaTestEnabled := true, getAlphaTestFunction := GE_COMP_ALWAYS }

/-- Clear mode, everything else off. -/
def plainClearState : GPUgstate :=
  { plainState with isModeClear := true }

/-- Clear mode with texture mapping enabled. -/
def texturedClearState : GPUgstate :=
  { plainState with isModeClear := true, isTextureMapEnabled := true }

/-- The desktop configuration of lines 20-21 without `__APPLE__`. -/
def desktopConfig : BuildConfig := { USING_GLES2 := false, APPLE := false }

/-- The desktop configuration with `__APPLE__`, which defines `FORCE_OPENGL_2_0`. -/
def desktopAppleConfig : BuildConfig := { USING_GLES2 := false, APPLE := true }

/-- The embedded configuration, `USING_GLES2`. -/
def embeddedConfig : BuildConfig := { USING_GLES2 := true, APPLE := false }

/-- A non-clear state with texture mapping (function MODULATE) and the alpha
test enabled with function NOTEQUAL and reference 5. -/
def texturedNotEqualState : GPUgstate :=
  { plainState with
    isTextureMapEnabled := true, getTextureFunction := GE_TEXFUNC_MODULATE,
    isAlphaTestEnabled := true, getAlphaTestFunction := GE_COMP_NOTEQUAL, getAlphaTestRef := 5 }

/-- A clear-mode state with secondary colour and lighting enabled. -/
def litClearState : GPUgstate :=
  { plainState with isModeClear := true, isUsingSecondaryColor := true, isLightingEnabled := true }

/-- A non-clear state with texture projection, fog, secondary colour and
lighting enabled. -/
def texturedFogLitState : GPUgstate :=
  { plainState with
    isTextureMapEnabled := true, getTextureFunction := GE_TEXFUNC_BLEND,
    getUVGenMode := GE_TEXMAP_TEXTURE_MATRIX, isFogEnabled := true,
    isUsingSecondaryColor := true, isLightingEnabled := true }

/-- Scenario B: a non-clear state with texture mapping, function MODULATE, the
texture alpha used, no test, no fog, no lighting, no doubling. -/
def modulateState : GPUgstate :=
  { plainState with
    isTextureMapEnabled := true, getTextureFunction := GE_TEXFUNC_MODULATE,
    isTextureAlphaUsed := true }

/-- Scenario B with colour doubling switched on. -/
def modulateDoubledState : GPUgstate :=
  { modulateState with isColorDoublingEnabled := true }

/-- A non-clear state in through mode with fog enabled. -/
def throughFogState : GPUgstate :=
  { plainState with isModeThrough := true, isFogEnabled := true }

/-- A non-clear state with fog enabled, not in through mode. -/
def fogState : GPUgstate :=
  { plainState with isFogEnabled := true }

/-- Alpha test enabled with function EQUAL against the reference 5. -/
def alphaEqualState : GPUgstate :=
  { plainState with
    isAlphaTestEnabled := true, getAlphaTestFunction := GE_COMP_EQUAL, getAlphaTestRef := 5 }

/-- Alpha test enabled with function NOTEQUAL against the reference 5. -/
def alphaNotEqualState : GPUgstate :=
  { plainState with
    isAlphaTestEnabled := true, getAlphaTestFunction := GE_COMP_NOTEQUAL, getAlphaTestRef := 5 }

/-- A non-clear state with texture mapping, function BLEND, the texture alpha
not used. -/
def blendRGBState : GPUgstate :=
  { plainState with
    isTextureMapEnabled := true, getTextureFunction := GE_TEXFUNC_BLEND,
    isTextureAlphaUsed := false }

/-- Alpha test enabled with function LEQUAL against the reference 255. -/
def lequalFullState : GPUgstate :=
  { plainState with
    isAlphaTestEnabled := true, getAlphaTestFunction := GE_COMP_LEQUAL, getAlphaTestRef := 255 }

/-- A non-clear state that differs from `plainState` only in fields that
neither the identifier nor the text reads: the texture function without texture
mapping, the alpha function and reference without alpha test, fog in through
mode. -/
def plainLookalikeState : GPUgstate :=
  { plainState with
    getTextureFunction := 4, getAlphaTestFunction := 6, getAlphaTestRef := 77,
    isFogEnabled := true, isModeThrough := true }

/-- A non-clear state in which every feature writes its longest text: projected
texture with BLEND and texture alpha, secondary colour, both tests surviving,
doubling and fog. -/
def longestState : GPUgstate :=
  { plainState with
    isTextureMapEnabled := true, getTextureFunction := GE_TEXFUNC_BLEND,
    isTextureAlphaUsed := true, getUVGenMode := GE_TEXMAP_TEXTURE_MATRIX,
    isColorDoublingEnabled := true, isUsingSecondaryColor := true, isLightingEnabled := true,
    isFogEnabled := true, isAlphaTestEnabled := true, getAlphaTestFunction := GE_COMP_EQUAL,
    getAlphaTestRef := 5, isColorTestEnabled := true, getColorTestFunction := GE_COMP_EQUAL }

/-- The cached values of a GPU that is not a PowerVR, with the full-alpha hint. -/
def fullAlphaCache : GPUStateCache :=
  { textureFullAlpha := true, gpuVendor := GPUVendor.GPU_VENDOR_OTHER }

/-- A non-clear state with the secondary colour used and lighting disabled. -/
def unlitSecondaryState : GPUgstate :=
  { plainState with isUsingSecondaryColor := true, isLightingEnabled := false }

/-! ## Reading the emitted text -/

/-- The string `pat` occurs in `text` as a contiguous run of characters. -/
def occursIn (pat text : String) : Prop := pat.data <:+: text.data

instance (pat text : String) : Decidable (occursIn pat text) := by
  unfold occursIn
  infer_instance

/-- The text `text` begins with `pat`. -/
def beginsWith (pat text : String) : Prop := pat.data <+: text.data

instance (pat text : String) : Decidable (beginsWith pat text) := by
  unfold beginsWith
  infer_instance

/-- The string ends with a newline, as every string written by the generator does. -/
def endsInNewline (l : String) : Prop := l.data.getLast? = some '\n'

instance (l : String) : Decidable (endsInNewline l) := by
  unfold endsInNewline
  infer_instance

open GenerateFragmentShader in
/-- Every string that lines 266-366 can write between `void main()` and the
closing brace, for function codes within the tables. -/
def bodyLines : List String :=
  [ "  gl_FragColor = v_color0;\n",
    "  vec4 s = vec4(v_color1, 0.0);\n",
    "  vec4 t = texture2DProj(tex, v_texcoord);\n",
    "  vec4 t = texture2D(tex, v_texcoord);\n",
    "  vec4 p = v_color0;\n",
    "  vec4 v = v_color0 ;\n",
    "  vec4 v = v_color0  + s;\n",
    "  v = v * 2.0;\n",
    "  v.rgb = v.rgb * 2.0;\n",
    "  v.a = v.a * 2.0;\n",
    "  float fogCoef = clamp(v_fogdepth, 0.0, 1.0);\n",
    "  gl_FragColor = mix(vec4(u_fogcolor, v.a), v, fogCoef);\n",
    "  gl_FragColor = v;\n" ]
  ++ (List.range 8).flatMap (fun f => [" + s", ""].flatMap (fun sec =>
        [combineRGBA f sec, combineRGB f sec]))
  ++ (List.range 8).flatMap (fun f =>
        [ "  if (roundTo255th(v.a) " ++ alphaTestFuncs.getD f "#" ++ " u_alphacolorref.a) discard;\n",
          "  if (roundAndScaleTo255f(v.a) " ++ alphaTestFuncs.getD f "#"
            ++ " u_alphacolorref.a) discard;\n" ])
  ++ (List.range 4).flatMap (fun f =>
        [ "if (roundTo255thv(v.rgb) " ++ colorTestFuncs.getD f "#" ++ " u_alphacolorref.rgb) discard;\n",
          "if (roundAndScaleTo255v(v.rgb) " ++ colorTestFuncs.getD f "#"
            ++ " u_alphacolorref.rgb) discard;\n" ])

/-- Every string that lines 218-262 can write: the declarations and the helper
functions. -/
def headerLines : List String :=
  [ "uniform sampler2D tex;\n",
    "uniform mediump vec4 u_alphacolorref;\n",
    "uniform vec4 u_alphacolorref;\n",
    "uniform vec4 u_colormask;\n",
    "uniform vec3 u_texenv;\n",
    "varying vec4 v_color0;\n",
    "varying vec3 v_color1;\n",
    "uniform vec3 u_fogcolor;\n",
    "varying mediump float v_fogdepth;\n",
    "varying float v_fogdepth;\n",
    "varying vec3 v_texcoord;\n",
    "varying vec2 v_texcoord;\n",
    "float roundTo255th(in mediump float x) \x7b mediump float y = x + (0.5/255.0); return y - fract(y * 255.0) * (1.0 / 255.0); \x7d\n",
    "float roundAndScaleTo255f(in float x) \x7b return floor(x * 255.0 + 0.5); \x7d\n",
    "vec3 roundTo255thv(in vec3 x) \x7b vec3 y = x + (0.5/255.0); return y - fract(y * 255.0) * (1.0 / 255.0); \x7d\n",
    "vec3 roundAndScaleTo255v(in vec3 x) \x7b return floor(x * 255.0 + 0.5); \x7d\n" ]

/-- Every string lines 197-202 can write. -/
def preambleLines : List String :=
  ["#version 100\n", "precision lowp float;\n", "#version 110\n"]

/-! ## Identifiers of a line -/

/-- A character of a GLSL identifier. -/
def isIdentChar (c : Char) : Bool := c.isAlphanum || c == '_'

/-- The maximal runs of identifier characters of `cs`, in order; `cur` is the
run being read, reversed. -/
def identifierRuns : List Char → List Char → List (List Char)
  | [], cur => if cur.isEmpty then [] else [cur.reverse]
  | c :: cs, cur =>
    if isIdentChar c then identifierRuns cs (c :: cur)
    else if cur.isEmpty then identifierRuns cs []
    else cur.reverse :: identifierRuns cs []

/-- The identifiers (and numbers) that a line is made of. -/
def identifiers (line : String) : List String :=
  (identifierRuns line.data []).map String.mk

/-- The name is declared: it is an identifier of a string written by the
declarations of lines 218-249. -/
def declares (cfg : BuildConfig) (gstate : GPUgstate) (name : String) : Prop :=
  ∃ l ∈ GenerateFragmentShader.declarations cfg gstate, name ∈ identifiers l

/-- The name is referenced by the body of `main`: it is an identifier of a
statement written by lines 266-366. -/
def references (gstate : GPUgstate) (gstate_c : GPUStateCache) (name : String) : Prop :=
  ∃ l ∈ GenerateFragmentShader.body gstate gstate_c, name ∈ identifiers l

instance (cfg : BuildConfig) (gstate : GPUgstate) (name : String) :
    Decidable (declares cfg gstate name) := by
  unfold declares
  infer_instance

instance (gstate : GPUgstate) (gstate_c : GPUStateCache) (name : String) :
    Decidable (references gstate gstate_c name) := by
  unfold references
  infer_instance

/-! ## The parts of the body -/

namespace GenerateFragmentShader

/-- Lines 270-277: the text added to the combine statement for the secondary
colour. -/
def secondary (gstate : GPUgstate) : String :=
  if lmode gstate then " + s" else ""

/-- Lines 272-277 of the body: the statement reading the secondary colour. -/
def bodySecondary (gstate : GPUgstate) : List String :=
  if lmode gstate then ["  vec4 s = vec4(v_color1, 0.0);\n"] else []

/-- Lines 279-322 of the body: the statements computing `v` from the primary
colour and the texture. -/
def bodyTexture (gstate : GPUgstate) (gstate_c : GPUStateCache) : List String :=
  if gstate.isTextureMapEnabled then
    [ if doTextureProjection gstate then "  vec4 t = texture2DProj(tex, v_texcoord);\n"
      else "  vec4 t = texture2D(tex, v_texcoord);\n",
      "  vec4 p = v_color0;\n",
      if doTextureAlpha gstate gstate_c then
        combineRGBA gstate.getTextureFunction (secondary gstate)
      else
        combineRGB gstate.getTextureFunction (secondary gstate) ]
  else
    ["  vec4 v = v_color0 " ++ secondary gstate ++ ";\n"]

/-- The alpha discard statement of lines 331 and 333 for a vendor and a
function code. -/
def alphaDiscard (vendor : GPUVendor) (alphaTestFunc : Nat) : String :=
  if vendor = GPUVendor.GPU_VENDOR_POWERVR then
    "  if (roundTo255th(v.a) " ++ alphaTestFuncs.getD alphaTestFunc "#"
      ++ " u_alphacolorref.a) discard;\n"
  else
    "  if (roundAndScaleTo255f(v.a) " ++ alphaTestFuncs.getD alphaTestFunc "#"
      ++ " u_alphacolorref.a) discard;\n"

/-- Lines 324-336 of the body: the alpha test. -/
def bodyAlphaTest (gstate : GPUgstate) (gstate_c : GPUStateCache) : List String :=
  if enableAlphaTest gstate then
    if (alphaTestFuncs.getD gstate.getAlphaTestFunction "#").get 0 != '#' then
      if gstate_c.gpuVendor = GPUVendor.GPU_VENDOR_POWERVR then
        if gstate.getAlphaTestFunction ≠ 3 then
          [alphaDiscard gstate_c.gpuVendor gstate.getAlphaTestFunction]
        else []
      else [alphaDiscard gstate_c.gpuVendor gstate.getAlphaTestFunction]
    else []
  else []

/-- Lines 339-345 of the body: the doubling. -/
def bodyDoubling (gstate : GPUgstate) : List String :=
  if enableColorDoubling gstate && enableAlphaDoubling gstate then ["  v = v * 2.0;\n"]
  else if enableColorDoubling gstate then ["  v.rgb = v.rgb * 2.0;\n"]
  else if enableAlphaDoubling gstate then ["  v.a = v.a * 2.0;\n"]
  else []

/-- The colour discard statement of lines 353 and 355 for a vendor and a
function code. -/
def colorDiscard (vendor : GPUVendor) (colorTestFunc : Nat) : String :=
  if vendor = GPUVendor.GPU_VENDOR_POWERVR then
    "if (roundTo255thv(v.rgb) " ++ colorTestFuncs.getD colorTestFunc "#"
      ++ " u_alphacolorref.rgb) discard;\n"
  else
    "if (roundAndScaleTo255v(v.rgb) " ++ colorTestFuncs.getD colorTestFunc "#"
      ++ " u_alphacolorref.rgb) discard;\n"

/-- Lines 347-357 of the body: the colour test. -/
def bodyColorTest (gstate : GPUgstate) (gstate_c : GPUStateCache) : List String :=
  if enableColorTest gstate then
    if (colorTestFuncs.getD gstate.getColorTestFunction "#").get 0 != '#' then
      [colorDiscard gstate_c.gpuVendor gstate.getColorTestFunction]
    else []
  else []

/-- Lines 359-365 of the body: the final assignment. -/
def bodyFog (gstate : GPUgstate) : List String :=
  if enableFog gstate then
    [ "  float fogCoef = clamp(v_fogdepth, 0.0, 1.0);\n",
      "  gl_FragColor = mix(vec4(u_fogcolor, v.a), v, fogCoef);\n" ]
  else
    ["  gl_FragColor = v;\n"]

end GenerateFragmentShader

open GenerateFragmentShader in
/-- Every string that the parts of the body other than the two tests can write:
the secondary colour, the texture combine, the doubling and the final
assignment. -/
def plainBodyLines : List String :=
  [ "  vec4 s = vec4(v_color1, 0.0);\n",
    "  vec4 t = texture2DProj(tex, v_texcoord);\n",
    "  vec4 t = texture2D(tex, v_texcoord);\n",
    "  vec4 p = v_color0;\n",
    "  vec4 v = v_color0 ;\n",
    "  vec4 v = v_color0  + s;\n",
    "  v = v * 2.0;\n",
    "  v.rgb = v.rgb * 2.0;\n",
    "  v.a = v.a * 2.0;\n",
    "  float fogCoef = clamp(v_fogdepth, 0.0, 1.0);\n",
    "  gl_FragColor = mix(vec4(u_fogcolor, v.a), v, fogCoef);\n",
    "  gl_FragColor = v;\n" ]
  ++ (List.range 6).flatMap (fun f => [" + s", ""].flatMap (fun sec =>
        [combineRGBA f sec, combineRGB f sec]))

open GenerateFragmentShader in
/-- Every alpha discard statement that lines 324-336 can write. -/
def alphaTestLines : List String :=
  (List.range 8).flatMap (fun f =>
    [alphaDiscard GPUVendor.GPU_VENDOR_POWERVR f, alphaDiscard GPUVendor.GPU_VENDOR_OTHER f])

open GenerateFragmentShader in
/-- Every colour discard statement that lines 347-357 can write. -/
def colorTestLines : List String :=
  (List.range 4).flatMap (fun f =>
    [colorDiscard GPUVendor.GPU_VENDOR_POWERVR f, colorDiscard GPUVendor.GPU_VENDOR_OTHER f])

/-- The number of characters of the strings of a list, together. -/
def totalLength (ls : List String) : Nat := (ls.map String.length).sum

/-- Every string other than the preamble that the generator can write when
neither test survives. -/
def untestedLines : List String :=
  [ "uniform sampler2D tex;\n",
    "uniform vec3 u_texenv;\n",
    "varying vec4 v_color0;\n",
    "varying vec3 v_color1;\n",
    "uniform vec3 u_fogcolor;\n",
    "varying mediump float v_fogdepth;\n",
    "varying float v_fogdepth;\n",
    "varying vec3 v_texcoord;\n",
    "varying vec2 v_texcoord;\n",
    "void main() \x7b\n",
    "  gl_FragColor = v_color0;\n",
    "\x7d\n" ]
  ++ plainBodyLines

/-! ## The identifier in clear mode -/

/-- C1: in clear mode `ComputeFragmentShaderID` leaves the sentinel identifier,
word 0 equal to 1 and every other word 0, whatever the other fields of the state,
the cached values and the counters are: the result depends on nothing but the
number of words of the identifier. -/
theorem ComputeFragmentShaderID_clear_sentinel (id : FragmentShaderID) (gstate : GPUgstate)
    (gstate_c : GPUStateCache) (gpuStats : GPUStatistics) (hclear : gstate.isModeClear = true) :
    (ComputeFragmentShaderID id gstate gstate_c gpuStats).1
      = { d := (List.replicate id.d.length 0).set 0 1 } := by
  have hmap : id.d.map (fun _ => 0) = List.replicate id.d.length 0 := by
    induction id.d with
    | nil => rfl
    | cons a l ih => simp [List.replicate_succ, ih]
  simp [ComputeFragmentShaderID, hclear, hmap]

/-- The sentinel of a two-word identifier is `[1, 0]`, here reached from a
clear-mode state in which every other feature is switched on. -/
theorem ComputeFragmentShaderID_clear_sentinel_witness :
    busyClearState.isModeClear = true
    ∧ (ComputeFragmentShaderID { d := [7, 9] } busyClearState plainCache ⟨0, 0⟩).1
        = { d := [1, 0] } :=
  ⟨rfl, ComputeFragmentShaderID_clear_sentinel { d := [7, 9] } busyClearState plainCache ⟨0, 0⟩ rfl⟩

/-! ## Occurrences in a text written line by line -/

/-- An occurrence of `p` in `a ++ c :: b` lies within `a` or within `b` when `c`
is not a character of `p`. -/
theorem infix_of_append_sep {α : Type} {c : α} {p a b : List α} (hc : c ∉ p)
    (h : p <:+: a ++ c :: b) : p <:+: a ∨ p <:+: b := by
  obtain ⟨s, u, e⟩ := h
  rw [List.append_assoc] at e
  rcases List.append_eq_append_iff.1 e with ⟨a', ha, hb⟩ | ⟨c', hs, hcb⟩
  · rcases List.append_eq_append_iff.1 hb with ⟨a'', ha', _⟩ | ⟨c', hp, hcb⟩
    · left
      exact ⟨s, a'', by rw [ha, ha', List.append_assoc]⟩
    · cases c' with
      | nil =>
        left
        exact ⟨s, [], by rw [ha, hp]; simp⟩
      | cons x c'' =>
        exfalso
        simp only [List.cons_append, List.cons.injEq] at hcb
        exact hc (by rw [hp, ← hcb.1]; simp)
  · cases c' with
    | nil =>
      cases p with
      | nil => left; exact List.nil_infix
      | cons x p' =>
        exfalso
        simp only [List.nil_append, List.cons_append, List.cons.injEq] at hcb
        exact hc (by rw [hcb.1]; simp)
    | cons x c'' =>
      right
      simp only [List.cons_append, List.cons.injEq] at hcb
      exact ⟨c'', u, by rw [hcb.2, List.append_assoc]⟩

/-- In a concatenation of pieces that all end in `c`, a non-empty `p` without
`c` occurs only inside one of the pieces. -/
theorem infix_flatten_of_sep {α : Type} {c : α} {p : List α} (hc : c ∉ p) (hne : p ≠ []) :
    ∀ L : List (List α), (∀ l ∈ L, l.getLast? = some c) → p <:+: L.flatten →
      ∃ l ∈ L, p <:+: l := by
  intro L
  induction L with
  | nil =>
    intro _ h
    exact absurd (List.infix_nil.1 h) hne
  | cons l L ih =>
    intro hL h
    obtain ⟨t, ht⟩ : ∃ t, l = t ++ [c] := by
      have hl := hL l (List.mem_cons_self _ _)
      rcases List.getLast?_eq_some_iff.1 hl with ⟨t, ht⟩
      exact ⟨t, ht⟩
    rw [List.flatten_cons, ht, List.append_assoc, List.singleton_append] at h
    rcases infix_of_append_sep hc h with h1 | h2
    · refine ⟨l, List.mem_cons_self _ _, ?_⟩
      rw [ht]
      exact h1.trans (List.prefix_append t [c]).isInfix
    · obtain ⟨l', hl', hp⟩ := ih (fun l' hl' => hL l' (List.mem_cons_of_mem _ hl')) h2
      exact ⟨l', List.mem_cons_of_mem _ hl', hp⟩

/-- A string without newline occurs in a text written line by line exactly when
it occurs in one of the lines. -/
theorem occursIn_join_iff (pat : String) (ls : List String) (hne : pat.data ≠ [])
    (hnl : '\n' ∉ pat.data) (hls : ∀ l ∈ ls, endsInNewline l) :
    occursIn pat (String.join ls) ↔ ∃ l ∈ ls, occursIn pat l := by
  unfold occursIn
  rw [String.data_join]
  constructor
  · intro h
    have hL : ∀ l ∈ ls.map String.data, l.getLast? = some '\n' := by
      intro l hl
      obtain ⟨s, hs, rfl⟩ := List.mem_map.1 hl
      exact hls s hs
    obtain ⟨l, hl, hp⟩ := infix_flatten_of_sep hnl hne _ hL h
    obtain ⟨s, hs, rfl⟩ := List.mem_map.1 hl
    exact ⟨s, hs, hp⟩
  · rintro ⟨l, hl, hp⟩
    exact hp.trans (List.infix_of_mem_flatten (List.mem_map.2 ⟨l, hl, rfl⟩))

/-- A written string occurs in the text. -/
theorem occursIn_join_of_mem (l : String) (ls : List String) (h : l ∈ ls) :
    occursIn l (String.join ls) := by
  unfold occursIn
  rw [String.data_join]
  exact List.infix_of_mem_flatten (List.mem_map.2 ⟨l, h, rfl⟩)

/-! ## The strings the generator can write -/

/-- The preamble writes strings of `preambleLines`. -/
theorem preamble_subset (cfg : BuildConfig) :
    ∀ l ∈ GenerateFragmentShader.preamble cfg, l ∈ preambleLines := by
  intro l hl
  unfold GenerateFragmentShader.preamble at hl
  split at hl
  · revert l; decide
  · split at hl
    · revert l; decide
    · simp at hl

/-- The declarations write strings of `headerLines`. -/
theorem declarations_subset (cfg : BuildConfig) (gstate : GPUgstate) :
    ∀ l ∈ GenerateFragmentShader.declarations cfg gstate, l ∈ headerLines := by
  intro l hl
  unfold GenerateFragmentShader.declarations at hl
  simp only [List.mem_append] at hl
  rcases hl with (((((hl | hl) | hl) | hl) | hl) | hl) | hl
  all_goals
    repeat' split at hl
  all_goals (revert l; decide)

/-- The helper functions are strings of `headerLines`. -/
theorem helpers_subset (gstate : GPUgstate) (gstate_c : GPUStateCache) :
    ∀ l ∈ GenerateFragmentShader.helpers gstate gstate_c, l ∈ headerLines := by
  intro l hl
  unfold GenerateFragmentShader.helpers at hl
  simp only [List.mem_append] at hl
  rcases hl with hl | hl
  all_goals
    repeat' split at hl
  all_goals (revert l; decide)

open GenerateFragmentShader in
/-- The entries of the alpha operator table that are not the placeholder are
those of the codes 2..7. -/
theorem alphaTestFuncs_live (f : Nat) :
    ((alphaTestFuncs.getD f "#").get 0 != '#') = (decide (2 ≤ f) && decide (f < 8)) := by
  by_cases hf : f < 8
  · interval_cases f <;> decide
  · have hd : alphaTestFuncs.getD f "#" = "#" :=
      List.getD_eq_default _ _ (by simp [alphaTestFuncs]; omega)
    rw [hd]
    simp [hf]
    decide

open GenerateFragmentShader in
/-- The entries of the colour operator table that are not the placeholder are
those of the codes 2 and 3. -/
theorem colorTestFuncs_live (f : Nat) :
    ((colorTestFuncs.getD f "#").get 0 != '#') = (decide (2 ≤ f) && decide (f < 4)) := by
  by_cases hf : f < 4
  · interval_cases f <;> decide
  · have hd : colorTestFuncs.getD f "#" = "#" :=
      List.getD_eq_default _ _ (by simp [colorTestFuncs]; omega)
    rw [hd]
    simp [hf]
    decide

/-- The body writes strings of `bodyLines`. -/
theorem body_subset (gstate : GPUgstate) (gstate_c : GPUStateCache) :
    ∀ l ∈ GenerateFragmentShader.body gstate gstate_c, l ∈ bodyLines := by
  intro l hl
  unfold GenerateFragmentShader.body at hl
  split at hl
  · revert l; decide
  · simp only [List.mem_append, alphaTestFuncs_live, colorTestFuncs_live] at hl
    rcases hl with ((((hl | hl) | hl) | hl) | hl) | hl
    · split at hl <;> (revert l; decide)
    · unfold GenerateFragmentShader.combineRGBA GenerateFragmentShader.combineRGB at hl
      repeat' split at hl
      all_goals (revert l; decide)
    · generalize gstate.getAlphaTestFunction = f at hl
      split at hl
      · split at hl
        · rename_i h
          simp only [Bool.and_eq_true, decide_eq_true_eq] at h
          obtain ⟨h2, h8⟩ := h
          interval_cases f
          all_goals
            repeat' split at hl
          all_goals (revert l; decide)
        · simp at hl
      · simp at hl
    · repeat' split at hl
      all_goals (revert l; decide)
    · generalize gstate.getColorTestFunction = f at hl
      split at hl
      · split at hl
        · rename_i h
          simp only [Bool.and_eq_true, decide_eq_true_eq] at h
          obtain ⟨h2, h4⟩ := h
          interval_cases f
          all_goals
            repeat' split at hl
          all_goals (revert l; decide)
        · simp at hl
      · simp at hl
    · split at hl <;> (revert l; decide)

/-- Every string written by the generator ends with a newline. -/
theorem writes_endsInNewline (cfg : BuildConfig) (gstate : GPUgstate) (gstate_c : GPUStateCache) :
    ∀ l ∈ GenerateFragmentShader.writes cfg gstate gstate_c, endsInNewline l := by
  intro l hl
  unfold GenerateFragmentShader.writes at hl
  simp only [List.mem_append, List.mem_singleton] at hl
  rcases hl with ((((hl | hl) | hl) | hl) | hl) | hl
  · exact (by decide : ∀ l ∈ preambleLines, endsInNewline l) l (preamble_subset cfg l hl)
  · exact (by decide : ∀ l ∈ headerLines, endsInNewline l) l (declarations_subset cfg gstate l hl)
  · exact (by decide : ∀ l ∈ headerLines, endsInNewline l) l (helpers_subset gstate gstate_c l hl)
  · subst hl; decide
  · exact (by decide : ∀ l ∈ bodyLines, endsInNewline l) l (body_subset gstate gstate_c l hl)
  · subst hl; decide

/-- A string without newline occurs in the generated text exactly when it
occurs in one of the strings written. -/
theorem occursIn_text_iff (pat : String) (hne : pat.data ≠ []) (hnl : '\n' ∉ pat.data)
    (cfg : BuildConfig) (gstate : GPUgstate) (gstate_c : GPUStateCache) :
    occursIn pat (GenerateFragmentShader cfg gstate gstate_c)
      ↔ ∃ l ∈ GenerateFragmentShader.writes cfg gstate gstate_c, occursIn pat l :=
  occursIn_join_iff pat _ hne hnl (writes_endsInNewline cfg gstate gstate_c)

/-- A string written by the body occurs in the generated text. -/
theorem occursIn_text_of_mem_body (l : String) (cfg : BuildConfig) (gstate : GPUgstate)
    (gstate_c : GPUStateCache) (h : l ∈ GenerateFragmentShader.body gstate gstate_c) :
    occursIn l (GenerateFragmentShader cfg gstate gstate_c) := by
  apply occursIn_join_of_mem
  unfold GenerateFragmentShader.writes
  simp only [List.mem_append, List.mem_singleton]
  exact Or.inl (Or.inr h)

/-- Joining two lists of strings, one after the other. -/
theorem String_join_append (a b : List String) :
    String.join (a ++ b) = String.join a ++ String.join b := by
  apply String.ext
  simp [String.data_join, String.data_append]

/-- The text is the header, the line opening `main`, the body and the closing
brace; `main` is not mentioned before its opening line. -/
theorem GenerateFragmentShader_sections (cfg : BuildConfig) (gstate : GPUgstate)
    (gstate_c : GPUStateCache) :
    GenerateFragmentShader cfg gstate gstate_c
        = String.join (GenerateFragmentShader.preamble cfg
            ++ GenerateFragmentShader.declarations cfg gstate
            ++ GenerateFragmentShader.helpers gstate gstate_c)
          ++ "void main() \x7b\n" ++ String.join (GenerateFragmentShader.body gstate gstate_c)
          ++ "\x7d\n"
    ∧ ¬ occursIn "main" (String.join (GenerateFragmentShader.preamble cfg
            ++ GenerateFragmentShader.declarations cfg gstate
            ++ GenerateFragmentShader.helpers gstate gstate_c)) := by
  constructor
  · unfold GenerateFragmentShader GenerateFragmentShader.writes
    rw [String_join_append, String_join_append, String_join_append]
    rfl
  · rw [occursIn_join_iff "main" _ (by decide) (by decide)]
    · rintro ⟨l, hl, hocc⟩
      simp only [List.mem_append] at hl
      rcases hl with (hl | hl) | hl
      · exact (by decide! : ∀ l ∈ preambleLines, ¬ occursIn "main" l) l (preamble_subset cfg l hl) hocc
      · exact (by decide! : ∀ l ∈ headerLines, ¬ occursIn "main" l) l
          (declarations_subset cfg gstate l hl) hocc
      · exact (by decide! : ∀ l ∈ headerLines, ¬ occursIn "main" l) l
          (helpers_subset gstate gstate_c l hl) hocc
    · intro l hl
      simp only [List.mem_append] at hl
      rcases hl with (hl | hl) | hl
      · exact (by decide : ∀ l ∈ preambleLines, endsInNewline l) l (preamble_subset cfg l hl)
      · exact (by decide : ∀ l ∈ headerLines, endsInNewline l) l
          (declarations_subset cfg gstate l hl)
      · exact (by decide : ∀ l ∈ headerLines, endsInNewline l) l
          (helpers_subset gstate gstate_c l hl)

/-- A string without newline that occurs in none of the strings written does
not occur in the generated text. -/
theorem not_occursIn_text (pat : String) (hne : pat.data ≠ []) (hnl : '\n' ∉ pat.data)
    (cfg : BuildConfig) (gstate : GPUgstate) (gstate_c : GPUStateCache)
    (hpre : ∀ l ∈ GenerateFragmentShader.preamble cfg, ¬ occursIn pat l)
    (hdecl : ∀ l ∈ GenerateFragmentShader.declarations cfg gstate, ¬ occursIn pat l)
    (hhelp : ∀ l ∈ GenerateFragmentShader.helpers gstate gstate_c, ¬ occursIn pat l)
    (hmain : ¬ occursIn pat "void main() \x7b\n")
    (hbody : ∀ l ∈ GenerateFragmentShader.body gstate gstate_c, ¬ occursIn pat l)
    (hclose : ¬ occursIn pat "\x7d\n") :
    ¬ occursIn pat (GenerateFragmentShader cfg gstate gstate_c) := by
  rw [occursIn_text_iff pat hne hnl]
  rintro ⟨l, hl, hocc⟩
  unfold GenerateFragmentShader.writes at hl
  simp only [List.mem_append, List.mem_singleton] at hl
  rcases hl with ((((hl | hl) | hl) | hl) | hl) | hl
  · exact hpre l hl hocc
  · exact hdecl l hl hocc
  · exact hhelp l hl hocc
  · subst hl; exact hmain hocc
  · exact hbody l hl hocc
  · subst hl; exact hclose hocc

/-! ## The identifier of a non-clear state -/

/-- On a `bool`, `& 1` changes nothing. -/
theorem and1_eq (b : Bool) : and1 b = b.toNat := by cases b <;> rfl

/-- Or-ing a value shifted above every bit of `w` into `w` adds it, when the
result fits 32 bits. -/
theorem or32_shift (w v k : Nat) (hw : w < 2 ^ k) (hlt : w + v * 2 ^ k < 2 ^ 32) :
    or32 w (v <<< k) = w + v * 2 ^ k := by
  unfold or32
  rw [Nat.or_comm, Nat.shiftLeft_eq, Nat.mul_comm v, ← Nat.mul_add_lt_is_or hw, Nat.mod_eq_of_lt]
  · omega
  · rw [Nat.mul_comm]; omega

/-- The words after the `memset` and the store into word 0. -/
theorem map_zero_set (l : List Nat) (w : Nat) (h : 0 < l.length) :
    (l.map (fun _ => 0)).set 0 w = w :: List.replicate (l.length - 1) 0 := by
  cases l with
  | nil => simp at h
  | cons a t =>
    have hmap : ∀ t : List Nat, t.map (fun _ => 0) = List.replicate t.length 0 := by
      intro t
      induction t with
      | nil => rfl
      | cons b t ih => simp [List.replicate_succ, ih]
    simp [hmap, List.replicate_succ]

/-- Word 0 computed by lines 152-183, as a sum. -/
theorem ComputeFragmentShaderID_word0 (id : FragmentShaderID) (gstate : GPUgstate)
    (gstate_c : GPUStateCache) (gpuStats : GPUStatistics)
    (hwords : 0 < id.d.length) (hclear : gstate.isModeClear = false)
    (htex : gstate.getTextureFunction < 8) (halpha : gstate.getAlphaTestFunction < 8)
    (hcolor : gstate.getColorTestFunction < 4) :
    (ComputeFragmentShaderID id gstate gstate_c gpuStats).1.d
      = referencePacking gstate gstate_c :: List.replicate (id.d.length - 1) 0 := by
  simp only [ComputeFragmentShaderID, hclear, Bool.false_eq_true, if_false, and1_eq]
  rw [map_zero_set _ _ hwords]
  congr 1
  simp only [referencePacking, referenceFields, List.map, List.sum_cons, List.sum_nil]
  have hdta : (if (gstate_c.textureFullAlpha && gstate.getTextureFunction != GE_TEXFUNC_REPLACE)
        = true then false else gstate.isTextureAlphaUsed)
      = (gstate.isTextureAlphaUsed
          && !(gstate_c.textureFullAlpha && gstate.getTextureFunction != GE_TEXFUNC_REPLACE)) := by
    cases gstate.isTextureAlphaUsed <;>
      cases (gstate_c.textureFullAlpha && gstate.getTextureFunction != GE_TEXFUNC_REPLACE) <;> rfl
  rw [hdta]
  generalize (gstate.isTextureAlphaUsed
          && !(gstate_c.textureFullAlpha && gstate.getTextureFunction != GE_TEXFUNC_REPLACE)) = dta
  generalize (gstate.isUsingSecondaryColor && gstate.isLightingEnabled) = lm
  generalize (gstate.isAlphaTestEnabled && !IsAlphaTestTriviallyTrue gstate) = eat
  generalize (gstate.isColorTestEnabled && !IsColorTestTriviallyTrue gstate) = ect
  generalize (gstate.isFogEnabled && !gstate.isModeThrough) = fog
  generalize (gstate.getUVGenMode == GE_TEXMAP_TEXTURE_MATRIX) = proj
  generalize CanDoubleSrcBlendMode gstate = ad
  generalize gstate.isTextureMapEnabled = tex
  have h1 := Bool.toNat_le dta
  have h2 := Bool.toNat_le lm
  have h3 := Bool.toNat_le gstate.isAlphaTestEnabled
  have h4 := Bool.toNat_le gstate.isColorTestEnabled
  have h5 := Bool.toNat_le fog
  have h6 := Bool.toNat_le proj
  have h7 := Bool.toNat_le gstate.isColorDoublingEnabled
  have h8 := Bool.toNat_le ad
  cases tex <;> cases eat <;> cases ect <;>
    simp (disch := omega) only [or32_shift, if_true, Bool.false_eq_true, if_false,
      Bool.toNat_true, Bool.toNat_false] <;> omega

/-- Twelve values within their widths, placed at the bit positions of the
layout, can each be read back, and bits 0, 6 and 19 upwards stay clear. -/
theorem layout_arith (a1 a2 a3 a4 a5 a6 a7 a8 a9 a10 a11 a12 : Nat)
    (h1 : a1 < 2) (h2 : a2 < 8) (h3 : a3 < 2) (h4 : a4 < 2) (h5 : a5 < 2) (h6 : a6 < 8)
    (h7 : a7 < 2) (h8 : a8 < 4) (h9 : a9 < 2) (h10 : a10 < 2) (h11 : a11 < 2) (h12 : a12 < 2)
    (w : Nat)
    (hw : w = a1 * 2 ^ 1 + (a2 * 2 ^ 2 + (a3 * 2 ^ 5 + (a4 * 2 ^ 7 + (a5 * 2 ^ 8 + (a6 * 2 ^ 9
      + (a7 * 2 ^ 12 + (a8 * 2 ^ 13 + (a9 * 2 ^ 15 + (a10 * 2 ^ 16 + (a11 * 2 ^ 17
      + (a12 * 2 ^ 18 + 0)))))))))))) :
    (bitsOf w 1 1 = a1 ∧ bitsOf w 2 3 = a2 ∧ bitsOf w 5 1 = a3 ∧ bitsOf w 7 1 = a4
      ∧ bitsOf w 8 1 = a5 ∧ bitsOf w 9 3 = a6 ∧ bitsOf w 12 1 = a7 ∧ bitsOf w 13 2 = a8
      ∧ bitsOf w 15 1 = a9 ∧ bitsOf w 16 1 = a10 ∧ bitsOf w 17 1 = a11 ∧ bitsOf w 18 1 = a12)
    ∧ w % 2 = 0 ∧ w / 2 ^ 6 % 2 = 0 ∧ w < 2 ^ 19 := by
  subst hw
  simp only [bitsOf]
  norm_num
  omega

/-- With function codes in range every field of the reference layout fits its
width. -/
theorem referenceFields_bounds (gstate : GPUgstate) (gstate_c : GPUStateCache)
    (htex : gstate.getTextureFunction < 8) (halpha : gstate.getAlphaTestFunction < 8)
    (hcolor : gstate.getColorTestFunction < 4) :
    ∀ f ∈ referenceFields gstate gstate_c, f.value < 2 ^ f.width := by
  intro f hf
  simp only [referenceFields, List.mem_cons, List.mem_singleton, List.mem_nil_iff, or_false] at hf
  rcases hf with h | h | h | h | h | h | h | h | h | h | h | h <;> subst h <;> simp only [] <;>
    first
      | exact Bool.toNat_lt _
      | (split <;> first | omega | exact Bool.toNat_lt _)

/-- C3, as stated, fails: word 0 is not the packing of the flags that the
claim names.  In through mode with fog enabled bit 15 is 0; with the secondary
colour used and lighting disabled bit 7 is 0; with texture mapping (MODULATE),
the texture alpha used and the full-alpha hint bit 5 is 0.  Each state is not in
clear mode and has its function codes in range. -/
theorem ComputeFragmentShaderID_not_stated_packing :
    ((throughFogState.isModeClear = false ∧ throughFogState.getTextureFunction < 8
        ∧ throughFogState.getAlphaTestFunction < 8 ∧ throughFogState.getColorTestFunction < 4)
      ∧ throughFogState.isFogEnabled = true
      ∧ (ComputeFragmentShaderID { d := [7, 9] } throughFogState plainCache ⟨0, 0⟩).1.d = [0, 0]
      ∧ bitsOf 0 15 1 = 0
      ∧ statedPacking throughFogState = 2 ^ 15)
    ∧ ((unlitSecondaryState.isModeClear = false ∧ unlitSecondaryState.getTextureFunction < 8
        ∧ unlitSecondaryState.getAlphaTestFunction < 8
        ∧ unlitSecondaryState.getColorTestFunction < 4)
      ∧ unlitSecondaryState.isUsingSecondaryColor = true
      ∧ (ComputeFragmentShaderID { d := [7, 9] } unlitSecondaryState plainCache ⟨0, 0⟩).1.d
          = [0, 0]
      ∧ bitsOf 0 7 1 = 0
      ∧ statedPacking unlitSecondaryState = 2 ^ 7)
    ∧ ((modulateState.isModeClear = false ∧ modulateState.getTextureFunction < 8
        ∧ modulateState.getAlphaTestFunction < 8 ∧ modulateState.getColorTestFunction < 4)
      ∧ (modulateState.isTextureMapEnabled = true ∧ modulateState.isTextureAlphaUsed = true)
      ∧ (ComputeFragmentShaderID { d := [7, 9] } modulateState fullAlphaCache ⟨0, 0⟩).1.d
          = [2, 0]
      ∧ bitsOf 2 5 1 = 0
      ∧ statedPacking modulateState = 2 ^ 1 + 2 ^ 5) := by
  decide

/-- C3, amended: for a non-clear state whose texture function is in 0..7, alpha
function in 0..7 and colour function in 0..3, the identifier is the reference
packing in word 0 and 0 in every other word, where the reference layout has
bit 5 = texture alpha used and not (full-alpha hint with a texture function
other than REPLACE), bit 7 = secondary colour used and lighting enabled,
bit 15 = fog enabled and not through mode, and every other field as the claim
states it.  Each field of the reference layout fits its width and is read back
from its own bits of word 0, the bit ranges of the fields are pairwise
disjoint, and every bit outside them is 0.  With the alpha test enabled, GEQUAL
and reference 0, bit 8 is set and bits 9-11 are zero. -/
theorem ComputeFragmentShaderID_reference_packing (id : FragmentShaderID) (gstate : GPUgstate)
    (gstate_c : GPUStateCache) (gpuStats : GPUStatistics)
    (hwords : 0 < id.d.length) (hclear : gstate.isModeClear = false)
    (htex : gstate.getTextureFunction < 8) (halpha : gstate.getAlphaTestFunction < 8)
    (hcolor : gstate.getColorTestFunction < 4) :
    (ComputeFragmentShaderID id gstate gstate_c gpuStats).1.d
        = referencePacking gstate gstate_c :: List.replicate (id.d.length - 1) 0
    ∧ (∀ f ∈ referenceFields gstate gstate_c,
        f.value < 2 ^ f.width
        ∧ bitsOf (referencePacking gstate gstate_c) f.low f.width = f.value)
    ∧ (referenceFields gstate gstate_c).Pairwise (fun f g => f.low + f.width ≤ g.low)
    ∧ (∀ i, (∀ f ∈ referenceFields gstate gstate_c, i < f.low ∨ f.low + f.width ≤ i) →
        (referencePacking gstate gstate_c).testBit i = false)
    ∧ (gstate.isAlphaTestEnabled = true → gstate.getAlphaTestFunction = GE_COMP_GEQUAL →
        gstate.getAlphaTestRef = 0 →
        bitsOf (referencePacking gstate gstate_c) 8 1 = 1
        ∧ bitsOf (referencePacking gstate gstate_c) 9 3 = 0) := by
  have hb := referenceFields_bounds gstate gstate_c htex halpha hcolor
  simp only [referenceFields, List.forall_mem_cons, List.mem_nil_iff, false_imp_iff,
    implies_true, and_true] at hb
  obtain ⟨b1, b2, b3, b4, b5, b6, b7, b8, b9, b10, b11, b12⟩ := hb
  have key := layout_arith _ _ _ _ _ _ _ _ _ _ _ _ b1 b2 b3 b4 b5 b6 b7 b8 b9 b10 b11 b12
    (referencePacking gstate gstate_c)
    (by simp only [referencePacking, referenceFields, List.map, List.sum_cons, List.sum_nil])
  obtain ⟨⟨k1, k2, k3, k4, k5, k6, k7, k8, k9, k10, k11, k12⟩, z0, z6, hlt⟩ := key
  refine ⟨ComputeFragmentShaderID_word0 id gstate gstate_c gpuStats hwords hclear htex halpha
    hcolor, ?_, ?_, ?_, ?_⟩
  · simp only [referenceFields, List.forall_mem_cons, List.mem_nil_iff, false_imp_iff,
      implies_true, and_true]
    exact ⟨⟨b1, k1⟩, ⟨b2, k2⟩, ⟨b3, k3⟩, ⟨b4, k4⟩, ⟨b5, k5⟩, ⟨b6, k6⟩, ⟨b7, k7⟩, ⟨b8, k8⟩,
      ⟨b9, k9⟩, ⟨b10, k10⟩, ⟨b11, k11⟩, ⟨b12, k12⟩⟩
  · simp [referenceFields]
  · intro i hi
    simp only [referenceFields, List.forall_mem_cons, List.mem_nil_iff, false_imp_iff,
      implies_true, and_true] at hi
    have hcases : i = 0 ∨ i = 6 ∨ 19 ≤ i := by omega
    rcases hcases with h | h | h
    · subst h
      rw [Nat.testBit_zero, z0]
      decide
    · subst h
      rw [Nat.testBit_to_div_mod, z6]
      decide
    · exact Nat.testBit_lt_two_pow (lt_of_lt_of_le hlt (Nat.pow_le_pow_right (by decide) h))
  · intro hen hfun href
    have htriv : IsAlphaTestTriviallyTrue gstate = true := by
      simp [IsAlphaTestTriviallyTrue, hfun, href, GE_COMP_GEQUAL, GE_COMP_NEVER, GE_COMP_ALWAYS]
    refine ⟨?_, ?_⟩
    · rw [k5, hen]; rfl
    · rw [k6, htriv]; simp

/-- The identifier of scenario C (alpha test enabled, GEQUAL, reference 0) on a
two-word identifier: word 0 is `256`, bit 8 alone. -/
theorem ComputeFragmentShaderID_reference_packing_witness :
    (0 < (FragmentShaderID.mk [7, 9]).d.length ∧ gequalZeroState.isModeClear = false
      ∧ gequalZeroState.getTextureFunction < 8 ∧ gequalZeroState.getAlphaTestFunction < 8
      ∧ gequalZeroState.getColorTestFunction < 4)
    ∧ (ComputeFragmentShaderID { d := [7, 9] } gequalZeroState plainCache ⟨0, 0⟩).1.d = [256, 0] :=
  ⟨by decide,
    (ComputeFragmentShaderID_reference_packing { d := [7, 9] } gequalZeroState plainCache ⟨0, 0⟩
      (by decide) rfl (by decide) (by decide) (by decide)).1⟩

/-! ## The classifiers -/

/-- The table `safeDestFactors` marks exactly the factors of `isSafeDestFactor`. -/
theorem safeDestFactors_getD (dst : Nat) :
    safeDestFactors.getD dst false = isSafeDestFactor dst := by
  by_cases h : dst < 16
  · interval_cases dst <;> rfl
  · have h10 : ¬ dst ≤ 10 := by omega
    rw [List.getD_eq_default _ _ (by simp [safeDestFactors]; omega)]
    simp [isSafeDestFactor, h10]

/-- The switch of lines 64-96 computes the reference table. -/
theorem classifier_agrees_with_table (gstate : GPUgstate) :
    IsAlphaTestTriviallyTrue gstate = alphaTestTriviallyTrueTable gstate := by
  unfold IsAlphaTestTriviallyTrue alphaTestTriviallyTrueTable
  simp only [safeDestFactors_getD, GE_COMP_NEVER, GE_COMP_ALWAYS, GE_COMP_GEQUAL,
    GE_COMP_NOTEQUAL, GE_COMP_GREATER, GE_COMP_LEQUAL, GE_COMP_EQUAL, GE_COMP_LESS]
  generalize gstate.getAlphaTestFunction = f
  by_cases h : f < 8
  · interval_cases f <;> simp <;> rfl
  · obtain ⟨n, rfl⟩ : ∃ n, f = n + 8 := ⟨f - 8, by omega⟩
    simp

/-- C4: for every state `IsAlphaTestTriviallyTrue` equals the reference table:
NEVER false, ALWAYS true, GEQUAL iff ref = 0, LEQUAL iff ref = 255, EQUAL and
LESS false, NOTEQUAL and GREATER iff stencil and depth tests are off, ref = 0,
blending is enabled, the source factor is SRC_ALPHA and the destination factor
is one of the eleven defined factors other than SRC_ALPHA, DOUBLE_SRC_ALPHA and
DOUBLE_INV_SRC_ALPHA; any other function value, and any destination factor
code 11..15, gives false. -/
theorem IsAlphaTestTriviallyTrue_eq_table (gstate : GPUgstate) :
    IsAlphaTestTriviallyTrue gstate = alphaTestTriviallyTrueTable gstate :=
  classifier_agrees_with_table gstate

/-- With a mask of at most 255, masking 255 gives the mask back. -/
theorem and_255_of_le (mask : Nat) (h : mask ≤ 255) : 255 &&& mask = mask := by
  interval_cases mask <;> rfl

/-- C5, as stated, fails in scenario D (GREATER, reference 0, blending with
SRC_ALPHA / INV_SRC_ALPHA, no depth or stencil test, mask 255): the classifier
returns true and the test is elided, yet a fragment of alpha 0 fails the
reference test, since `0 > 0` is false. -/
theorem IsAlphaTestTriviallyTrue_elides_failing_test :
    (greaterZeroSafeState.getAlphaTestFunction ≤ 7 ∧ greaterZeroSafeState.getAlphaTestRef ≤ 255
      ∧ greaterZeroSafeState.getAlphaTestMask ≤ 255 ∧ (0 : Nat) ≤ 255)
    ∧ IsAlphaTestTriviallyTrue greaterZeroSafeState = true
    ∧ referenceAlphaTest greaterZeroSafeState.getAlphaTestFunction
        greaterZeroSafeState.getAlphaTestRef greaterZeroSafeState.getAlphaTestMask 0 = false := by
  decide

/-- C5, amended: when `IsAlphaTestTriviallyTrue` returns true, with reference,
mask and fragment alpha in 0..255, the reference alpha test passes for every
fragment if the function is not NOTEQUAL or GREATER (that is, it is ALWAYS,
GEQUAL or LEQUAL), and with NOTEQUAL or GREATER it passes exactly for the
fragments whose masked alpha `alpha AND mask` is not zero. -/
theorem IsAlphaTestTriviallyTrue_sound_up_to_zero_alpha (gstate : GPUgstate) (alpha : Nat)
    (_href : gstate.getAlphaTestRef ≤ 255) (hmask : gstate.getAlphaTestMask ≤ 255)
    (_halpha : alpha ≤ 255) (htriv : IsAlphaTestTriviallyTrue gstate = true) :
    (gstate.getAlphaTestFunction ≠ GE_COMP_NOTEQUAL
        ∧ gstate.getAlphaTestFunction ≠ GE_COMP_GREATER →
      referenceAlphaTest gstate.getAlphaTestFunction gstate.getAlphaTestRef
        gstate.getAlphaTestMask alpha = true)
    ∧ (gstate.getAlphaTestFunction = GE_COMP_NOTEQUAL
        ∨ gstate.getAlphaTestFunction = GE_COMP_GREATER →
      (referenceAlphaTest gstate.getAlphaTestFunction gstate.getAlphaTestRef
          gstate.getAlphaTestMask alpha = true
        ↔ alpha &&& gstate.getAlphaTestMask ≠ 0)) := by
  rw [classifier_agrees_with_table] at htriv
  unfold alphaTestTriviallyTrueTable at htriv
  unfold referenceAlphaTest
  simp only [GE_COMP_NEVER, GE_COMP_ALWAYS, GE_COMP_GEQUAL, GE_COMP_NOTEQUAL, GE_COMP_GREATER,
    GE_COMP_LEQUAL, GE_COMP_EQUAL, GE_COMP_LESS]
  generalize gstate.getAlphaTestFunction = f at htriv ⊢
  by_cases h : f < 8
  · interval_cases f
    · simp at htriv
    · simp
    · simp at htriv
    · simp only [Bool.and_eq_true, beq_iff_eq] at htriv
      obtain ⟨⟨⟨⟨⟨_, _⟩, href0⟩, _⟩, _⟩, _⟩ := htriv
      simp [href0]
    · simp at htriv
    · simp only [beq_iff_eq] at htriv
      have hle : alpha &&& gstate.getAlphaTestMask ≤ gstate.getAlphaTestMask := Nat.and_le_right
      simp [htriv, and_255_of_le _ hmask, hle]
    · simp only [Bool.and_eq_true, beq_iff_eq] at htriv
      obtain ⟨⟨⟨⟨⟨_, _⟩, href0⟩, _⟩, _⟩, _⟩ := htriv
      simp [href0, Nat.pos_iff_ne_zero]
    · simp only [beq_iff_eq] at htriv
      simp [htriv]
  · obtain ⟨n, rfl⟩ : ∃ n, f = n + 8 := ⟨f - 8, by omega⟩
    simp at htriv

/-- Scenario D with a fragment of alpha 200: the classifier returns true and the
reference test passes, `200 AND 255` being non-zero. -/
theorem IsAlphaTestTriviallyTrue_sound_up_to_zero_alpha_witness :
    (greaterZeroSafeState.getAlphaTestRef ≤ 255 ∧ greaterZeroSafeState.getAlphaTestMask ≤ 255
      ∧ (200 : Nat) ≤ 255 ∧ IsAlphaTestTriviallyTrue greaterZeroSafeState = true)
    ∧ (referenceAlphaTest greaterZeroSafeState.getAlphaTestFunction
          greaterZeroSafeState.getAlphaTestRef greaterZeroSafeState.getAlphaTestMask 200 = true
        ↔ 200 &&& greaterZeroSafeState.getAlphaTestMask ≠ 0) :=
  ⟨by decide,
    (IsAlphaTestTriviallyTrue_sound_up_to_zero_alpha greaterZeroSafeState 200
      (by decide) (by decide) (by decide) (by decide)).2 (Or.inr rfl)⟩

/-- C6, as stated, fails when both blend factors are DOUBLE_SRC_ALPHA:
`CanDoubleSrcBlendMode` returns true although not exactly one factor is the
doubled one. -/
theorem CanDoubleSrcBlendMode_both_doubled :
    CanDoubleSrcBlendMode bothDoubledState = true ∧ ¬ exactlyOneDoubled bothDoubledState := by
  refine ⟨by decide, ?_⟩
  rintro ⟨_, h | h⟩
  · exact h.2.1 rfl
  · exact h.2.1 rfl

/-- C6, amended: `CanDoubleSrcBlendMode` returns true only if blending is enabled
and one of the two blend factors is DOUBLE_SRC_ALPHA while the other is neither
SRC_ALPHA nor INV_SRC_ALPHA; the other factor may be DOUBLE_SRC_ALPHA too. -/
theorem CanDoubleSrcBlendMode_only_if (gstate : GPUgstate)
    (h : CanDoubleSrcBlendMode gstate = true) : oneDoubledOtherSafe gstate := by
  unfold CanDoubleSrcBlendMode at h
  unfold oneDoubledOtherSafe
  simp only [GE_SRCBLEND_DOUBLESRCALPHA, GE_DSTBLEND_SRCALPHA, GE_DSTBLEND_INVSRCALPHA,
    GE_DSTBLEND_DOUBLESRCALPHA] at h ⊢
  cases hb : gstate.isAlphaBlendEnabled
  · simp [hb] at h
  · simp only [hb, Bool.not_true, Bool.false_eq_true, if_false] at h
    refine ⟨rfl, ?_⟩
    by_cases hA : gstate.getBlendFuncA = 6
    · left
      simp only [hA, ne_eq, not_true_eq_false, if_false] at h
      refine ⟨hA, ?_, ?_⟩ <;> intro hB <;> simp [hB] at h
    · right
      simp only [hA, ne_eq, not_false_eq_true, if_true] at h
      by_cases hB : gstate.getBlendFuncB = 6
      · refine ⟨hB, ?_, ?_⟩ <;> intro hA2 <;> simp [hB, hA2] at h
      · simp [hB] at h

/-- Source factor DOUBLE_SRC_ALPHA with destination factor INV_DST_ALPHA can be
doubled, and meets the amended condition. -/
theorem CanDoubleSrcBlendMode_only_if_witness :
    CanDoubleSrcBlendMode srcDoubledState = true ∧ oneDoubledOtherSafe srcDoubledState :=
  ⟨by decide, CanDoubleSrcBlendMode_only_if srcDoubledState (by decide)⟩

/-! ## Clear mode -/

/-- In clear mode no test, no fog and no texture sampling survive. -/
theorem clear_decisions (gstate : GPUgstate) (hclear : gstate.isModeClear = true) :
    GenerateFragmentShader.doTexture gstate = false
    ∧ GenerateFragmentShader.enableFog gstate = false
    ∧ GenerateFragmentShader.enableAlphaTest gstate = false
    ∧ GenerateFragmentShader.enableColorTest gstate = false := by
  simp [GenerateFragmentShader.doTexture, GenerateFragmentShader.enableFog,
    GenerateFragmentShader.enableAlphaTest, GenerateFragmentShader.enableColorTest, hclear]

/-- C7: in clear mode, for every vendor and dialect, the body of `main` is the
single statement `  gl_FragColor = v_color0;`: the text is the header, the line
opening `main` (which the header does not mention), that statement and the
closing brace.  The text contains no texture sample (`texture2D`), no
`discard`, no doubling (`* 2.0`) and no fog computation (`fog`). -/
theorem GenerateFragmentShader_clear_mode (cfg : BuildConfig) (gstate : GPUgstate)
    (gstate_c : GPUStateCache) (hclear : gstate.isModeClear = true) :
    GenerateFragmentShader.body gstate gstate_c = ["  gl_FragColor = v_color0;\n"]
    ∧ GenerateFragmentShader cfg gstate gstate_c
        = String.join (GenerateFragmentShader.preamble cfg
            ++ GenerateFragmentShader.declarations cfg gstate
            ++ GenerateFragmentShader.helpers gstate gstate_c)
          ++ "void main() \x7b\n" ++ "  gl_FragColor = v_color0;\n" ++ "\x7d\n"
    ∧ ¬ occursIn "main" (String.join (GenerateFragmentShader.preamble cfg
            ++ GenerateFragmentShader.declarations cfg gstate
            ++ GenerateFragmentShader.helpers gstate gstate_c))
    ∧ ¬ occursIn "texture2D" (GenerateFragmentShader cfg gstate gstate_c)
    ∧ ¬ occursIn "discard" (GenerateFragmentShader cfg gstate gstate_c)
    ∧ ¬ occursIn "* 2.0" (GenerateFragmentShader cfg gstate gstate_c)
    ∧ ¬ occursIn "fog" (GenerateFragmentShader cfg gstate gstate_c) := by
  obtain ⟨hdt, hfog, hat, hct⟩ := clear_decisions gstate hclear
  have hbody : GenerateFragmentShader.body gstate gstate_c = ["  gl_FragColor = v_color0;\n"] := by
    simp [GenerateFragmentShader.body, hclear]
  have hhelp : GenerateFragmentShader.helpers gstate gstate_c = [] := by
    simp [GenerateFragmentShader.helpers, hat, hct]
  have hdecl : ∀ l ∈ GenerateFragmentShader.declarations cfg gstate,
      l ∈ ["uniform vec3 u_texenv;\n", "varying vec4 v_color0;\n", "varying vec3 v_color1;\n"] := by
    intro l hl
    unfold GenerateFragmentShader.declarations at hl
    simp only [hdt, hfog, hat, hct, Bool.or_self, Bool.false_eq_true, if_false,
      List.nil_append, List.append_nil, List.mem_append] at hl
    rcases hl with (hl | hl) | hl
    all_goals
      repeat' split at hl
    all_goals (revert l; decide)
  have hsec := GenerateFragmentShader_sections cfg gstate gstate_c
  have key : ∀ pat : String, pat.data ≠ [] → '\n' ∉ pat.data →
      (∀ l ∈ preambleLines, ¬ occursIn pat l) →
      (∀ l ∈ ["uniform vec3 u_texenv;\n", "varying vec4 v_color0;\n", "varying vec3 v_color1;\n",
          "void main() \x7b\n", "  gl_FragColor = v_color0;\n", "\x7d\n"], ¬ occursIn pat l) →
      ¬ occursIn pat (GenerateFragmentShader cfg gstate gstate_c) := by
    intro pat hne hnl h1 h2
    apply not_occursIn_text pat hne hnl
    · exact fun l hl => h1 l (preamble_subset cfg l hl)
    · intro l hl
      have := hdecl l hl
      exact h2 l (by simp only [List.mem_cons] at this ⊢; tauto)
    · rw [hhelp]; simp
    · exact h2 _ (by simp)
    · rw [hbody]
      intro l hl
      exact h2 l (by simp only [List.mem_cons] at hl ⊢; tauto)
    · exact h2 _ (by simp)
  refine ⟨hbody, ?_, hsec.2, ?_, ?_, ?_, ?_⟩
  · rw [hsec.1, hbody]
    rfl
  · exact key "texture2D" (by decide) (by decide) (by decide!) (by decide!)
  · exact key "discard" (by decide) (by decide) (by decide!) (by decide!)
  · exact key "* 2.0" (by decide) (by decide) (by decide!) (by decide!)
  · exact key "fog" (by decide) (by decide) (by decide!) (by decide!)

/-- The clear-mode text of a state with texturing, lighting, fog and both tests
switched on, on a PowerVR GPU in the embedded dialect. -/
theorem GenerateFragmentShader_clear_mode_witness :
    busyClearState.isModeClear = true
    ∧ GenerateFragmentShader.body busyClearState powervrCache = ["  gl_FragColor = v_color0;\n"]
    ∧ ¬ occursIn "discard" (GenerateFragmentShader embeddedConfig busyClearState powervrCache) :=
  ⟨rfl, (GenerateFragmentShader_clear_mode embeddedConfig busyClearState powervrCache rfl).1,
    (GenerateFragmentShader_clear_mode embeddedConfig busyClearState powervrCache rfl).2.2.2.2.1⟩

/-! ## The preamble -/

/-- C8, as stated, fails for the desktop configuration with `FORCE_OPENGL_2_0`
(`__APPLE__` without `USING_GLES2`): the text does not start with a version
pragma, it starts with the first declaration. -/
theorem GenerateFragmentShader_apple_no_version :
    desktopAppleConfig.GLSL_ES_1_0 = false
    ∧ ¬ beginsWith "#version" (GenerateFragmentShader desktopAppleConfig plainState plainCache)
    ∧ beginsWith "varying vec4 v_color0;\n"
        (GenerateFragmentShader desktopAppleConfig plainState plainCache) := by
  decide

/-- C8, amended: for every state and vendor, in the embedded dialect the text
starts with the version pragma immediately followed by the precision pragma; in
a desktop configuration the text contains no precision pragma; in the desktop
configuration without `FORCE_OPENGL_2_0` it starts with the version pragma, and
with `FORCE_OPENGL_2_0` it contains no version pragma at all. -/
theorem GenerateFragmentShader_pragmas (cfg : BuildConfig) (gstate : GPUgstate)
    (gstate_c : GPUStateCache) :
    (cfg.GLSL_ES_1_0 = true →
      beginsWith "#version 100\nprecision lowp float;\n"
        (GenerateFragmentShader cfg gstate gstate_c))
    ∧ (cfg.GLSL_ES_1_0 = false →
      ¬ occursIn "precision" (GenerateFragmentShader cfg gstate gstate_c))
    ∧ (cfg.GLSL_ES_1_0 = false → cfg.FORCE_OPENGL_2_0 = false →
      beginsWith "#version 110\n" (GenerateFragmentShader cfg gstate gstate_c))
    ∧ (cfg.GLSL_ES_1_0 = false → cfg.FORCE_OPENGL_2_0 = true →
      ¬ occursIn "#version" (GenerateFragmentShader cfg gstate gstate_c)) := by
  have hsec := (GenerateFragmentShader_sections cfg gstate gstate_c).1
  have rest : ∀ pat : String, pat.data ≠ [] → '\n' ∉ pat.data →
      (∀ l ∈ GenerateFragmentShader.preamble cfg, ¬ occursIn pat l) →
      (∀ l ∈ headerLines, ¬ occursIn pat l) → (∀ l ∈ bodyLines, ¬ occursIn pat l) →
      ¬ occursIn pat "void main() \x7b\n" → ¬ occursIn pat "\x7d\n" →
      ¬ occursIn pat (GenerateFragmentShader cfg gstate gstate_c) := by
    intro pat hne hnl h1 h2 h3 h4 h5
    exact not_occursIn_text pat hne hnl cfg gstate gstate_c h1
      (fun l hl => h2 l (declarations_subset cfg gstate l hl))
      (fun l hl => h2 l (helpers_subset gstate gstate_c l hl)) h4
      (fun l hl => h3 l (body_subset gstate gstate_c l hl)) h5
  refine ⟨?_, ?_, ?_, ?_⟩
  · intro hes
    have hp : GenerateFragmentShader.preamble cfg = ["#version 100\n", "precision lowp float;\n"] := by
      simp [GenerateFragmentShader.preamble, hes]
    unfold beginsWith
    rw [hsec, hp]
    simp only [String.data_append, String.data_join, List.map_append, List.flatten_append,
      List.append_assoc]
    exact List.prefix_append _ _
  · intro hes
    apply rest "precision" (by decide) (by decide) _ (by decide!) (by decide!) (by decide!)
      (by decide!)
    intro l hl
    unfold GenerateFragmentShader.preamble at hl
    simp only [hes, Bool.false_eq_true, if_false] at hl
    split at hl <;> (revert l; decide!)
  · intro hes hforce
    have hp : GenerateFragmentShader.preamble cfg = ["#version 110\n"] := by
      simp [GenerateFragmentShader.preamble, hes, hforce]
    unfold beginsWith
    rw [hsec, hp]
    simp only [String.data_append, String.data_join, List.map_append, List.flatten_append,
      List.append_assoc]
    exact List.prefix_append _ _
  · intro hes hforce
    apply rest "#version" (by decide) (by decide) _ (by decide!) (by decide!) (by decide!)
      (by decide!)
    simp [GenerateFragmentShader.preamble, hes, hforce]

/-- The pragmas of the three build configurations on the plain state. -/
theorem GenerateFragmentShader_pragmas_witness :
    (embeddedConfig.GLSL_ES_1_0 = true
      ∧ beginsWith "#version 100\nprecision lowp float;\n"
          (GenerateFragmentShader embeddedConfig plainState plainCache))
    ∧ (desktopConfig.GLSL_ES_1_0 = false ∧ desktopConfig.FORCE_OPENGL_2_0 = false
      ∧ beginsWith "#version 110\n" (GenerateFragmentShader desktopConfig plainState plainCache))
    ∧ (desktopAppleConfig.GLSL_ES_1_0 = false ∧ desktopAppleConfig.FORCE_OPENGL_2_0 = true
      ∧ ¬ occursIn "#version" (GenerateFragmentShader desktopAppleConfig plainState plainCache)) :=
  ⟨⟨rfl, (GenerateFragmentShader_pragmas embeddedConfig plainState plainCache).1 rfl⟩,
    ⟨rfl, rfl, (GenerateFragmentShader_pragmas desktopConfig plainState plainCache).2.2.1 rfl rfl⟩,
    ⟨rfl, rfl,
      (GenerateFragmentShader_pragmas desktopAppleConfig plainState plainCache).2.2.2 rfl rfl⟩⟩

/-! ## Identifier and text -/

/-- C2 fails on the code at two pairs of states.  With the alpha test enabled,
the functions NEVER and ALWAYS give the same identifier (bit 8 alone), yet with
NEVER the text declares the test uniforms and the quantization helper and with
ALWAYS it does not.  Two clear-mode states with and without texture mapping
both get the sentinel, yet only the first text declares `u_texenv`. -/
theorem equal_identifier_different_text :
    ((ComputeFragmentShaderID { d := [0] } alphaNeverState plainCache ⟨0, 0⟩).1
        = (ComputeFragmentShaderID { d := [0] } alphaAlwaysState plainCache ⟨0, 0⟩).1
      ∧ GenerateFragmentShader desktopConfig alphaNeverState plainCache
        ≠ GenerateFragmentShader desktopConfig alphaAlwaysState plainCache)
    ∧ ((ComputeFragmentShaderID { d := [0] } plainClearState plainCache ⟨0, 0⟩).1
        = (ComputeFragmentShaderID { d := [0] } texturedClearState plainCache ⟨0, 0⟩).1
      ∧ GenerateFragmentShader desktopConfig plainClearState plainCache
        ≠ GenerateFragmentShader desktopConfig texturedClearState plainCache) := by
  decide

/-! ## Declarations and references -/

open GenerateFragmentShader in
/-- Each declaration is written under its own condition. -/
theorem mem_declarations_cases (cfg : BuildConfig) (gstate : GPUgstate) (l : String)
    (hl : l ∈ declarations cfg gstate) :
    (doTexture gstate = true ∧ l = "uniform sampler2D tex;\n")
    ∨ ((enableAlphaTest gstate || enableColorTest gstate) = true
        ∧ l ∈ ["uniform mediump vec4 u_alphacolorref;\n", "uniform vec4 u_alphacolorref;\n",
            "uniform vec4 u_colormask;\n"])
    ∨ (gstate.isTextureMapEnabled = true ∧ l = "uniform vec3 u_texenv;\n")
    ∨ l = "varying vec4 v_color0;\n"
    ∨ (lmode gstate = true ∧ l = "varying vec3 v_color1;\n")
    ∨ (enableFog gstate = true
        ∧ l ∈ ["uniform vec3 u_fogcolor;\n", "varying mediump float v_fogdepth;\n",
            "varying float v_fogdepth;\n"])
    ∨ (doTexture gstate = true ∧ l ∈ ["varying vec3 v_texcoord;\n", "varying vec2 v_texcoord;\n"]) := by
  unfold declarations at hl
  simp only [List.mem_append] at hl
  rcases hl with (((((hl | hl) | hl) | hl) | hl) | hl) | hl
  · split at hl
    · rename_i h
      simp only [List.mem_singleton] at hl
      exact Or.inl ⟨h, hl⟩
    · simp at hl
  · split at hl
    · rename_i h
      refine Or.inr (Or.inl ⟨h, ?_⟩)
      split at hl <;> simp only [List.mem_cons, List.mem_singleton, List.mem_nil_iff] at hl ⊢ <;>
        tauto
    · simp at hl
  · split at hl
    · rename_i h
      simp only [List.mem_singleton] at hl
      exact Or.inr (Or.inr (Or.inl ⟨h, hl⟩))
    · simp at hl
  · simp only [List.mem_singleton] at hl
    exact Or.inr (Or.inr (Or.inr (Or.inl hl)))
  · split at hl
    · rename_i h
      simp only [List.mem_singleton] at hl
      exact Or.inr (Or.inr (Or.inr (Or.inr (Or.inl ⟨h, hl⟩))))
    · simp at hl
  · split at hl
    · rename_i h
      refine Or.inr (Or.inr (Or.inr (Or.inr (Or.inr (Or.inl ⟨h, ?_⟩)))))
      split at hl <;> simp only [List.mem_cons, List.mem_singleton, List.mem_nil_iff] at hl ⊢ <;>
        tauto
    · simp at hl
  · split at hl
    · rename_i h
      refine Or.inr (Or.inr (Or.inr (Or.inr (Or.inr (Or.inr ⟨h, ?_⟩)))))
      split at hl <;> simp only [List.mem_cons, List.mem_singleton, List.mem_nil_iff] at hl ⊢ <;>
        tauto
    · simp at hl

open GenerateFragmentShader in
/-- With texturing surviving, the body samples the texture. -/
theorem body_samples_texture (gstate : GPUgstate) (gstate_c : GPUStateCache)
    (h : doTexture gstate = true) :
    (if doTextureProjection gstate then "  vec4 t = texture2DProj(tex, v_texcoord);\n"
      else "  vec4 t = texture2D(tex, v_texcoord);\n") ∈ body gstate gstate_c
    ∧ "  vec4 p = v_color0;\n" ∈ body gstate gstate_c := by
  simp only [doTexture, Bool.and_eq_true, Bool.not_eq_true'] at h
  simp [body, h.1, h.2]

open GenerateFragmentShader in
/-- With fog surviving, the body ends with the two fog statements. -/
theorem body_mixes_fog (gstate : GPUgstate) (gstate_c : GPUStateCache)
    (h : enableFog gstate = true) :
    "  float fogCoef = clamp(v_fogdepth, 0.0, 1.0);\n" ∈ body gstate gstate_c
    ∧ "  gl_FragColor = mix(vec4(u_fogcolor, v.a), v, fogCoef);\n" ∈ body gstate gstate_c := by
  have hclear : gstate.isModeClear = false := by
    simp only [enableFog, Bool.and_eq_true, Bool.not_eq_true'] at h
    exact h.2
  simp [body, hclear, h]

open GenerateFragmentShader in
/-- Outside clear mode, with secondary colour and lighting, the body reads the
secondary colour. -/
theorem body_reads_secondary (gstate : GPUgstate) (gstate_c : GPUStateCache)
    (hclear : gstate.isModeClear = false) (h : lmode gstate = true) :
    "  vec4 s = vec4(v_color1, 0.0);\n" ∈ body gstate gstate_c := by
  simp [body, hclear, h]

open GenerateFragmentShader in
/-- The body always reads the primary colour. -/
theorem body_reads_primary (gstate : GPUgstate) (gstate_c : GPUStateCache) :
    references gstate gstate_c "v_color0" := by
  unfold references
  cases hclear : gstate.isModeClear
  · cases htex : gstate.isTextureMapEnabled
    · refine ⟨"  vec4 v = v_color0 " ++ (if lmode gstate then " + s" else "") ++ ";\n", ?_, ?_⟩
      · simp [body, hclear, htex]
      · split <;> decide
    · exact ⟨"  vec4 p = v_color0;\n",
        (body_samples_texture gstate gstate_c (by simp [doTexture, hclear, htex])).2, by decide⟩
  · exact ⟨"  gl_FragColor = v_color0;\n", by simp [body, hclear], by decide⟩

/-! ## The alpha test of scenario E -/

/-- C10, as stated, fails in scenario E (GREATER, reference 0, blending with
SRC_ALPHA / SRC_ALPHA, no depth or stencil test): the classifier returns false
and a discard is written, but the text has no `>` at all; the discard compares
with `<=`. -/
theorem GenerateFragmentShader_greater_not_gt :
    IsAlphaTestTriviallyTrue greaterZeroUnsafeState = false
    ∧ ¬ occursIn ">" (GenerateFragmentShader desktopConfig greaterZeroUnsafeState plainCache)
    ∧ occursIn "  if (roundAndScaleTo255f(v.a)  <=  u_alphacolorref.a) discard;\n"
        (GenerateFragmentShader desktopConfig greaterZeroUnsafeState plainCache) := by
  decide!

open GenerateFragmentShader in
/-- C10, amended: for every non-clear state with the alpha test enabled,
function GREATER (code 6), reference 0, blending enabled with source and
destination factor SRC_ALPHA and depth and stencil tests off, for every dialect
and vendor, `IsAlphaTestTriviallyTrue` returns false and the text contains a
discard statement comparing the quantized alpha of `v` with the reference alpha
using the operator `<=`, the negation of GREATER: the fragment is discarded
when the test fails. -/
theorem GenerateFragmentShader_greater_discards_le (cfg : BuildConfig) (gstate : GPUgstate)
    (gstate_c : GPUStateCache) (hclear : gstate.isModeClear = false)
    (henabled : gstate.isAlphaTestEnabled = true)
    (hfunc : gstate.getAlphaTestFunction = GE_COMP_GREATER) (_href : gstate.getAlphaTestRef = 0)
    (_hblend : gstate.isAlphaBlendEnabled = true)
    (_hsrc : gstate.getBlendFuncA = GE_SRCBLEND_SRCALPHA)
    (hdst : gstate.getBlendFuncB = GE_DSTBLEND_SRCALPHA)
    (_hdepth : gstate.isDepthTestEnabled = false) (_hstencil : gstate.isStencilTestEnabled = false) :
    IsAlphaTestTriviallyTrue gstate = false
    ∧ (gstate_c.gpuVendor = GPUVendor.GPU_VENDOR_POWERVR →
        occursIn "  if (roundTo255th(v.a)  <=  u_alphacolorref.a) discard;\n"
          (GenerateFragmentShader cfg gstate gstate_c))
    ∧ (gstate_c.gpuVendor ≠ GPUVendor.GPU_VENDOR_POWERVR →
        occursIn "  if (roundAndScaleTo255f(v.a)  <=  u_alphacolorref.a) discard;\n"
          (GenerateFragmentShader cfg gstate gstate_c)) := by
  have htriv : IsAlphaTestTriviallyTrue gstate = false := by
    rw [classifier_agrees_with_table]
    unfold alphaTestTriviallyTrueTable
    rw [hfunc, hdst]
    simp [GE_COMP_GREATER, isSafeDestFactor, GE_DSTBLEND_SRCALPHA]
  have hen : enableAlphaTest gstate = true := by
    simp [enableAlphaTest, henabled, htriv, hclear]
  refine ⟨htriv, ?_, ?_⟩
  · intro hv
    apply occursIn_text_of_mem_body
    have h1 : ("  if (roundTo255th(v.a) " ++ alphaTestFuncs.getD 6 "#"
        ++ " u_alphacolorref.a) discard;\n")
        = "  if (roundTo255th(v.a)  <=  u_alphacolorref.a) discard;\n" := by decide
    unfold body
    rw [if_neg (by simp [hclear])]
    simp only [List.mem_append]
    refine Or.inl (Or.inl (Or.inl (Or.inr ?_)))
    simp only [hen, if_true, hfunc, GE_COMP_GREATER]
    rw [if_pos (by decide), if_pos hv, if_pos (by decide)]
    exact List.mem_singleton.2 h1.symm
  · intro hv
    apply occursIn_text_of_mem_body
    have h1 : ("  if (roundAndScaleTo255f(v.a) " ++ alphaTestFuncs.getD 6 "#"
        ++ " u_alphacolorref.a) discard;\n")
        = "  if (roundAndScaleTo255f(v.a)  <=  u_alphacolorref.a) discard;\n" := by decide
    unfold body
    rw [if_neg (by simp [hclear])]
    simp only [List.mem_append]
    refine Or.inl (Or.inl (Or.inl (Or.inr ?_)))
    simp only [hen, if_true, hfunc, GE_COMP_GREATER]
    rw [if_pos (by decide), if_neg hv]
    exact List.mem_singleton.2 h1.symm

/-- Scenario E on a PowerVR GPU in the embedded dialect. -/
theorem GenerateFragmentShader_greater_discards_le_witness :
    (greaterZeroUnsafeState.isModeClear = false
      ∧ greaterZeroUnsafeState.isAlphaTestEnabled = true
      ∧ greaterZeroUnsafeState.getAlphaTestFunction = GE_COMP_GREATER
      ∧ greaterZeroUnsafeState.getAlphaTestRef = 0
      ∧ greaterZeroUnsafeState.isAlphaBlendEnabled = true
      ∧ greaterZeroUnsafeState.getBlendFuncA = GE_SRCBLEND_SRCALPHA
      ∧ greaterZeroUnsafeState.getBlendFuncB = GE_DSTBLEND_SRCALPHA
      ∧ greaterZeroUnsafeState.isDepthTestEnabled = false
      ∧ greaterZeroUnsafeState.isStencilTestEnabled = false)
    ∧ occursIn "  if (roundTo255th(v.a)  <=  u_alphacolorref.a) discard;\n"
        (GenerateFragmentShader embeddedConfig greaterZeroUnsafeState powervrCache) :=
  ⟨by decide,
    (GenerateFragmentShader_greater_discards_le embeddedConfig greaterZeroUnsafeState powervrCache
      rfl rfl rfl rfl rfl rfl rfl rfl rfl).2.1 rfl⟩

/-! ## The body, part by part -/

open GenerateFragmentShader in
/-- Outside clear mode the body is its six parts in order. -/
theorem body_parts (gstate : GPUgstate) (gstate_c : GPUStateCache)
    (hclear : gstate.isModeClear = false) :
    body gstate gstate_c
      = bodySecondary gstate ++ bodyTexture gstate gstate_c ++ bodyAlphaTest gstate gstate_c
        ++ bodyDoubling gstate ++ bodyColorTest gstate gstate_c ++ bodyFog gstate := by
  unfold body
  rw [if_neg (by simp [hclear])]
  cases hv : gstate_c.gpuVendor <;>
    simp only [bodySecondary, bodyTexture, bodyAlphaTest, bodyDoubling, bodyColorTest, bodyFog,
      secondary, alphaDiscard, colorDiscard, hv, if_true, if_false, reduceCtorEq]

open GenerateFragmentShader in
/-- The function codes whose table entry is not the placeholder: 2..7. -/
theorem bodyAlphaTest_eq (gstate : GPUgstate) (gstate_c : GPUStateCache) :
    bodyAlphaTest gstate gstate_c
      = if enableAlphaTest gstate = true ∧ 2 ≤ gstate.getAlphaTestFunction
            ∧ gstate.getAlphaTestFunction < 8
            ∧ (gstate_c.gpuVendor = GPUVendor.GPU_VENDOR_POWERVR →
                gstate.getAlphaTestFunction ≠ 3) then
          [alphaDiscard gstate_c.gpuVendor gstate.getAlphaTestFunction]
        else [] := by
  unfold bodyAlphaTest
  rw [alphaTestFuncs_live]
  by_cases h1 : enableAlphaTest gstate = true <;>
    by_cases h2 : 2 ≤ gstate.getAlphaTestFunction <;>
    by_cases h3 : gstate.getAlphaTestFunction < 8 <;>
    by_cases h4 : gstate_c.gpuVendor = GPUVendor.GPU_VENDOR_POWERVR <;>
    by_cases h5 : gstate.getAlphaTestFunction = 3 <;>
    simp [h1, h2, h3, h4, h5]

open GenerateFragmentShader in
/-- The colour function codes whose table entry is not the placeholder: 2 and 3. -/
theorem bodyColorTest_eq (gstate : GPUgstate) (gstate_c : GPUStateCache) :
    bodyColorTest gstate gstate_c
      = if enableColorTest gstate = true ∧ 2 ≤ gstate.getColorTestFunction
            ∧ gstate.getColorTestFunction < 4 then
          [colorDiscard gstate_c.gpuVendor gstate.getColorTestFunction]
        else [] := by
  unfold bodyColorTest
  rw [colorTestFuncs_live]
  by_cases h1 : enableColorTest gstate = true <;>
    by_cases h2 : 2 ≤ gstate.getColorTestFunction <;>
    by_cases h3 : gstate.getColorTestFunction < 4 <;>
    simp [h1, h2, h3]

open GenerateFragmentShader in
/-- The alpha test writes nothing but one of the alpha discard statements. -/
theorem bodyAlphaTest_subset (gstate : GPUgstate) (gstate_c : GPUStateCache) :
    ∀ l ∈ bodyAlphaTest gstate gstate_c, l ∈ alphaTestLines := by
  intro l hl
  rw [bodyAlphaTest_eq] at hl
  split at hl
  · rename_i h
    obtain ⟨_, h2, h8, _⟩ := h
    simp only [List.mem_singleton] at hl
    subst hl
    generalize gstate.getAlphaTestFunction = f at h2 h8
    cases gstate_c.gpuVendor <;> interval_cases f <;> decide
  · simp at hl

open GenerateFragmentShader in
/-- The colour test writes nothing but one of the colour discard statements. -/
theorem bodyColorTest_subset (gstate : GPUgstate) (gstate_c : GPUStateCache) :
    ∀ l ∈ bodyColorTest gstate gstate_c, l ∈ colorTestLines := by
  intro l hl
  rw [bodyColorTest_eq] at hl
  split at hl
  · rename_i h
    obtain ⟨_, h2, h4⟩ := h
    simp only [List.mem_singleton] at hl
    subst hl
    generalize gstate.getColorTestFunction = f at h2 h4
    cases gstate_c.gpuVendor <;> interval_cases f <;> decide
  · simp at hl

open GenerateFragmentShader in
/-- The parts of the body other than the tests write strings of `plainBodyLines`. -/
theorem plain_parts_subset (gstate : GPUgstate) (gstate_c : GPUStateCache) :
    ∀ l ∈ bodySecondary gstate ++ bodyTexture gstate gstate_c ++ bodyDoubling gstate
        ++ bodyFog gstate, l ∈ plainBodyLines := by
  intro l hl
  simp only [List.mem_append] at hl
  rcases hl with ((hl | hl) | hl) | hl
  · unfold bodySecondary at hl
    split at hl <;> (revert l; decide)
  · unfold bodyTexture secondary combineRGBA combineRGB at hl
    repeat' split at hl
    all_goals (revert l; decide)
  · unfold bodyDoubling at hl
    repeat' split at hl
    all_goals (revert l; decide)
  · unfold bodyFog at hl
    split at hl <;> (revert l; decide)

/-! ## No surviving test -/

open GenerateFragmentShader in
/-- When neither test survives, every string written belongs to the preamble or
to `untestedLines`. -/
theorem untested_writes (cfg : BuildConfig) (gstate : GPUgstate) (gstate_c : GPUStateCache)
    (hA : enableAlphaTest gstate = false) (hC : enableColorTest gstate = false) :
    ∀ l ∈ writes cfg gstate gstate_c, l ∈ preambleLines ++ untestedLines := by
  intro l hl
  unfold writes at hl
  simp only [List.mem_append, List.mem_singleton] at hl
  rw [List.mem_append]
  rcases hl with ((((hl | hl) | hl) | hl) | hl) | hl
  · exact Or.inl (preamble_subset cfg l hl)
  · right
    rcases mem_declarations_cases cfg gstate l hl with
      ⟨_, h⟩ | ⟨h, _⟩ | ⟨_, h⟩ | h | ⟨_, h⟩ | ⟨_, h⟩ | ⟨_, h⟩
    · subst h; decide
    · simp [hA, hC] at h
    · subst h; decide
    · subst h; decide
    · subst h; decide
    · clear hl; revert l; decide
    · clear hl; revert l; decide
  · unfold helpers at hl
    simp [hA, hC] at hl
  · right; subst hl; decide
  · right
    cases hclear : gstate.isModeClear
    · rw [body_parts gstate gstate_c hclear, bodyAlphaTest_eq, bodyColorTest_eq] at hl
      simp only [hA, hC, Bool.false_eq_true, false_and, if_false, List.append_nil] at hl
      have := plain_parts_subset gstate gstate_c l (by
        simp only [List.mem_append] at hl ⊢
        tauto)
      unfold untestedLines
      exact List.mem_append_right _ this
    · have hb : body gstate gstate_c = ["  gl_FragColor = v_color0;\n"] := by
        simp [body, hclear]
      rw [hb] at hl
      revert l; decide
  · right; subst hl; decide

open GenerateFragmentShader in
/-- C11: for every state, vendor and dialect in which the alpha test is
disabled or classified trivially true and the colour test is disabled or
classified trivially true, the text contains no discard statement (`discard`),
no quantization helper (`round`) and no test-reference uniform
(`u_alphacolorref`, `u_colormask`).  The alpha test GEQUAL with reference 0 is
classified trivially true, and so is GREATER with reference 0, blending on with
source factor SRC_ALPHA and destination factor INV_SRC_ALPHA, depth and stencil
tests off. -/
theorem GenerateFragmentShader_no_surviving_test (cfg : BuildConfig) (gstate : GPUgstate)
    (gstate_c : GPUStateCache) :
    ((gstate.isAlphaTestEnabled = false ∨ IsAlphaTestTriviallyTrue gstate = true) →
      (gstate.isColorTestEnabled = false ∨ IsColorTestTriviallyTrue gstate = true) →
      ¬ occursIn "discard" (GenerateFragmentShader cfg gstate gstate_c)
      ∧ ¬ occursIn "round" (GenerateFragmentShader cfg gstate gstate_c)
      ∧ ¬ occursIn "u_alphacolorref" (GenerateFragmentShader cfg gstate gstate_c)
      ∧ ¬ occursIn "u_colormask" (GenerateFragmentShader cfg gstate gstate_c))
    ∧ (gstate.getAlphaTestFunction = GE_COMP_GEQUAL → gstate.getAlphaTestRef = 0 →
        IsAlphaTestTriviallyTrue gstate = true)
    ∧ (gstate.getAlphaTestFunction = GE_COMP_GREATER → gstate.getAlphaTestRef = 0 →
        gstate.isAlphaBlendEnabled = true → gstate.getBlendFuncA = GE_SRCBLEND_SRCALPHA →
        gstate.getBlendFuncB = GE_DSTBLEND_INVSRCALPHA → gstate.isDepthTestEnabled = false →
        gstate.isStencilTestEnabled = false → IsAlphaTestTriviallyTrue gstate = true) := by
  refine ⟨?_, ?_, ?_⟩
  · intro hA hC
    have hA' : enableAlphaTest gstate = false := by
      rcases hA with h | h <;> simp [enableAlphaTest, h]
    have hC' : enableColorTest gstate = false := by
      rcases hC with h | h <;> simp [enableColorTest, h]
    have hsub := untested_writes cfg gstate gstate_c hA' hC'
    have key : ∀ pat : String, pat.data ≠ [] → '\n' ∉ pat.data →
        (∀ l ∈ preambleLines ++ untestedLines, ¬ occursIn pat l) →
        ¬ occursIn pat (GenerateFragmentShader cfg gstate gstate_c) := by
      intro pat hne hnl hall
      rw [occursIn_text_iff pat hne hnl]
      rintro ⟨l, hl, hocc⟩
      exact hall l (hsub l hl) hocc
    exact ⟨key "discard" (by decide) (by decide) (by decide!),
      key "round" (by decide) (by decide) (by decide!),
      key "u_alphacolorref" (by decide) (by decide) (by decide!),
      key "u_colormask" (by decide) (by decide) (by decide!)⟩
  · intro hf hr
    rw [classifier_agrees_with_table]
    unfold alphaTestTriviallyTrueTable
    rw [hf, hr]
    rfl
  · intro hf hr hb hs hd hdep hst
    rw [classifier_agrees_with_table]
    unfold alphaTestTriviallyTrueTable
    rw [hf, hr, hb, hs, hd, hdep, hst]
    rfl

/-- Scenario D (GREATER against 0 under the SRC_ALPHA / INV_SRC_ALPHA blend) on
a PowerVR GPU in the embedded dialect: classified trivially true, and no discard
in the text. -/
theorem GenerateFragmentShader_no_surviving_test_witness :
    ((greaterZeroSafeState.isAlphaTestEnabled = false
        ∨ IsAlphaTestTriviallyTrue greaterZeroSafeState = true)
      ∧ (greaterZeroSafeState.isColorTestEnabled = false
        ∨ IsColorTestTriviallyTrue greaterZeroSafeState = true))
    ∧ ¬ occursIn "discard" (GenerateFragmentShader embeddedConfig greaterZeroSafeState powervrCache) :=
  ⟨by decide,
    ((GenerateFragmentShader_no_surviving_test embeddedConfig greaterZeroSafeState powervrCache).1
      (by decide) (by decide)).1⟩

/-! ## Scenario B: texture modulation -/

/-- C12, as stated, fails with colour doubling on: every condition of scenario B
holds, yet the body doubles `v.rgb` between the product and the final
assignment. -/
theorem GenerateFragmentShader_modulate_doubled :
    (modulateDoubledState.isModeClear = false
      ∧ modulateDoubledState.isTextureMapEnabled = true
      ∧ modulateDoubledState.getTextureFunction = GE_TEXFUNC_MODULATE
      ∧ modulateDoubledState.isTextureAlphaUsed = true ∧ plainCache.textureFullAlpha = false
      ∧ modulateDoubledState.isAlphaTestEnabled = false
      ∧ modulateDoubledState.isColorTestEnabled = false
      ∧ modulateDoubledState.isFogEnabled = false
      ∧ GenerateFragmentShader.lmode modulateDoubledState = false)
    ∧ GenerateFragmentShader.body modulateDoubledState plainCache
        = [ "  vec4 t = texture2D(tex, v_texcoord);\n", "  vec4 p = v_color0;\n",
            "  vec4 v = p * t;\n", "  v.rgb = v.rgb * 2.0;\n", "  gl_FragColor = v;\n" ] := by
  decide

open GenerateFragmentShader in
/-- C12, amended: for every non-clear state with texturing enabled, texture
function MODULATE, texture alpha used without the full-alpha hint, alpha and
colour tests disabled, fog disabled and lighting/secondary colour off, the body
of `main` samples the texture into `t` (projectively when projection is on),
sets `p` to the primary colour, computes `v = p * t`, then writes the doubling
statement if colour or alpha doubling is on, and assigns `v` to `gl_FragColor`.
With both doublings off no other statement modifies `v`: the body is exactly
those four statements. -/
theorem GenerateFragmentShader_modulate (gstate : GPUgstate) (gstate_c : GPUStateCache)
    (hclear : gstate.isModeClear = false) (htex : gstate.isTextureMapEnabled = true)
    (hfunc : gstate.getTextureFunction = GE_TEXFUNC_MODULATE)
    (halpha : gstate.isTextureAlphaUsed = true) (hhint : gstate_c.textureFullAlpha = false)
    (hat : gstate.isAlphaTestEnabled = false) (hct : gstate.isColorTestEnabled = false)
    (hfog : gstate.isFogEnabled = false) (hl : lmode gstate = false) :
    body gstate gstate_c
        = [ if doTextureProjection gstate then "  vec4 t = texture2DProj(tex, v_texcoord);\n"
            else "  vec4 t = texture2D(tex, v_texcoord);\n",
            "  vec4 p = v_color0;\n", "  vec4 v = p * t;\n" ]
          ++ bodyDoubling gstate ++ ["  gl_FragColor = v;\n"]
    ∧ (gstate.isColorDoublingEnabled = false → CanDoubleSrcBlendMode gstate = false →
        body gstate gstate_c
          = [ if doTextureProjection gstate then "  vec4 t = texture2DProj(tex, v_texcoord);\n"
              else "  vec4 t = texture2D(tex, v_texcoord);\n",
              "  vec4 p = v_color0;\n", "  vec4 v = p * t;\n", "  gl_FragColor = v;\n" ]) := by
  have hbody : body gstate gstate_c
        = [ if doTextureProjection gstate then "  vec4 t = texture2DProj(tex, v_texcoord);\n"
            else "  vec4 t = texture2D(tex, v_texcoord);\n",
            "  vec4 p = v_color0;\n", "  vec4 v = p * t;\n" ]
          ++ bodyDoubling gstate ++ ["  gl_FragColor = v;\n"] := by
    rw [body_parts gstate gstate_c hclear, bodyAlphaTest_eq, bodyColorTest_eq]
    have h1 : enableAlphaTest gstate = false := by simp [enableAlphaTest, hat]
    have h2 : enableColorTest gstate = false := by simp [enableColorTest, hct]
    have h3 : enableFog gstate = false := by simp [enableFog, hfog]
    have h4 : doTextureAlpha gstate gstate_c = true := by simp [doTextureAlpha, hhint, halpha]
    have h5 : combineRGBA GE_TEXFUNC_MODULATE "" = "  vec4 v = p * t;\n" := by decide
    simp only [bodySecondary, bodyTexture, bodyFog, secondary, hl, htex, hfunc, h1, h2, h3, h4,
      h5, Bool.false_eq_true, if_false, if_true, false_and, List.nil_append, List.append_nil]
  refine ⟨hbody, ?_⟩
  intro hcd had
  rw [hbody]
  simp [bodyDoubling, enableColorDoubling, enableAlphaDoubling, hcd, had]

/-- Scenario B and its body of four statements. -/
theorem GenerateFragmentShader_modulate_witness :
    (modulateState.isModeClear = false ∧ modulateState.isTextureMapEnabled = true
      ∧ modulateState.getTextureFunction = GE_TEXFUNC_MODULATE
      ∧ modulateState.isTextureAlphaUsed = true ∧ plainCache.textureFullAlpha = false
      ∧ modulateState.isAlphaTestEnabled = false ∧ modulateState.isColorTestEnabled = false
      ∧ modulateState.isFogEnabled = false ∧ GenerateFragmentShader.lmode modulateState = false
      ∧ modulateState.isColorDoublingEnabled = false
      ∧ CanDoubleSrcBlendMode modulateState = false)
    ∧ GenerateFragmentShader.body modulateState plainCache
        = [ "  vec4 t = texture2D(tex, v_texcoord);\n", "  vec4 p = v_color0;\n",
            "  vec4 v = p * t;\n", "  gl_FragColor = v;\n" ] :=
  ⟨by decide,
    (GenerateFragmentShader_modulate modulateState plainCache rfl rfl rfl rfl rfl rfl rfl rfl
      rfl).2 rfl (by decide)⟩

/-! ## The final assignment and fog -/

/-- C13, as stated, fails in through mode: fog is enabled in the state, yet the
last statement is `gl_FragColor = v;` and neither fog name is declared. -/
theorem GenerateFragmentShader_through_no_fog :
    (throughFogState.isModeClear = false ∧ throughFogState.isFogEnabled = true)
    ∧ (GenerateFragmentShader.body throughFogState plainCache).getLast?
        = some "  gl_FragColor = v;\n"
    ∧ ¬ declares embeddedConfig throughFogState "u_fogcolor"
    ∧ ¬ declares embeddedConfig throughFogState "v_fogdepth" := by
  decide

open GenerateFragmentShader in
/-- C13, amended: for every non-clear state, if fog is enabled and the state is
not in through mode, the body ends with the statement computing
`fogCoef = clamp(v_fogdepth, 0.0, 1.0)` followed by the last statement, which
assigns `mix(vec4(u_fogcolor, v.a), v, fogCoef)` to `gl_FragColor`, and the fog
uniform and the depth varying are declared; otherwise the last statement is
`gl_FragColor = v;` and neither is declared. -/
theorem GenerateFragmentShader_fog (cfg : BuildConfig) (gstate : GPUgstate)
    (gstate_c : GPUStateCache) (hclear : gstate.isModeClear = false) :
    (gstate.isFogEnabled = true ∧ gstate.isModeThrough = false →
      (∃ before, body gstate gstate_c
          = before ++ [ "  float fogCoef = clamp(v_fogdepth, 0.0, 1.0);\n",
                        "  gl_FragColor = mix(vec4(u_fogcolor, v.a), v, fogCoef);\n" ])
      ∧ (body gstate gstate_c).getLast?
          = some "  gl_FragColor = mix(vec4(u_fogcolor, v.a), v, fogCoef);\n"
      ∧ declares cfg gstate "u_fogcolor" ∧ declares cfg gstate "v_fogdepth")
    ∧ (¬ (gstate.isFogEnabled = true ∧ gstate.isModeThrough = false) →
      (body gstate gstate_c).getLast? = some "  gl_FragColor = v;\n"
      ∧ ¬ declares cfg gstate "u_fogcolor" ∧ ¬ declares cfg gstate "v_fogdepth") := by
  have hparts := body_parts gstate gstate_c hclear
  constructor
  · rintro ⟨hfog, hthrough⟩
    have hen : enableFog gstate = true := by simp [enableFog, hfog, hthrough, hclear]
    have hb : bodyFog gstate = [ "  float fogCoef = clamp(v_fogdepth, 0.0, 1.0);\n",
        "  gl_FragColor = mix(vec4(u_fogcolor, v.a), v, fogCoef);\n" ] := by
      simp [bodyFog, hen]
    refine ⟨⟨_, by rw [hparts, hb]⟩, ?_, ?_, ?_⟩
    · rw [hparts, hb]
      simp
    · refine ⟨"uniform vec3 u_fogcolor;\n", ?_, by decide⟩
      simp [declarations, hen]
    · refine ⟨if cfg.GLSL_ES_1_0 then "varying mediump float v_fogdepth;\n"
          else "varying float v_fogdepth;\n", ?_, ?_⟩
      · simp [declarations, hen]
      · split <;> decide
  · intro hno
    have hen : enableFog gstate = false := by
      cases hf : gstate.isFogEnabled <;> cases ht : gstate.isModeThrough <;>
        simp_all [enableFog]
    have hb : bodyFog gstate = ["  gl_FragColor = v;\n"] := by
      simp [bodyFog, hen]
    refine ⟨?_, ?_, ?_⟩
    · rw [hparts, hb]
      simp
    · rintro ⟨l, hmem, hid⟩
      rcases mem_declarations_cases cfg gstate l hmem with
        ⟨_, hl⟩ | ⟨_, hl⟩ | ⟨_, hl⟩ | hl | ⟨_, hl⟩ | ⟨h, _⟩ | ⟨_, hl⟩
      · exact absurd hid (by subst hl; decide)
      · exact absurd hid (by clear hid hmem; revert l; decide)
      · exact absurd hid (by subst hl; decide)
      · exact absurd hid (by subst hl; decide)
      · exact absurd hid (by subst hl; decide)
      · rw [hen] at h; exact absurd h (by decide)
      · exact absurd hid (by clear hid hmem; revert l; decide)
    · rintro ⟨l, hmem, hid⟩
      rcases mem_declarations_cases cfg gstate l hmem with
        ⟨_, hl⟩ | ⟨_, hl⟩ | ⟨_, hl⟩ | hl | ⟨_, hl⟩ | ⟨h, _⟩ | ⟨_, hl⟩
      · exact absurd hid (by subst hl; decide)
      · exact absurd hid (by clear hid hmem; revert l; decide)
      · exact absurd hid (by subst hl; decide)
      · exact absurd hid (by subst hl; decide)
      · exact absurd hid (by subst hl; decide)
      · rw [hen] at h; exact absurd h (by decide)
      · exact absurd hid (by clear hid hmem; revert l; decide)

/-- Fog outside through mode ends the body with the blend; fog in through mode
ends it with the plain assignment. -/
theorem GenerateFragmentShader_fog_witness :
    (fogState.isModeClear = false ∧ fogState.isFogEnabled = true
      ∧ fogState.isModeThrough = false
      ∧ (GenerateFragmentShader.body fogState plainCache).getLast?
          = some "  gl_FragColor = mix(vec4(u_fogcolor, v.a), v, fogCoef);\n")
    ∧ (throughFogState.isModeClear = false
      ∧ ¬ (throughFogState.isFogEnabled = true ∧ throughFogState.isModeThrough = false)
      ∧ (GenerateFragmentShader.body throughFogState plainCache).getLast?
          = some "  gl_FragColor = v;\n") :=
  ⟨⟨rfl, rfl, rfl,
      ((GenerateFragmentShader_fog embeddedConfig fogState plainCache rfl).1 ⟨rfl, rfl⟩).2.1⟩,
    ⟨rfl, by decide,
      ((GenerateFragmentShader_fog embeddedConfig throughFogState plainCache rfl).2
        (by decide)).1⟩⟩

/-! ## The surviving alpha test -/

/-- C14 fails on the code for the function NEVER: the alpha test is enabled and
not classified trivially true, so it survives; the table lookup reads the
placeholder `#` and no discard is written, although the helper and the test
uniforms are. -/
theorem alpha_never_survives_without_discard :
    (alphaNeverState.isModeClear = false ∧ alphaNeverState.isAlphaTestEnabled = true
      ∧ IsAlphaTestTriviallyTrue alphaNeverState = false)
    ∧ alphaNeverState.getAlphaTestFunction = GE_COMP_NEVER
    ∧ GenerateFragmentShader.enableAlphaTest alphaNeverState = true
    ∧ GenerateFragmentShader.alphaTestFuncs.getD alphaNeverState.getAlphaTestFunction "#" = "#"
    ∧ GenerateFragmentShader.body alphaNeverState plainCache
        = ["  vec4 v = v_color0 ;\n", "  gl_FragColor = v;\n"]
    ∧ occursIn "roundAndScaleTo255f" (GenerateFragmentShader desktopConfig alphaNeverState plainCache)
    ∧ ¬ occursIn "discard" (GenerateFragmentShader desktopConfig alphaNeverState plainCache) := by
  decide!

/-- C15, as stated, fails on a PowerVR GPU both ways: with the function EQUAL
the alpha discard is written (it compares with `!=`), and with NOTEQUAL, which
survives as well, no statement quantizes `v.a`. -/
theorem powervr_discard_equal_written :
    ((alphaEqualState.isModeClear = false ∧ alphaEqualState.isAlphaTestEnabled = true
        ∧ IsAlphaTestTriviallyTrue alphaEqualState = false
        ∧ alphaEqualState.getAlphaTestFunction = GE_COMP_EQUAL)
      ∧ occursIn "  if (roundTo255th(v.a)  !=  u_alphacolorref.a) discard;\n"
          (GenerateFragmentShader embeddedConfig alphaEqualState powervrCache))
    ∧ ((alphaNotEqualState.isModeClear = false ∧ alphaNotEqualState.isAlphaTestEnabled = true
        ∧ IsAlphaTestTriviallyTrue alphaNotEqualState = false
        ∧ alphaNotEqualState.getAlphaTestFunction = GE_COMP_NOTEQUAL)
      ∧ ¬ occursIn "discard" (GenerateFragmentShader embeddedConfig alphaNotEqualState powervrCache)) := by
  decide!

open GenerateFragmentShader in
/-- C15, amended: on a PowerVR GPU, for every non-clear state whose alpha test
survives simplification, the alpha discard statement is omitted when the alpha
test function is NOTEQUAL (code 3, whose discard would compare with `==`): no
statement of the body and no place of the text quantizes `v.a`.  It is written
for EQUAL, LESS, LEQUAL, GREATER and GEQUAL (codes 2, 4, 5, 6, 7). -/
theorem powervr_alpha_discard (cfg : BuildConfig) (gstate : GPUgstate)
    (gstate_c : GPUStateCache) (hv : gstate_c.gpuVendor = GPUVendor.GPU_VENDOR_POWERVR)
    (hclear : gstate.isModeClear = false) (henabled : gstate.isAlphaTestEnabled = true)
    (htriv : IsAlphaTestTriviallyTrue gstate = false) :
    (gstate.getAlphaTestFunction = GE_COMP_NOTEQUAL →
      (∀ l ∈ body gstate gstate_c, ¬ occursIn "(v.a)" l)
      ∧ ¬ occursIn "(v.a)" (GenerateFragmentShader cfg gstate gstate_c))
    ∧ (gstate.getAlphaTestFunction = GE_COMP_EQUAL ∨ gstate.getAlphaTestFunction = GE_COMP_LESS
        ∨ gstate.getAlphaTestFunction = GE_COMP_LEQUAL
        ∨ gstate.getAlphaTestFunction = GE_COMP_GREATER
        ∨ gstate.getAlphaTestFunction = GE_COMP_GEQUAL →
      alphaDiscard GPUVendor.GPU_VENDOR_POWERVR gstate.getAlphaTestFunction
          ∈ body gstate gstate_c
      ∧ occursIn (alphaDiscard GPUVendor.GPU_VENDOR_POWERVR gstate.getAlphaTestFunction)
          (GenerateFragmentShader cfg gstate gstate_c)) := by
  have hen : enableAlphaTest gstate = true := by simp [enableAlphaTest, henabled, htriv, hclear]
  have hparts := body_parts gstate gstate_c hclear
  constructor
  · intro hf
    have halpha : bodyAlphaTest gstate gstate_c = [] := by
      rw [bodyAlphaTest_eq, if_neg]
      rintro ⟨_, _, _, h⟩
      exact h hv hf
    have hbody : ∀ l ∈ body gstate gstate_c, ¬ occursIn "(v.a)" l := by
      intro l hl
      rw [hparts, halpha, List.append_nil] at hl
      simp only [List.mem_append] at hl
      by_cases hc : l ∈ bodyColorTest gstate gstate_c
      · exact (by decide! : ∀ l ∈ colorTestLines, ¬ occursIn "(v.a)" l) l
          (bodyColorTest_subset gstate gstate_c l hc)
      · exact (by decide! : ∀ l ∈ plainBodyLines, ¬ occursIn "(v.a)" l) l
          (plain_parts_subset gstate gstate_c l (by
            simp only [List.mem_append]
            tauto))
    refine ⟨hbody, ?_⟩
    apply not_occursIn_text "(v.a)" (by decide) (by decide)
    · exact fun l hl => (by decide! : ∀ l ∈ preambleLines, ¬ occursIn "(v.a)" l) l
        (preamble_subset cfg l hl)
    · exact fun l hl => (by decide! : ∀ l ∈ headerLines, ¬ occursIn "(v.a)" l) l
        (declarations_subset cfg gstate l hl)
    · exact fun l hl => (by decide! : ∀ l ∈ headerLines, ¬ occursIn "(v.a)" l) l
        (helpers_subset gstate gstate_c l hl)
    · decide
    · exact hbody
    · decide
  · intro hf
    have halpha : bodyAlphaTest gstate gstate_c
        = [alphaDiscard GPUVendor.GPU_VENDOR_POWERVR gstate.getAlphaTestFunction] := by
      rw [bodyAlphaTest_eq, hv, if_pos]
      refine ⟨hen, ?_, ?_, ?_⟩ <;>
        rcases hf with h | h | h | h | h <;>
        simp [h, GE_COMP_EQUAL, GE_COMP_LESS, GE_COMP_LEQUAL, GE_COMP_GREATER, GE_COMP_GEQUAL]
    have hmem : alphaDiscard GPUVendor.GPU_VENDOR_POWERVR gstate.getAlphaTestFunction
        ∈ body gstate gstate_c := by
      rw [hparts, halpha]
      simp
    exact ⟨hmem, occursIn_text_of_mem_body _ cfg gstate gstate_c hmem⟩

/-- On a PowerVR GPU the function EQUAL against 5 survives and its discard,
comparing with `!=`, is written. -/
theorem powervr_alpha_discard_witness :
    (powervrCache.gpuVendor = GPUVendor.GPU_VENDOR_POWERVR ∧ alphaEqualState.isModeClear = false
      ∧ alphaEqualState.isAlphaTestEnabled = true
      ∧ IsAlphaTestTriviallyTrue alphaEqualState = false
      ∧ alphaEqualState.getAlphaTestFunction = GE_COMP_EQUAL)
    ∧ GenerateFragmentShader.alphaDiscard GPUVendor.GPU_VENDOR_POWERVR
          alphaEqualState.getAlphaTestFunction
        ∈ GenerateFragmentShader.body alphaEqualState powervrCache :=
  ⟨by decide,
    ((powervr_alpha_discard embeddedConfig alphaEqualState powervrCache rfl rfl rfl
      (by decide)).2 (Or.inl rfl)).1⟩

/-! ## The BLEND combine without texture alpha -/

/-- C16, as stated, fails: with function BLEND and the texture alpha not used,
the combine statement has alpha component `p.a`, and `p.a * t.a` occurs nowhere
in the text. -/
theorem blend_rgb_alpha_not_product :
    (blendRGBState.isModeClear = false ∧ blendRGBState.isTextureMapEnabled = true
      ∧ blendRGBState.getTextureFunction = GE_TEXFUNC_BLEND
      ∧ GenerateFragmentShader.doTextureAlpha blendRGBState plainCache = false)
    ∧ "  vec4 v = vec4(mix(p.rgb, u_texenv.rgb, t.rgb), p.a);\n"
        ∈ GenerateFragmentShader.body blendRGBState plainCache
    ∧ ¬ occursIn "p.a * t.a" (GenerateFragmentShader desktopConfig blendRGBState plainCache) := by
  decide!

open GenerateFragmentShader in
/-- C16, amended: for every non-clear state with texturing enabled, texture
function BLEND and the texture alpha not used, the combine statement written
for `v` is `vec4(mix(p.rgb, u_texenv.rgb, t.rgb), p.a)` plus the secondary
colour: its alpha component is `p.a`, and no statement of the body contains
`p.a * t.a`.  With the texture alpha used the combine statement has alpha
component `p.a * t.a`. -/
theorem blend_combine_alpha (gstate : GPUgstate) (gstate_c : GPUStateCache)
    (hclear : gstate.isModeClear = false) (htex : gstate.isTextureMapEnabled = true)
    (hfunc : gstate.getTextureFunction = GE_TEXFUNC_BLEND) :
    (doTextureAlpha gstate gstate_c = false →
      "  vec4 v = vec4(mix(p.rgb, u_texenv.rgb, t.rgb), p.a)" ++ secondary gstate ++ ";\n"
          ∈ body gstate gstate_c
      ∧ ∀ l ∈ body gstate gstate_c, ¬ occursIn "p.a * t.a" l)
    ∧ (doTextureAlpha gstate gstate_c = true →
      "  vec4 v = vec4(mix(p.rgb, u_texenv.rgb, t.rgb), p.a * t.a)" ++ secondary gstate ++ ";\n"
          ∈ body gstate gstate_c) := by
  have hparts := body_parts gstate gstate_c hclear
  constructor
  · intro hdta
    have htexture : bodyTexture gstate gstate_c
        = [ if doTextureProjection gstate then "  vec4 t = texture2DProj(tex, v_texcoord);\n"
            else "  vec4 t = texture2D(tex, v_texcoord);\n",
            "  vec4 p = v_color0;\n",
            "  vec4 v = vec4(mix(p.rgb, u_texenv.rgb, t.rgb), p.a)" ++ secondary gstate
              ++ ";\n" ] := by
      simp only [bodyTexture, htex, hdta, hfunc, if_true, Bool.false_eq_true, if_false]
      rfl
    constructor
    · rw [hparts, htexture]
      simp
    · intro l hl
      rw [hparts] at hl
      simp only [List.mem_append] at hl
      rcases hl with ((((hl | hl) | hl) | hl) | hl) | hl
      · unfold bodySecondary at hl
        split at hl <;> (revert l; decide!)
      · rw [htexture] at hl
        unfold secondary at hl
        repeat' split at hl
        all_goals (revert l; decide!)
      · exact (by decide! : ∀ l ∈ alphaTestLines, ¬ occursIn "p.a * t.a" l) l
          (bodyAlphaTest_subset gstate gstate_c l hl)
      · unfold bodyDoubling at hl
        repeat' split at hl
        all_goals (revert l; decide!)
      · exact (by decide! : ∀ l ∈ colorTestLines, ¬ occursIn "p.a * t.a" l) l
          (bodyColorTest_subset gstate gstate_c l hl)
      · unfold bodyFog at hl
        split at hl <;> (revert l; decide!)
  · intro hdta
    rw [hparts]
    simp only [bodyTexture, htex, hdta, hfunc, if_true]
    have : combineRGBA GE_TEXFUNC_BLEND (secondary gstate)
        = "  vec4 v = vec4(mix(p.rgb, u_texenv.rgb, t.rgb), p.a * t.a)" ++ secondary gstate
          ++ ";\n" := rfl
    rw [this]
    simp

/-- The BLEND combine of a state without texture alpha. -/
theorem blend_combine_alpha_witness :
    (blendRGBState.isModeClear = false ∧ blendRGBState.isTextureMapEnabled = true
      ∧ blendRGBState.getTextureFunction = GE_TEXFUNC_BLEND
      ∧ GenerateFragmentShader.doTextureAlpha blendRGBState plainCache = false)
    ∧ "  vec4 v = vec4(mix(p.rgb, u_texenv.rgb, t.rgb), p.a)"
          ++ GenerateFragmentShader.secondary blendRGBState ++ ";\n"
        ∈ GenerateFragmentShader.body blendRGBState plainCache :=
  ⟨by decide, ((blend_combine_alpha blendRGBState plainCache rfl rfl rfl).1 (by decide)).1⟩

/-! ## Bit 0 of the identifier -/

/-- Or-ing in a value shifted left by at least one bit keeps bit 0 clear. -/
theorem or32_bit0 (w v k : Nat) (hw : w.testBit 0 = false) (hk : 0 < k) :
    (or32 w (v <<< k)).testBit 0 = false := by
  unfold or32
  rw [Nat.testBit_mod_two_pow, Nat.testBit_or, Nat.testBit_shiftLeft, hw]
  have : ¬ (0 ≥ k) := by omega
  simp [this]

/-- Word 0 of the identifier of a non-clear state has bit 0 clear, whatever the
values of the fields. -/
theorem ComputeFragmentShaderID_word0_even (id : FragmentShaderID) (gstate : GPUgstate)
    (gstate_c : GPUStateCache) (gpuStats : GPUStatistics)
    (hwords : 0 < id.d.length) (hclear : gstate.isModeClear = false) :
    ∃ w, (ComputeFragmentShaderID id gstate gstate_c gpuStats).1.d
        = w :: List.replicate (id.d.length - 1) 0 ∧ w.testBit 0 = false := by
  simp only [ComputeFragmentShaderID, hclear, Bool.false_eq_true, if_false]
  rw [map_zero_set _ _ hwords]
  refine ⟨_, rfl, ?_⟩
  have h0 : (0 : Nat).testBit 0 = false := by simp
  repeat' first
    | exact h0
    | apply or32_bit0 _ _ _ _ (by decide)
    | split

/-- C18: for every non-clear state, whatever the values of its fields, bit 0 of
word 0 of the identifier is 0, so word 0 is not 1 and the identifier differs
from the clear-mode sentinel. -/
theorem ComputeFragmentShaderID_never_sentinel (id : FragmentShaderID) (gstate : GPUgstate)
    (gstate_c : GPUStateCache) (gpuStats : GPUStatistics)
    (hwords : 0 < id.d.length) (hclear : gstate.isModeClear = false) :
    ((ComputeFragmentShaderID id gstate gstate_c gpuStats).1.d.getD 0 0).testBit 0 = false
    ∧ (ComputeFragmentShaderID id gstate gstate_c gpuStats).1.d.getD 0 0 ≠ 1
    ∧ (ComputeFragmentShaderID id gstate gstate_c gpuStats).1
        ≠ { d := (List.replicate id.d.length 0).set 0 1 } := by
  obtain ⟨w, hd, hw⟩ := ComputeFragmentShaderID_word0_even id gstate gstate_c gpuStats hwords hclear
  have hne : w ≠ 1 := by
    rintro rfl
    simp at hw
  refine ⟨?_, ?_, ?_⟩
  · rw [hd]; simpa using hw
  · rw [hd]; simpa using hne
  · intro h
    have hd2 := congrArg FragmentShaderID.d h
    rw [hd] at hd2
    obtain ⟨n, hn⟩ : ∃ n, id.d.length = n + 1 := ⟨id.d.length - 1, by omega⟩
    rw [hn] at hd2
    simp [List.replicate_succ] at hd2
    exact hne hd2

/-- The identifier of the plain non-clear state on a two-word identifier has
word 0 equal to 0, not the sentinel 1. -/
theorem ComputeFragmentShaderID_never_sentinel_witness :
    (0 < (FragmentShaderID.mk [7, 9]).d.length ∧ plainState.isModeClear = false)
    ∧ (ComputeFragmentShaderID { d := [7, 9] } plainState plainCache ⟨0, 0⟩).1.d.getD 0 0 ≠ 1 :=
  ⟨by decide,
    (ComputeFragmentShaderID_never_sentinel { d := [7, 9] } plainState plainCache ⟨0, 0⟩
      (by decide) rfl).2.1⟩

/-! ## Elision and the mask -/

/-- C19: for the functions ALWAYS, GEQUAL and LEQUAL, whenever
`IsAlphaTestTriviallyTrue` returns true, the reference alpha test
(`alpha AND mask` compared with `ref AND mask` under that function) passes for
every fragment alpha in 0..255 and every mask in 0..255; and the classifier does
not depend on the mask: line 62 fetches it and nothing uses it. -/
theorem IsAlphaTestTriviallyTrue_sound_for_every_mask (gstate : GPUgstate) (alpha mask : Nat)
    (_halpha : alpha ≤ 255) (hmask : mask ≤ 255)
    (hfunc : gstate.getAlphaTestFunction = GE_COMP_ALWAYS
      ∨ gstate.getAlphaTestFunction = GE_COMP_GEQUAL
      ∨ gstate.getAlphaTestFunction = GE_COMP_LEQUAL)
    (htriv : IsAlphaTestTriviallyTrue gstate = true) :
    referenceAlphaTest gstate.getAlphaTestFunction gstate.getAlphaTestRef mask alpha = true
    ∧ ∀ m, IsAlphaTestTriviallyTrue { gstate with getAlphaTestMask := m }
        = IsAlphaTestTriviallyTrue gstate := by
  refine ⟨?_, fun m => rfl⟩
  rw [classifier_agrees_with_table] at htriv
  unfold alphaTestTriviallyTrueTable at htriv
  unfold referenceAlphaTest
  rcases hfunc with h | h | h
  · simp [h, GE_COMP_ALWAYS, GE_COMP_NEVER]
  · rw [h] at htriv
    simp only [GE_COMP_GEQUAL, beq_iff_eq] at htriv
    simp [h, htriv, GE_COMP_GEQUAL, GE_COMP_NEVER, GE_COMP_ALWAYS, GE_COMP_EQUAL,
      GE_COMP_NOTEQUAL, GE_COMP_LESS, GE_COMP_LEQUAL, GE_COMP_GREATER]
  · rw [h] at htriv
    simp only [GE_COMP_LEQUAL, beq_iff_eq] at htriv
    have hle : alpha &&& mask ≤ mask := Nat.and_le_right
    simp [h, htriv, GE_COMP_GEQUAL, GE_COMP_NEVER, GE_COMP_ALWAYS, GE_COMP_EQUAL,
      GE_COMP_NOTEQUAL, GE_COMP_LESS, GE_COMP_LEQUAL, and_255_of_le _ hmask, hle]

/-- LEQUAL against 255 is elided, and a fragment of alpha 200 passes under the
mask 15: `200 AND 15 = 8` is at most `255 AND 15 = 15`. -/
theorem IsAlphaTestTriviallyTrue_sound_for_every_mask_witness :
    ((200 : Nat) ≤ 255 ∧ (15 : Nat) ≤ 255
      ∧ lequalFullState.getAlphaTestFunction = GE_COMP_LEQUAL
      ∧ IsAlphaTestTriviallyTrue lequalFullState = true)
    ∧ referenceAlphaTest lequalFullState.getAlphaTestFunction lequalFullState.getAlphaTestRef
        15 200 = true :=
  ⟨by decide,
    (IsAlphaTestTriviallyTrue_sound_for_every_mask lequalFullState 200 15 (by decide) (by decide)
      (Or.inr (Or.inr rfl)) (by decide)).1⟩

/-! ## The identifier determines the text -/

/-- Equal numbers of two booleans come from equal booleans. -/
theorem bool_of_toNat_eq (a b : Bool) (h : a.toNat = b.toNat) : a = b := by
  cases a <;> cases b <;> simp_all

/-- Each field of the reference layout read back from the packed word. -/
theorem referencePacking_read (gstate : GPUgstate) (gstate_c : GPUStateCache)
    (htex : gstate.getTextureFunction < 8) (halpha : gstate.getAlphaTestFunction < 8)
    (hcolor : gstate.getColorTestFunction < 4) :
    bitsOf (referencePacking gstate gstate_c) 1 1 = gstate.isTextureMapEnabled.toNat
    ∧ bitsOf (referencePacking gstate gstate_c) 2 3
        = (if gstate.isTextureMapEnabled then gstate.getTextureFunction else 0)
    ∧ bitsOf (referencePacking gstate gstate_c) 5 1
        = (if gstate.isTextureMapEnabled then
            (gstate.isTextureAlphaUsed
              && !(gstate_c.textureFullAlpha
                    && gstate.getTextureFunction != GE_TEXFUNC_REPLACE)).toNat
          else 0)
    ∧ bitsOf (referencePacking gstate gstate_c) 7 1
        = (gstate.isUsingSecondaryColor && gstate.isLightingEnabled).toNat
    ∧ bitsOf (referencePacking gstate gstate_c) 8 1 = gstate.isAlphaTestEnabled.toNat
    ∧ bitsOf (referencePacking gstate gstate_c) 9 3
        = (if gstate.isAlphaTestEnabled && !IsAlphaTestTriviallyTrue gstate then
            gstate.getAlphaTestFunction else 0)
    ∧ bitsOf (referencePacking gstate gstate_c) 12 1 = gstate.isColorTestEnabled.toNat
    ∧ bitsOf (referencePacking gstate gstate_c) 13 2
        = (if gstate.isColorTestEnabled && !IsColorTestTriviallyTrue gstate then
            gstate.getColorTestFunction else 0)
    ∧ bitsOf (referencePacking gstate gstate_c) 15 1
        = (gstate.isFogEnabled && !gstate.isModeThrough).toNat
    ∧ bitsOf (referencePacking gstate gstate_c) 16 1
        = (gstate.getUVGenMode == GE_TEXMAP_TEXTURE_MATRIX).toNat
    ∧ bitsOf (referencePacking gstate gstate_c) 17 1 = gstate.isColorDoublingEnabled.toNat
    ∧ bitsOf (referencePacking gstate gstate_c) 18 1 = (CanDoubleSrcBlendMode gstate).toNat := by
  have hb := referenceFields_bounds gstate gstate_c htex halpha hcolor
  simp only [referenceFields, List.forall_mem_cons, List.mem_nil_iff, false_imp_iff,
    implies_true, and_true] at hb
  obtain ⟨b1, b2, b3, b4, b5, b6, b7, b8, b9, b10, b11, b12⟩ := hb
  exact (layout_arith _ _ _ _ _ _ _ _ _ _ _ _ b1 b2 b3 b4 b5 b6 b7 b8 b9 b10 b11 b12
    (referencePacking gstate gstate_c)
    (by simp only [referencePacking, referenceFields, List.map, List.sum_cons, List.sum_nil])).1

/-- A surviving test that is not NEVER stores a non-zero function code, so two
equal function fields come from tests that both survive with the same function
or both do not. -/
theorem live_of_field_eq (live1 live2 : Bool) (f1 f2 : Nat)
    (h1 : live1 = true → f1 ≠ 0) (h2 : live2 = true → f2 ≠ 0)
    (h : (if live1 then f1 else 0) = (if live2 then f2 else 0)) :
    live1 = live2 ∧ (live1 = true → f1 = f2) := by
  cases live1 <;> cases live2 <;> simp_all

open GenerateFragmentShader in
/-- Lines 213-216 as one expression: the texture alpha is used and the full-alpha
hint does not apply. -/
theorem doTextureAlpha_eq (gstate : GPUgstate) (gstate_c : GPUStateCache) :
    doTextureAlpha gstate gstate_c
      = (gstate.isTextureAlphaUsed
          && !(gstate_c.textureFullAlpha && gstate.getTextureFunction != GE_TEXFUNC_REPLACE)) := by
  unfold doTextureAlpha
  cases gstate.isTextureAlphaUsed <;>
    cases (gstate_c.textureFullAlpha && gstate.getTextureFunction != GE_TEXFUNC_REPLACE) <;> rfl

open GenerateFragmentShader in
/-- The decisions of the generator recovered from the packed word: two non-clear
states with the same packed word, function codes in range and no enabled test
on NEVER, agree on every decision the generator branches on. -/
theorem decisions_of_equal_packing (s1 s2 : GPUgstate) (c1 c2 : GPUStateCache)
    (hclear1 : s1.isModeClear = false) (hclear2 : s2.isModeClear = false)
    (htex1 : s1.getTextureFunction < 8) (htex2 : s2.getTextureFunction < 8)
    (halpha1 : s1.getAlphaTestFunction < 8) (halpha2 : s2.getAlphaTestFunction < 8)
    (hcolor1 : s1.getColorTestFunction < 4) (hcolor2 : s2.getColorTestFunction < 4)
    (hna1 : s1.isAlphaTestEnabled = true → s1.getAlphaTestFunction ≠ GE_COMP_NEVER)
    (hna2 : s2.isAlphaTestEnabled = true → s2.getAlphaTestFunction ≠ GE_COMP_NEVER)
    (hnc1 : s1.isColorTestEnabled = true → s1.getColorTestFunction ≠ GE_COMP_NEVER)
    (hnc2 : s2.isColorTestEnabled = true → s2.getColorTestFunction ≠ GE_COMP_NEVER)
    (hw : referencePacking s1 c1 = referencePacking s2 c2) :
    s1.isTextureMapEnabled = s2.isTextureMapEnabled
    ∧ (s1.isTextureMapEnabled = true →
        s1.getTextureFunction = s2.getTextureFunction
        ∧ doTextureAlpha s1 c1 = doTextureAlpha s2 c2)
    ∧ lmode s1 = lmode s2
    ∧ enableAlphaTest s1 = enableAlphaTest s2
    ∧ (enableAlphaTest s1 = true → s1.getAlphaTestFunction = s2.getAlphaTestFunction)
    ∧ enableColorTest s1 = enableColorTest s2
    ∧ (enableColorTest s1 = true → s1.getColorTestFunction = s2.getColorTestFunction)
    ∧ enableFog s1 = enableFog s2
    ∧ doTextureProjection s1 = doTextureProjection s2
    ∧ enableColorDoubling s1 = enableColorDoubling s2
    ∧ enableAlphaDoubling s1 = enableAlphaDoubling s2 := by
  obtain ⟨p1, p2, p3, p4, _, p6, _, p8, p9, p10, p11, p12⟩ :=
    referencePacking_read s1 c1 htex1 halpha1 hcolor1
  obtain ⟨q1, q2, q3, q4, _, q6, _, q8, q9, q10, q11, q12⟩ :=
    referencePacking_read s2 c2 htex2 halpha2 hcolor2
  rw [hw] at p1 p2 p3 p4 p6 p8 p9 p10 p11 p12
  have e1 := bool_of_toNat_eq _ _ (p1.symm.trans q1)
  have e2 := p2.symm.trans q2
  have e3 := p3.symm.trans q3
  have e4 := bool_of_toNat_eq _ _ (p4.symm.trans q4)
  have e6 := p6.symm.trans q6
  have e8 := p8.symm.trans q8
  have e9 := bool_of_toNat_eq _ _ (p9.symm.trans q9)
  have e10 := bool_of_toNat_eq _ _ (p10.symm.trans q10)
  have e11 := bool_of_toNat_eq _ _ (p11.symm.trans q11)
  have e12 := bool_of_toNat_eq _ _ (p12.symm.trans q12)
  have la := live_of_field_eq _ _ _ _
    (fun h => hna1 (by simp only [Bool.and_eq_true] at h; exact h.1))
    (fun h => hna2 (by simp only [Bool.and_eq_true] at h; exact h.1)) e6
  have lc := live_of_field_eq _ _ _ _
    (fun h => hnc1 (by simp only [Bool.and_eq_true] at h; exact h.1))
    (fun h => hnc2 (by simp only [Bool.and_eq_true] at h; exact h.1)) e8
  refine ⟨e1, ?_, e4, ?_, ?_, ?_, ?_, ?_, e10, e11, e12⟩
  · intro ht
    have ht2 : s2.isTextureMapEnabled = true := e1 ▸ ht
    rw [ht, ht2] at e2 e3
    simp only [if_true] at e2 e3
    refine ⟨e2, ?_⟩
    rw [doTextureAlpha_eq, doTextureAlpha_eq]
    exact bool_of_toNat_eq _ _ e3
  · simp only [enableAlphaTest, hclear1, hclear2, la.1]
  · intro h
    apply la.2
    simpa [enableAlphaTest, hclear1] using h
  · simp only [enableColorTest, hclear1, hclear2, lc.1]
  · intro h
    apply lc.2
    simpa [enableColorTest, hclear1] using h
  · simp only [enableFog, hclear1, hclear2, e9]

open GenerateFragmentShader in
/-- Two non-clear states that agree on every decision of the generator get the
same text, for the same dialect and vendor. -/
theorem text_of_equal_decisions (cfg : BuildConfig) (s1 s2 : GPUgstate)
    (c1 c2 : GPUStateCache)
    (hclear1 : s1.isModeClear = false) (hclear2 : s2.isModeClear = false)
    (hvendor : c1.gpuVendor = c2.gpuVendor)
    (hTex : s1.isTextureMapEnabled = s2.isTextureMapEnabled)
    (hTf : s1.isTextureMapEnabled = true →
        s1.getTextureFunction = s2.getTextureFunction
        ∧ doTextureAlpha s1 c1 = doTextureAlpha s2 c2)
    (hLm : lmode s1 = lmode s2)
    (hEA : enableAlphaTest s1 = enableAlphaTest s2)
    (hAf : enableAlphaTest s1 = true → s1.getAlphaTestFunction = s2.getAlphaTestFunction)
    (hEC : enableColorTest s1 = enableColorTest s2)
    (hCf : enableColorTest s1 = true → s1.getColorTestFunction = s2.getColorTestFunction)
    (hFog : enableFog s1 = enableFog s2)
    (hProj : doTextureProjection s1 = doTextureProjection s2)
    (hCd : enableColorDoubling s1 = enableColorDoubling s2)
    (hAd : enableAlphaDoubling s1 = enableAlphaDoubling s2) :
    GenerateFragmentShader cfg s1 c1 = GenerateFragmentShader cfg s2 c2 := by
  have hDoTex : doTexture s1 = doTexture s2 := by
    simp only [doTexture, hTex, hclear1, hclear2]
  have hdecl : declarations cfg s1 = declarations cfg s2 := by
    unfold declarations
    rw [hDoTex, hEA, hEC, hTex, hLm, hFog, hProj]
  have hhelp : helpers s1 c1 = helpers s2 c2 := by
    unfold helpers
    rw [hEA, hEC, hvendor]
  have hsec : bodySecondary s1 = bodySecondary s2 := by
    unfold bodySecondary
    rw [hLm]
  have htexture : bodyTexture s1 c1 = bodyTexture s2 c2 := by
    unfold bodyTexture secondary
    cases ht : s1.isTextureMapEnabled
    · rw [← hTex, ht, hLm]
      rfl
    · obtain ⟨h1, h2⟩ := hTf ht
      rw [← hTex, ht, hProj, h1, h2, hLm]
  have halpha : bodyAlphaTest s1 c1 = bodyAlphaTest s2 c2 := by
    unfold bodyAlphaTest
    cases he : enableAlphaTest s1
    · rw [← hEA, he]
      rfl
    · rw [← hEA, he, hAf he, hvendor]
  have hdbl : bodyDoubling s1 = bodyDoubling s2 := by
    unfold bodyDoubling
    rw [hCd, hAd]
  have hcolor : bodyColorTest s1 c1 = bodyColorTest s2 c2 := by
    unfold bodyColorTest
    cases he : enableColorTest s1
    · rw [← hEC, he]
      rfl
    · rw [← hEC, he, hCf he, hvendor]
  have hfog : bodyFog s1 = bodyFog s2 := by
    unfold bodyFog
    rw [hFog]
  unfold GenerateFragmentShader writes
  rw [body_parts s1 c1 hclear1, body_parts s2 c2 hclear2, hdecl, hhelp, hsec, htexture, halpha,
    hdbl, hcolor, hfog]

/-- C17: for a fixed dialect and vendor, for any two non-clear states whose
function fields are in range (texture and alpha function 0..7, colour function
0..3) and in which no enabled alpha test and no enabled colour test uses the
function NEVER, equal identifiers from `ComputeFragmentShaderID` imply identical
text from `GenerateFragmentShader`. -/
theorem equal_identifier_equal_text (cfg : BuildConfig) (id1 id2 : FragmentShaderID)
    (s1 s2 : GPUgstate) (c1 c2 : GPUStateCache) (st1 st2 : GPUStatistics)
    (hwords1 : 0 < id1.d.length) (hwords2 : 0 < id2.d.length)
    (hvendor : c1.gpuVendor = c2.gpuVendor)
    (hclear1 : s1.isModeClear = false) (hclear2 : s2.isModeClear = false)
    (htex1 : s1.getTextureFunction < 8) (htex2 : s2.getTextureFunction < 8)
    (halpha1 : s1.getAlphaTestFunction < 8) (halpha2 : s2.getAlphaTestFunction < 8)
    (hcolor1 : s1.getColorTestFunction < 4) (hcolor2 : s2.getColorTestFunction < 4)
    (hna1 : s1.isAlphaTestEnabled = true → s1.getAlphaTestFunction ≠ GE_COMP_NEVER)
    (hna2 : s2.isAlphaTestEnabled = true → s2.getAlphaTestFunction ≠ GE_COMP_NEVER)
    (hnc1 : s1.isColorTestEnabled = true → s1.getColorTestFunction ≠ GE_COMP_NEVER)
    (hnc2 : s2.isColorTestEnabled = true → s2.getColorTestFunction ≠ GE_COMP_NEVER)
    (hid : (ComputeFragmentShaderID id1 s1 c1 st1).1 = (ComputeFragmentShaderID id2 s2 c2 st2).1) :
    GenerateFragmentShader cfg s1 c1 = GenerateFragmentShader cfg s2 c2 := by
  have hd := congrArg FragmentShaderID.d hid
  rw [ComputeFragmentShaderID_word0 id1 s1 c1 st1 hwords1 hclear1 htex1 halpha1 hcolor1,
    ComputeFragmentShaderID_word0 id2 s2 c2 st2 hwords2 hclear2 htex2 halpha2 hcolor2] at hd
  have hw : referencePacking s1 c1 = referencePacking s2 c2 := (List.cons.inj hd).1
  obtain ⟨d1, d2, d3, d4, d5, d6, d7, d8, d9, d10, d11⟩ :=
    decisions_of_equal_packing s1 s2 c1 c2 hclear1 hclear2 htex1 htex2 halpha1 halpha2 hcolor1
      hcolor2 hna1 hna2 hnc1 hnc2 hw
  exact text_of_equal_decisions cfg s1 s2 c1 c2 hclear1 hclear2 hvendor d1 d2 d3 d4 d5 d6 d7 d8
    d9 d10 d11

/-- Two different states with the same identifier and the same text. -/
theorem equal_identifier_equal_text_witness :
    (0 < (FragmentShaderID.mk [7, 9]).d.length ∧ 0 < (FragmentShaderID.mk [3, 4]).d.length
      ∧ plainCache.gpuVendor = plainCache.gpuVendor
      ∧ plainState.isModeClear = false ∧ plainLookalikeState.isModeClear = false
      ∧ plainState.getTextureFunction < 8 ∧ plainLookalikeState.getTextureFunction < 8
      ∧ plainState.getAlphaTestFunction < 8 ∧ plainLookalikeState.getAlphaTestFunction < 8
      ∧ plainState.getColorTestFunction < 4 ∧ plainLookalikeState.getColorTestFunction < 4
      ∧ (plainState.isAlphaTestEnabled = true → plainState.getAlphaTestFunction ≠ GE_COMP_NEVER)
      ∧ (plainLookalikeState.isAlphaTestEnabled = true →
          plainLookalikeState.getAlphaTestFunction ≠ GE_COMP_NEVER)
      ∧ (plainState.isColorTestEnabled = true → plainState.getColorTestFunction ≠ GE_COMP_NEVER)
      ∧ (plainLookalikeState.isColorTestEnabled = true →
          plainLookalikeState.getColorTestFunction ≠ GE_COMP_NEVER)
      ∧ (ComputeFragmentShaderID { d := [7, 9] } plainState plainCache ⟨0, 0⟩).1
          = (ComputeFragmentShaderID { d := [3, 4] } plainLookalikeState plainCache ⟨5, 6⟩).1)
    ∧ plainState ≠ plainLookalikeState
    ∧ GenerateFragmentShader embeddedConfig plainState plainCache
        = GenerateFragmentShader embeddedConfig plainLookalikeState plainCache :=
  ⟨by decide, by decide,
    equal_identifier_equal_text embeddedConfig { d := [7, 9] } { d := [3, 4] } plainState
      plainLookalikeState plainCache plainCache ⟨0, 0⟩ ⟨5, 6⟩ (by decide) (by decide) rfl rfl rfl
      (by decide) (by decide) (by decide) (by decide) (by decide) (by decide) (by decide)
      (by decide) (by decide) (by decide) (by decide)⟩

/-! ## The length of the text -/

/-- The text written line by line is as long as its lines together. -/
theorem length_join (ls : List String) : (String.join ls).length = totalLength ls := by
  unfold totalLength
  induction ls with
  | nil => rfl
  | cons l ls ih =>
    have h : String.join (l :: ls) = l ++ String.join ls := String_join_append [l] ls ▸ by
      simp [String.join]
    rw [h, String.length_append, ih]
    simp

/-- The length of two lists of strings put together. -/
theorem totalLength_append (a b : List String) :
    totalLength (a ++ b) = totalLength a + totalLength b := by
  simp [totalLength]

open GenerateFragmentShader in
/-- The preamble is at most 35 characters long. -/
theorem preamble_length (cfg : BuildConfig) : totalLength (preamble cfg) ≤ 35 := by
  unfold preamble
  repeat' split
  all_goals decide!

open GenerateFragmentShader in
/-- The declarations are at most 240 characters long. -/
theorem declarations_length (cfg : BuildConfig) (gstate : GPUgstate) :
    totalLength (declarations cfg gstate) ≤ 240 := by
  unfold declarations
  simp only [totalLength_append]
  calc _ ≤ 23 + 64 + 23 + 23 + 23 + 59 + 25 := by
        gcongr
        all_goals
          repeat' split
        all_goals decide!
    _ = 240 := rfl

open GenerateFragmentShader in
/-- The strings that depend on the vendor, the helper functions and the two
discard statements, are at most 345 characters long together: the PowerVR
helpers are the longer ones, the PowerVR discards the shorter ones. -/
theorem vendor_parts_length (gstate : GPUgstate) (gstate_c : GPUStateCache) :
    totalLength (helpers gstate gstate_c) + totalLength (bodyAlphaTest gstate gstate_c)
      + totalLength (bodyColorTest gstate gstate_c) ≤ 345 := by
  rw [bodyAlphaTest_eq, bodyColorTest_eq]
  unfold helpers
  simp only [totalLength_append]
  cases hv : gstate_c.gpuVendor
  · calc _ ≤ (123 + 105) + 57 + 60 := by
          gcongr
          · split <;> decide!
          · split <;> decide!
          · split
            · rename_i h
              obtain ⟨_, h2, h8, _⟩ := h
              generalize gstate.getAlphaTestFunction = f at h2 h8
              interval_cases f <;> decide!
            · decide
          · split
            · rename_i h
              obtain ⟨_, h2, h4⟩ := h
              generalize gstate.getColorTestFunction = f at h2 h4
              interval_cases f <;> decide!
            · decide
      _ = 345 := rfl
  · calc _ ≤ (74 + 75) + 64 + 66 := by
          gcongr
          · split <;> decide!
          · split <;> decide!
          · split
            · rename_i h
              obtain ⟨_, h2, h8, _⟩ := h
              generalize gstate.getAlphaTestFunction = f at h2 h8
              interval_cases f <;> decide!
            · decide
          · split
            · rename_i h
              obtain ⟨_, h2, h4⟩ := h
              generalize gstate.getColorTestFunction = f at h2 h4
              interval_cases f <;> decide!
            · decide
      _ ≤ 345 := by decide

open GenerateFragmentShader in
/-- The parts of the body that do not depend on the vendor are at most 288
characters long together. -/
theorem plain_parts_length (gstate : GPUgstate) (gstate_c : GPUStateCache) :
    totalLength (bodySecondary gstate) + totalLength (bodyTexture gstate gstate_c)
      + totalLength (bodyDoubling gstate) + totalLength (bodyFog gstate) ≤ 288 := by
  have h1 : totalLength (bodySecondary gstate) ≤ 32 := by
    unfold bodySecondary
    split <;> decide!
  have h2 : totalLength (bodyTexture gstate gstate_c) ≤ 129 := by
    unfold bodyTexture secondary combineRGBA combineRGB
    repeat' split
    all_goals decide!
  have h4 : totalLength (bodyDoubling gstate) ≤ 23 := by
    unfold bodyDoubling
    repeat' split
    all_goals decide!
  have h6 : totalLength (bodyFog gstate) ≤ 104 := by
    unfold bodyFog
    split <;> decide!
  omega

open GenerateFragmentShader in
/-- The whole text is at most 924 characters long. -/
theorem text_length (cfg : BuildConfig) (gstate : GPUgstate) (gstate_c : GPUStateCache) :
    (GenerateFragmentShader cfg gstate gstate_c).length ≤ 924 := by
  unfold GenerateFragmentShader
  rw [length_join]
  unfold writes
  simp only [totalLength_append]
  have hp := preamble_length cfg
  have hd := declarations_length cfg gstate
  have hm : totalLength ["void main() \x7b\n"] = 14 := by decide
  have hc : totalLength ["\x7d\n"] = 2 := by decide
  cases hclear : gstate.isModeClear
  · rw [body_parts gstate gstate_c hclear]
    simp only [totalLength_append]
    have hv := vendor_parts_length gstate gstate_c
    have hb := plain_parts_length gstate gstate_c
    omega
  · have hb : body gstate gstate_c = ["  gl_FragColor = v_color0;\n"] := by
      simp [body, hclear]
    have hat : enableAlphaTest gstate = false := by simp [enableAlphaTest, hclear]
    have hct : enableColorTest gstate = false := by simp [enableColorTest, hclear]
    have hh : helpers gstate gstate_c = [] := by simp [helpers, hat, hct]
    rw [hb, hh]
    have h1 : totalLength ["  gl_FragColor = v_color0;\n"] = 27 := by decide
    have h2 : totalLength ([] : List String) = 0 := rfl
    omega

/-- Every character of the text is an ASCII character, one byte of the buffer. -/
theorem text_ascii (cfg : BuildConfig) (gstate : GPUgstate) (gstate_c : GPUStateCache) :
    ∀ ch ∈ (GenerateFragmentShader cfg gstate gstate_c).data, ch.toNat < 128 := by
  intro ch hch
  unfold GenerateFragmentShader at hch
  rw [String.data_join, List.mem_flatten] at hch
  obtain ⟨cs, hcs, hmem⟩ := hch
  obtain ⟨l, hl, rfl⟩ := List.mem_map.1 hcs
  unfold GenerateFragmentShader.writes at hl
  simp only [List.mem_append, List.mem_singleton] at hl
  rcases hl with ((((hl | hl) | hl) | hl) | hl) | hl
  · exact (by decide! : ∀ l ∈ preambleLines, ∀ ch ∈ l.data, ch.toNat < 128) l
      (preamble_subset cfg l hl) ch hmem
  · exact (by decide! : ∀ l ∈ headerLines, ∀ ch ∈ l.data, ch.toNat < 128) l
      (declarations_subset cfg gstate l hl) ch hmem
  · exact (by decide! : ∀ l ∈ headerLines, ∀ ch ∈ l.data, ch.toNat < 128) l
      (helpers_subset gstate gstate_c l hl) ch hmem
  · subst hl
    exact (by decide! : ∀ ch ∈ "void main() \x7b\n".data, ch.toNat < 128) ch hmem
  · exact (by decide! : ∀ l ∈ bodyLines, ∀ ch ∈ l.data, ch.toNat < 128) l
      (body_subset gstate gstate_c l hl) ch hmem
  · subst hl
    exact (by decide! : ∀ ch ∈ "\x7d\n".data, ch.toNat < 128) ch hmem

/-- C20: for every state whose function fields are in range (texture and alpha
function 0..7, colour function 0..3), every vendor and every dialect, the text
written by `GenerateFragmentShader` is shorter than 1024 characters, indeed at
most 924; every character is an ASCII character, so the text and its
terminating NUL fit in a buffer of 1024 bytes. -/
theorem GenerateFragmentShader_fits_buffer (cfg : BuildConfig) (gstate : GPUgstate)
    (gstate_c : GPUStateCache) (_htex : gstate.getTextureFunction < 8)
    (_halpha : gstate.getAlphaTestFunction < 8) (_hcolor : gstate.getColorTestFunction < 4) :
    (GenerateFragmentShader cfg gstate gstate_c).length < 1024
    ∧ (GenerateFragmentShader cfg gstate gstate_c).length ≤ 924
    ∧ (GenerateFragmentShader cfg gstate gstate_c).length + 1 ≤ 1024
    ∧ ∀ ch ∈ (GenerateFragmentShader cfg gstate gstate_c).data, ch.toNat < 128 := by
  have h := text_length cfg gstate gstate_c
  exact ⟨by omega, h, by omega, text_ascii cfg gstate gstate_c⟩

/-- The longest text, 924 characters: every feature on, on a PowerVR GPU in the
embedded dialect. -/
theorem GenerateFragmentShader_fits_buffer_witness :
    (longestState.getTextureFunction < 8 ∧ longestState.getAlphaTestFunction < 8
      ∧ longestState.getColorTestFunction < 4)
    ∧ (GenerateFragmentShader embeddedConfig longestState powervrCache).length = 924
    ∧ (GenerateFragmentShader embeddedConfig longestState powervrCache).length < 1024 :=
  ⟨by decide, by decide!,
    (GenerateFragmentShader_fits_buffer embeddedConfig longestState powervrCache (by decide)
      (by decide) (by decide)).1⟩

/-! ## Declared names and the statements that read them -/

open GenerateFragmentShader in
/-- The texture environment colour is declared exactly when texture mapping is
enabled (line 229). -/
theorem declares_texenv_iff (cfg : BuildConfig) (gstate : GPUgstate) :
    declares cfg gstate "u_texenv" ↔ gstate.isTextureMapEnabled = true := by
  constructor
  · rintro ⟨l, hmem, hid⟩
    rcases mem_declarations_cases cfg gstate l hmem with
      ⟨_, hl⟩ | ⟨_, hl⟩ | ⟨h, _⟩ | hl | ⟨_, hl⟩ | ⟨_, hl⟩ | ⟨_, hl⟩
    · exact absurd hid (by subst hl; decide)
    · exact absurd hid (by clear hid hmem; revert l; decide)
    · exact h
    · exact absurd hid (by subst hl; decide)
    · exact absurd hid (by subst hl; decide)
    · exact absurd hid (by clear hid hmem; revert l; decide)
    · exact absurd hid (by clear hid hmem; revert l; decide)
  · intro h
    exact ⟨"uniform vec3 u_texenv;\n", by simp [declarations, h], by decide⟩

open GenerateFragmentShader in
/-- The test reference and the colour mask are declared exactly when a test
survives (lines 221-228). -/
theorem declares_test_uniforms_iff (cfg : BuildConfig) (gstate : GPUgstate) :
    (declares cfg gstate "u_alphacolorref"
        ↔ (enableAlphaTest gstate || enableColorTest gstate) = true)
    ∧ (declares cfg gstate "u_colormask"
        ↔ (enableAlphaTest gstate || enableColorTest gstate) = true) := by
  refine ⟨⟨?_, ?_⟩, ⟨?_, ?_⟩⟩
  · rintro ⟨l, hmem, hid⟩
    rcases mem_declarations_cases cfg gstate l hmem with
      ⟨_, hl⟩ | ⟨h, _⟩ | ⟨_, hl⟩ | hl | ⟨_, hl⟩ | ⟨_, hl⟩ | ⟨_, hl⟩
    · exact absurd hid (by subst hl; decide)
    · exact h
    · exact absurd hid (by subst hl; decide)
    · exact absurd hid (by subst hl; decide)
    · exact absurd hid (by subst hl; decide)
    · exact absurd hid (by clear hid hmem; revert l; decide)
    · exact absurd hid (by clear hid hmem; revert l; decide)
  · intro h
    refine ⟨if cfg.GLSL_ES_1_0 then "uniform mediump vec4 u_alphacolorref;\n"
      else "uniform vec4 u_alphacolorref;\n", by simp [declarations, h], ?_⟩
    split <;> decide
  · rintro ⟨l, hmem, hid⟩
    rcases mem_declarations_cases cfg gstate l hmem with
      ⟨_, hl⟩ | ⟨h, _⟩ | ⟨_, hl⟩ | hl | ⟨_, hl⟩ | ⟨_, hl⟩ | ⟨_, hl⟩
    · exact absurd hid (by subst hl; decide)
    · exact h
    · exact absurd hid (by subst hl; decide)
    · exact absurd hid (by subst hl; decide)
    · exact absurd hid (by subst hl; decide)
    · exact absurd hid (by clear hid hmem; revert l; decide)
    · exact absurd hid (by clear hid hmem; revert l; decide)
  · intro h
    exact ⟨"uniform vec4 u_colormask;\n", by simp [declarations, h], by decide⟩

/-- No statement that the body can write names the colour mask. -/
theorem colormask_unreferenced (gstate : GPUgstate) (gstate_c : GPUStateCache) :
    ¬ references gstate gstate_c "u_colormask" := by
  rintro ⟨l, hmem, hid⟩
  have hl := body_subset gstate gstate_c l hmem
  have key : ∀ l ∈ bodyLines, "u_colormask" ∉ identifiers l := by decide!
  exact key l hl hid

open GenerateFragmentShader in
/-- Outside clear mode the texture environment colour is read exactly by the
BLEND combine statement of a textured state (lines 293-294 and 309-310). -/
theorem references_texenv_iff (gstate : GPUgstate) (gstate_c : GPUStateCache)
    (hclear : gstate.isModeClear = false) :
    references gstate gstate_c "u_texenv"
      ↔ gstate.isTextureMapEnabled = true ∧ gstate.getTextureFunction = GE_TEXFUNC_BLEND := by
  have htests : ∀ l ∈ alphaTestLines ++ colorTestLines, "u_texenv" ∉ identifiers l := by decide!
  unfold references
  rw [body_parts gstate gstate_c hclear]
  constructor
  · rintro ⟨l, hmem, hid⟩
    by_contra hne
    revert hid
    simp only [List.mem_append] at hmem
    rcases hmem with ((((hl | hl) | hl) | hl) | hl) | hl
    · unfold bodySecondary at hl
      split at hl <;> (revert l; decide)
    · unfold bodyTexture secondary combineRGBA combineRGB at hl
      split at hl
      · rename_i htex
        have hf : gstate.getTextureFunction ≠ GE_TEXFUNC_BLEND := fun h => hne ⟨htex, h⟩
        simp only [hf, if_false] at hl
        repeat' split at hl
        all_goals (revert l; decide)
      · repeat' split at hl
        all_goals (revert l; decide)
    · exact htests l (List.mem_append_left _ (bodyAlphaTest_subset gstate gstate_c l hl))
    · unfold bodyDoubling at hl
      repeat' split at hl
      all_goals (revert l; decide)
    · exact htests l (List.mem_append_right _ (bodyColorTest_subset gstate gstate_c l hl))
    · unfold bodyFog at hl
      split at hl <;> (revert l; decide)
  · rintro ⟨htex, hf⟩
    refine ⟨if doTextureAlpha gstate gstate_c then
        combineRGBA gstate.getTextureFunction (secondary gstate)
      else combineRGB gstate.getTextureFunction (secondary gstate), ?_, ?_⟩
    · simp [bodyTexture, htex]
    · rw [hf]
      unfold secondary
      split <;> split <;> decide

open GenerateFragmentShader in
/-- A written alpha discard statement reads the test reference. -/
theorem references_alphacolorref_of_alpha (gstate : GPUgstate) (gstate_c : GPUStateCache)
    (hen : enableAlphaTest gstate = true) (h2 : 2 ≤ gstate.getAlphaTestFunction)
    (h8 : gstate.getAlphaTestFunction < 8)
    (hv : gstate_c.gpuVendor = GPUVendor.GPU_VENDOR_POWERVR → gstate.getAlphaTestFunction ≠ 3) :
    references gstate gstate_c "u_alphacolorref" := by
  have hclear : gstate.isModeClear = false := by
    simp only [enableAlphaTest, Bool.and_eq_true, Bool.not_eq_true'] at hen
    exact hen.2
  refine ⟨alphaDiscard gstate_c.gpuVendor gstate.getAlphaTestFunction, ?_, ?_⟩
  · rw [body_parts gstate gstate_c hclear, bodyAlphaTest_eq, if_pos ⟨hen, h2, h8, hv⟩]
    simp
  · generalize gstate.getAlphaTestFunction = f at h2 h8
    cases gstate_c.gpuVendor <;> interval_cases f <;> decide

open GenerateFragmentShader in
/-- A written colour discard statement reads the test reference. -/
theorem references_alphacolorref_of_color (gstate : GPUgstate) (gstate_c : GPUStateCache)
    (hen : enableColorTest gstate = true) (h2 : 2 ≤ gstate.getColorTestFunction)
    (h4 : gstate.getColorTestFunction < 4) :
    references gstate gstate_c "u_alphacolorref" := by
  have hclear : gstate.isModeClear = false := by
    simp only [enableColorTest, Bool.and_eq_true, Bool.not_eq_true'] at hen
    exact hen.2
  refine ⟨colorDiscard gstate_c.gpuVendor gstate.getColorTestFunction, ?_, ?_⟩
  · rw [body_parts gstate gstate_c hclear, bodyColorTest_eq, if_pos ⟨hen, h2, h4⟩]
    simp
  · generalize gstate.getColorTestFunction = f at h2 h4
    cases gstate_c.gpuVendor <;> interval_cases f <;> decide

open GenerateFragmentShader in
/-- On a PowerVR GPU with the alpha function NOTEQUAL and no surviving colour
test, no statement reads the test reference (line 330). -/
theorem alphacolorref_unreferenced_powervr (gstate : GPUgstate) (gstate_c : GPUStateCache)
    (hclear : gstate.isModeClear = false)
    (hv : gstate_c.gpuVendor = GPUVendor.GPU_VENDOR_POWERVR)
    (hf : gstate.getAlphaTestFunction = GE_COMP_NOTEQUAL)
    (hcol : enableColorTest gstate = false) :
    ¬ references gstate gstate_c "u_alphacolorref" := by
  have hplain : ∀ l ∈ plainBodyLines, "u_alphacolorref" ∉ identifiers l := by decide!
  rintro ⟨l, hmem, hid⟩
  rw [body_parts gstate gstate_c hclear, bodyAlphaTest_eq, bodyColorTest_eq,
    if_neg (by rintro ⟨_, _, _, h⟩; exact h hv hf), if_neg (by simp [hcol])] at hmem
  refine hplain l (plain_parts_subset gstate gstate_c l ?_) hid
  simp only [List.append_nil, List.mem_append] at hmem ⊢
  tauto

/-- C9, as stated, fails: on a PowerVR GPU, for a non-clear state with texture
mapping (MODULATE) and the alpha test NOTEQUAL against 5, the uniforms
`u_texenv`, `u_colormask` and `u_alphacolorref` are declared and no statement of
the body references any of them. -/
theorem declared_uniforms_unreferenced :
    (declares embeddedConfig texturedNotEqualState "u_texenv"
      ∧ ¬ references texturedNotEqualState powervrCache "u_texenv")
    ∧ (declares embeddedConfig texturedNotEqualState "u_colormask"
      ∧ ¬ references texturedNotEqualState powervrCache "u_colormask")
    ∧ (declares embeddedConfig texturedNotEqualState "u_alphacolorref"
      ∧ ¬ references texturedNotEqualState powervrCache "u_alphacolorref") := by
  decide

open GenerateFragmentShader in
/-- C9, amended: for every state, vendor and dialect, each of `tex`,
`v_texcoord`, `v_color0`, `u_fogcolor` and `v_fogdepth` that is declared is
referenced by a statement of the body of `main`, and so is `v_color1` when the
state is not in clear mode.  Outside clear mode with texture mapping enabled
`u_texenv` is declared, and it is referenced exactly when the texture function
is BLEND; without texture mapping it is not declared.  `u_alphacolorref` is
declared and referenced when the alpha test survives with a function code in
2..7 (on PowerVR other than NOTEQUAL) and when the colour test survives with a
function code in 2..3; on PowerVR with the alpha test surviving with NOTEQUAL
and no surviving colour test it is declared and not referenced; when neither
test survives neither it nor `u_colormask` is declared.  `u_colormask` is
referenced in no state, and it is declared when a test survives with a function
code that has a discard statement. -/
theorem declared_names_referenced (cfg : BuildConfig) (gstate : GPUgstate)
    (gstate_c : GPUStateCache) :
    (declares cfg gstate "tex" → references gstate gstate_c "tex")
    ∧ (declares cfg gstate "v_texcoord" → references gstate gstate_c "v_texcoord")
    ∧ (declares cfg gstate "v_color0" → references gstate gstate_c "v_color0")
    ∧ (declares cfg gstate "u_fogcolor" → references gstate gstate_c "u_fogcolor")
    ∧ (declares cfg gstate "v_fogdepth" → references gstate gstate_c "v_fogdepth")
    ∧ (gstate.isModeClear = false → declares cfg gstate "v_color1" →
        references gstate gstate_c "v_color1")
    ∧ (gstate.isModeClear = false → gstate.isTextureMapEnabled = true →
        declares cfg gstate "u_texenv"
        ∧ (references gstate gstate_c "u_texenv"
            ↔ gstate.getTextureFunction = GE_TEXFUNC_BLEND))
    ∧ (gstate.isTextureMapEnabled = false → ¬ declares cfg gstate "u_texenv")
    ∧ (enableAlphaTest gstate = true → 2 ≤ gstate.getAlphaTestFunction →
        gstate.getAlphaTestFunction < 8 →
        (gstate_c.gpuVendor = GPUVendor.GPU_VENDOR_POWERVR →
          gstate.getAlphaTestFunction ≠ GE_COMP_NOTEQUAL) →
        declares cfg gstate "u_alphacolorref" ∧ references gstate gstate_c "u_alphacolorref")
    ∧ (enableColorTest gstate = true → 2 ≤ gstate.getColorTestFunction →
        gstate.getColorTestFunction < 4 →
        declares cfg gstate "u_alphacolorref" ∧ references gstate gstate_c "u_alphacolorref")
    ∧ (gstate_c.gpuVendor = GPUVendor.GPU_VENDOR_POWERVR → enableAlphaTest gstate = true →
        gstate.getAlphaTestFunction = GE_COMP_NOTEQUAL → enableColorTest gstate = false →
        declares cfg gstate "u_alphacolorref"
        ∧ ¬ references gstate gstate_c "u_alphacolorref")
    ∧ (enableAlphaTest gstate = false → enableColorTest gstate = false →
        ¬ declares cfg gstate "u_alphacolorref" ∧ ¬ declares cfg gstate "u_colormask")
    ∧ ¬ references gstate gstate_c "u_colormask"
    ∧ ((enableAlphaTest gstate = true ∧ 2 ≤ gstate.getAlphaTestFunction
          ∧ gstate.getAlphaTestFunction < 8)
        ∨ (enableColorTest gstate = true ∧ 2 ≤ gstate.getColorTestFunction
          ∧ gstate.getColorTestFunction < 4) →
        declares cfg gstate "u_colormask") := by
  have htexline : doTexture gstate = true →
      references gstate gstate_c "tex" ∧ references gstate gstate_c "v_texcoord" := by
    intro h
    have hm := (body_samples_texture gstate gstate_c h).1
    constructor <;> refine ⟨_, hm, ?_⟩ <;> split <;> decide
  have hfogline : enableFog gstate = true →
      references gstate gstate_c "u_fogcolor" ∧ references gstate gstate_c "v_fogdepth" := by
    intro h
    have hm := body_mixes_fog gstate gstate_c h
    exact ⟨⟨_, hm.2, by decide⟩, ⟨_, hm.1, by decide⟩⟩
  have hdecl := declares_test_uniforms_iff cfg gstate
  refine ⟨?_, ?_, ?_, ?_, ?_, ?_, ?_, ?_, ?_, ?_, ?_, ?_, ?_, ?_⟩
  · rintro ⟨l, hmem, hid⟩
    rcases mem_declarations_cases cfg gstate l hmem with
      ⟨h, _⟩ | ⟨_, hl⟩ | ⟨_, hl⟩ | hl | ⟨_, hl⟩ | ⟨_, hl⟩ | ⟨h, _⟩
    · exact (htexline h).1
    · exact absurd hid (by clear hid hmem; revert l; decide)
    · exact absurd hid (by subst hl; decide)
    · exact absurd hid (by subst hl; decide)
    · exact absurd hid (by subst hl; decide)
    · exact absurd hid (by clear hid hmem; revert l; decide)
    · exact (htexline h).1
  · rintro ⟨l, hmem, hid⟩
    rcases mem_declarations_cases cfg gstate l hmem with
      ⟨h, _⟩ | ⟨_, hl⟩ | ⟨_, hl⟩ | hl | ⟨_, hl⟩ | ⟨_, hl⟩ | ⟨h, _⟩
    · exact (htexline h).2
    · exact absurd hid (by clear hid hmem; revert l; decide)
    · exact absurd hid (by subst hl; decide)
    · exact absurd hid (by subst hl; decide)
    · exact absurd hid (by subst hl; decide)
    · exact absurd hid (by clear hid hmem; revert l; decide)
    · exact (htexline h).2
  · intro _
    exact body_reads_primary gstate gstate_c
  · rintro ⟨l, hmem, hid⟩
    rcases mem_declarations_cases cfg gstate l hmem with
      ⟨_, hl⟩ | ⟨_, hl⟩ | ⟨_, hl⟩ | hl | ⟨_, hl⟩ | ⟨h, _⟩ | ⟨_, hl⟩
    · exact absurd hid (by subst hl; decide)
    · exact absurd hid (by clear hid hmem; revert l; decide)
    · exact absurd hid (by subst hl; decide)
    · exact absurd hid (by subst hl; decide)
    · exact absurd hid (by subst hl; decide)
    · exact (hfogline h).1
    · exact absurd hid (by clear hid hmem; revert l; decide)
  · rintro ⟨l, hmem, hid⟩
    rcases mem_declarations_cases cfg gstate l hmem with
      ⟨_, hl⟩ | ⟨_, hl⟩ | ⟨_, hl⟩ | hl | ⟨_, hl⟩ | ⟨h, _⟩ | ⟨_, hl⟩
    · exact absurd hid (by subst hl; decide)
    · exact absurd hid (by clear hid hmem; revert l; decide)
    · exact absurd hid (by subst hl; decide)
    · exact absurd hid (by subst hl; decide)
    · exact absurd hid (by subst hl; decide)
    · exact (hfogline h).2
    · exact absurd hid (by clear hid hmem; revert l; decide)
  · rintro hclear ⟨l, hmem, hid⟩
    rcases mem_declarations_cases cfg gstate l hmem with
      ⟨_, hl⟩ | ⟨_, hl⟩ | ⟨_, hl⟩ | hl | ⟨h, _⟩ | ⟨_, hl⟩ | ⟨_, hl⟩
    · exact absurd hid (by subst hl; decide)
    · exact absurd hid (by clear hid hmem; revert l; decide)
    · exact absurd hid (by subst hl; decide)
    · exact absurd hid (by subst hl; decide)
    · exact ⟨_, body_reads_secondary gstate gstate_c hclear h, by decide⟩
    · exact absurd hid (by clear hid hmem; revert l; decide)
    · exact absurd hid (by clear hid hmem; revert l; decide)
  · intro hclear htex
    refine ⟨(declares_texenv_iff cfg gstate).mpr htex, ?_⟩
    rw [references_texenv_iff gstate gstate_c hclear]
    exact ⟨fun h => h.2, fun h => ⟨htex, h⟩⟩
  · intro htex h
    rw [declares_texenv_iff, htex] at h
    exact Bool.false_ne_true h
  · intro hen h2 h8 hv
    exact ⟨hdecl.1.mpr (by simp [hen]),
      references_alphacolorref_of_alpha gstate gstate_c hen h2 h8 hv⟩
  · intro hen h2 h4
    exact ⟨hdecl.1.mpr (by simp [hen]),
      references_alphacolorref_of_color gstate gstate_c hen h2 h4⟩
  · intro hv hen hf hcol
    have hclear : gstate.isModeClear = false := by
      simp only [enableAlphaTest, Bool.and_eq_true, Bool.not_eq_true'] at hen
      exact hen.2
    exact ⟨hdecl.1.mpr (by simp [hen]),
      alphacolorref_unreferenced_powervr gstate gstate_c hclear hv hf hcol⟩
  · intro ha hc
    constructor
    · intro h
      have := hdecl.1.mp h
      simp [ha, hc] at this
    · intro h
      have := hdecl.2.mp h
      simp [ha, hc] at this
  · exact colormask_unreferenced gstate gstate_c
  · rintro (⟨hen, _, _⟩ | ⟨hen, _, _⟩) <;> exact hdecl.2.mpr (by simp [hen])

/-- The amended claim at concrete states.  With texture projection, BLEND, fog
and lighting the sampler, the fog depth, the secondary colour and `u_texenv`
are declared and referenced; with MODULATE `u_texenv` is declared and not
referenced; with the alpha test EQUAL against 5 `u_alphacolorref` is declared
and referenced; on PowerVR with NOTEQUAL against 5 it is declared and not
referenced. -/
theorem declared_names_referenced_witness :
    (declares embeddedConfig texturedFogLitState "tex"
      ∧ references texturedFogLitState plainCache "tex")
    ∧ (declares embeddedConfig texturedFogLitState "v_fogdepth"
      ∧ references texturedFogLitState plainCache "v_fogdepth")
    ∧ (texturedFogLitState.isModeClear = false
      ∧ declares embeddedConfig texturedFogLitState "v_color1"
      ∧ references texturedFogLitState plainCache "v_color1")
    ∧ ((texturedFogLitState.isModeClear = false
        ∧ texturedFogLitState.isTextureMapEnabled = true
        ∧ texturedFogLitState.getTextureFunction = GE_TEXFUNC_BLEND)
      ∧ declares embeddedConfig texturedFogLitState "u_texenv"
      ∧ references texturedFogLitState plainCache "u_texenv")
    ∧ ((modulateState.isModeClear = false ∧ modulateState.isTextureMapEnabled = true
        ∧ modulateState.getTextureFunction ≠ GE_TEXFUNC_BLEND)
      ∧ declares embeddedConfig modulateState "u_texenv"
      ∧ ¬ references modulateState plainCache "u_texenv")
    ∧ ((GenerateFragmentShader.enableAlphaTest alphaEqualState = true
        ∧ 2 ≤ alphaEqualState.getAlphaTestFunction ∧ alphaEqualState.getAlphaTestFunction < 8)
      ∧ declares embeddedConfig alphaEqualState "u_alphacolorref"
      ∧ references alphaEqualState plainCache "u_alphacolorref")
    ∧ ((powervrCache.gpuVendor = GPUVendor.GPU_VENDOR_POWERVR
        ∧ GenerateFragmentShader.enableAlphaTest alphaNotEqualState = true
        ∧ alphaNotEqualState.getAlphaTestFunction = GE_COMP_NOTEQUAL
        ∧ GenerateFragmentShader.enableColorTest alphaNotEqualState = false)
      ∧ declares embeddedConfig alphaNotEqualState "u_alphacolorref"
      ∧ ¬ references alphaNotEqualState powervrCache "u_alphacolorref") :=
  ⟨⟨by decide,
      (declared_names_referenced embeddedConfig texturedFogLitState plainCache).1 (by decide)⟩,
    ⟨by decide,
      (declared_names_referenced embeddedConfig texturedFogLitState plainCache).2.2.2.2.1
        (by decide)⟩,
    ⟨rfl, by decide,
      (declared_names_referenced embeddedConfig texturedFogLitState plainCache).2.2.2.2.2.1 rfl
        (by decide)⟩,
    ⟨⟨rfl, rfl, rfl⟩,
      ((declared_names_referenced embeddedConfig texturedFogLitState plainCache).2.2.2.2.2.2.1
        rfl rfl).1,
      ((declared_names_referenced embeddedConfig texturedFogLitState plainCache).2.2.2.2.2.2.1
        rfl rfl).2.mpr rfl⟩,
    ⟨⟨rfl, rfl, by decide⟩,
      ((declared_names_referenced embeddedConfig modulateState plainCache).2.2.2.2.2.2.1
        rfl rfl).1,
      fun h => absurd
        (((declared_names_referenced embeddedConfig modulateState plainCache).2.2.2.2.2.2.1
          rfl rfl).2.mp h) (by decide)⟩,
    ⟨⟨by decide, by decide, by decide⟩,
      (declared_names_referenced embeddedConfig alphaEqualState plainCache).2.2.2.2.2.2.2.2.1
        (by decide) (by decide) (by decide) (by decide)⟩,
    ⟨⟨rfl, by decide, rfl, by decide⟩,
      (declared_names_referenced embeddedConfig alphaNotEqualState
        powervrCache).2.2.2.2.2.2.2.2.2.2.1 rfl (by decide) rfl (by decide)⟩⟩
